import Mathlib

/-!
# Smart Campus ID System: the face-scan identification and visit-ledger pipeline

A shallow embedding of the staff scan and compare routes of `server.js`
(`POST /api/staff/{mess,gym,sports}/scan` and `.../compare`) together with the
oracle adapter `faceppCompare`, followed by the properties proved about them.

Conventions of the embedding.

* JavaScript numbers are modelled by `JSNum`: NaN, the two infinities and the
  finite values, the latter carried as exact rationals (every double is a
  rational and the comparison `>=` of two doubles is the comparison of their
  exact values).  The rounding of a decimal literal to the nearest double is not
  modelled.
* A route is a function from the request, the process configuration and the
  outside world (database tables, the answers of the comparison service, the
  clocks) to the JSON object handed to `res.json`, the list of effects issued
  in order, and the database after the request.
-/

namespace SmartCampus

/-! ## JavaScript values -/

/-- A JavaScript number: NaN, an infinity, or a finite value. -/
inductive JSNum where
  | nan
  | negInf
  | fin (q : ℚ)
  | posInf
  deriving DecidableEq

namespace JSNum

/-- The relational operator `a >= b` on numbers: false as soon as one side is
NaN, the usual order otherwise. -/
def ge : JSNum → JSNum → Bool
  | nan, _ => false
  | _, nan => false
  | posInf, _ => true
  | _, negInf => true
  | negInf, _ => false
  | _, posInf => false
  | fin a, fin b => decide (b ≤ a)

/-- Strict equality `a === b` on numbers: NaN is equal to nothing. -/
def strictEq : JSNum → JSNum → Bool
  | nan, _ => false
  | _, nan => false
  | a, b => decide (a = b)

/-- Truthiness of a number: everything but `0` and NaN. -/
def truthy : JSNum → Bool
  | nan => false
  | fin q => decide (q ≠ 0)
  | _ => true

end JSNum

/-- A JavaScript value as it is read from a field of a JSON response.  Nested
objects and arrays are kept only through the string their `toString` yields
(`"[object Object]"` for a plain object, the joined elements for an array),
which is all that `Number(...)` and truthiness look at. -/
inductive JSVal where
  | undefined
  | null
  | bool (b : Bool)
  | num (n : JSNum)
  | str (s : String)
  | object (asString : String)
  deriving DecidableEq

/-! ### `Number(string)` -/

/-- White space and line terminators stripped by `String.prototype.trim` and by
the string-to-number conversion. -/
def isJsWhitespace (c : Char) : Bool :=
  let n := c.toNat
  n = 9 || n = 10 || n = 11 || n = 12 || n = 13 || n = 32 || n = 160 ||
  n = 5760 || (8192 ≤ n && n ≤ 8202) || n = 8232 || n = 8233 || n = 8239 ||
  n = 8287 || n = 12288 || n = 65279

/-- The characters of a string with leading and trailing white space removed. -/
def trimChars (cs : List Char) : List Char :=
  ((cs.dropWhile isJsWhitespace).reverse.dropWhile isJsWhitespace).reverse

/-- Value of a digit character in the given radix. -/
def digitValue (radix : Nat) (c : Char) : Option Nat :=
  let n := c.toNat
  let v : Option Nat :=
    if 48 ≤ n ∧ n ≤ 57 then some (n - 48)
    else if 97 ≤ n ∧ n ≤ 102 then some (n - 87)
    else if 65 ≤ n ∧ n ≤ 70 then some (n - 55)
    else none
  match v with
  | some d => if d < radix then some d else none
  | none => none

/-- Reads a run of digits (possibly empty) in the given radix, most significant
first, on top of the accumulator; `none` when a character is not a digit. -/
def readDigits (radix : Nat) : List Char → Nat → Option Nat
  | [], acc => some acc
  | c :: cs, acc =>
    match digitValue radix c with
    | some d => readDigits radix cs (acc * radix + d)
    | none => none

/-- A non-empty run of digits. -/
def readDigits1 (radix : Nat) (cs : List Char) : Option Nat :=
  if cs = [] then none else readDigits radix cs 0

/-- The exponent part after `e`/`E`: an optional sign and at least one digit. -/
def readExponent : List Char → Option Int
  | '+' :: ds => (readDigits1 10 ds).map Int.ofNat
  | '-' :: ds => (readDigits1 10 ds).map (fun n => - Int.ofNat n)
  | ds => (readDigits1 10 ds).map Int.ofNat

/-- Scales a rational by a power of ten. -/
def scale10 (q : ℚ) : Int → ℚ
  | Int.ofNat e => q * (10 ^ e : ℕ)
  | Int.negSucc e => q / (10 ^ (e + 1) : ℕ)

/-- An unsigned decimal literal: `digits [. digits] [exp]` or `. digits [exp]`. -/
def readUnsignedDecimal (cs : List Char) : Option ℚ :=
  let mant := cs.takeWhile (fun c => c != 'e' && c != 'E')
  let rest := cs.dropWhile (fun c => c != 'e' && c != 'E')
  let ip := mant.takeWhile (fun c => c != '.')
  let afterInt := mant.dropWhile (fun c => c != '.')
  let fp : Option (List Char) :=
    match afterInt with
    | [] => some []
    | _ :: f => if ip = [] ∧ f = [] then none else some f
  let ex : Option Int :=
    match rest with
    | [] => some 0
    | _ :: e => readExponent e
  if mant = [] then none
  else
    match fp, ex with
    | some f, some e =>
      match readDigits 10 ip 0, readDigits 10 f 0 with
      | some i, some fr =>
        some (scale10 ((i : ℚ) + (fr : ℚ) / (10 ^ f.length : ℕ)) e)
      | _, _ => none
    | _, _ => none

/-- The string-to-number conversion applied by `Number(s)`: the empty (or
all-blank) string is `0`, `Infinity` with an optional sign, a signed decimal
literal, an unsigned `0x`/`0o`/`0b` integer literal; anything else is NaN. -/
def stringToNumber (s : String) : JSNum :=
  let cs := trimChars s.data
  let inf := "Infinity".data
  match cs with
  | [] => .fin 0
  | '0' :: 'x' :: ds | '0' :: 'X' :: ds =>
    match readDigits1 16 ds with
    | some n => .fin n
    | none => .nan
  | '0' :: 'o' :: ds | '0' :: 'O' :: ds =>
    match readDigits1 8 ds with
    | some n => .fin n
    | none => .nan
  | '0' :: 'b' :: ds | '0' :: 'B' :: ds =>
    match readDigits1 2 ds with
    | some n => .fin n
    | none => .nan
  | '-' :: ds =>
    if ds = inf then .negInf
    else match readUnsignedDecimal ds with
      | some q => .fin (-q)
      | none => .nan
  | '+' :: ds =>
    if ds = inf then .posInf
    else match readUnsignedDecimal ds with
      | some q => .fin q
      | none => .nan
  | ds =>
    if ds = inf then .posInf
    else match readUnsignedDecimal ds with
      | some q => .fin q
      | none => .nan

namespace JSVal

/-- Truthiness of a value. -/
def truthy : JSVal → Bool
  | undefined => false
  | null => false
  | bool b => b
  | num n => n.truthy
  | str s => decide (s ≠ "")
  | object _ => true

/-- The conversion `Number(v)`. -/
def toNumber : JSVal → JSNum
  | undefined => .nan
  | null => .fin 0
  | bool b => if b then .fin 1 else .fin 0
  | num n => n
  | str s => stringToNumber s
  | object r => stringToNumber r

/-- The nullish coalescing `v ?? d`. -/
def orElse (v d : JSVal) : JSVal :=
  match v with
  | undefined => d
  | null => d
  | w => w

end JSVal

/-! ## The comparison service -/

/-- Raw bytes of an image. -/
abbrev Bytes := List Nat

/-- The body `resp.data` of a comparison response: a plain JSON object with its
own fields, or any other value (`null`, a string, a number, an array). -/
inductive Body where
  | value (v : JSVal)
  | record (fields : List (String × JSVal))
  deriving DecidableEq

namespace Body

/-- Truthiness of a body, as in `cmp && ...` and `!cmp`: an object is always
truthy. -/
def truthy : Body → Bool
  | value v => v.truthy
  | record _ => true

/-- Property read `cmp.name`, for the two names the routes read
(`confidence`, `error_message`): `undefined` when the body is not a plain
object or lacks the field. -/
def get (name : String) : Body → JSVal
  | value _ => .undefined
  | record fields => (fields.lookup name).getD .undefined

end Body

/-- What awaiting a call yields: the value it resolved to, or the error it
rejected with. -/
inductive Outcome where
  | threw (msg : String)
  | returned (data : Body)
  deriving DecidableEq

/-- Process-wide configuration read from the environment. -/
structure Config where
  /-- Value of `process.env.FACEPP_KEY`, absent when unset. -/
  FACEPP_KEY : Option String
  /-- Value of `process.env.FACEPP_SECRET`, absent when unset. -/
  FACEPP_SECRET : Option String
  /-- Value of `process.env.FACEPP_THRESHOLD`, absent when unset. -/
  FACEPP_THRESHOLD : Option String
  deriving DecidableEq

/-- `(process.env.X || "").trim()`, as a list of characters. -/
def envTrimmed (v : Option String) : List Char :=
  trimChars (v.getD "").data

/-- `Number(process.env.FACEPP_THRESHOLD ?? 70)`. -/
def thresholdOf (cfg : Config) : JSNum :=
  match cfg.FACEPP_THRESHOLD with
  | none => .fin 70
  | some s => stringToNumber s

/-- Sections served by a staff checkpoint. -/
inductive SectionId where
  | mess
  | gym
  | sports
  deriving DecidableEq

/-- The section name stored in the staff session (the staff table name). -/
def SectionId.name : SectionId → String
  | .mess => "mess"
  | .gym => "gym"
  | .sports => "sports"

/-- A row of `users`, restricted to the columns the routes select; `attr` is
the section column (`hostelite`, `gym_active`, `indoor_sports_active`). -/
structure UserRow where
  id : Nat
  fullname : String
  student_id : String
  attr : Option Bool
  photo_data : Option Bytes
  deriving DecidableEq

/-- A row of a visits table (`mess_visits`, `gym_visits`, `sports_visits`). -/
structure VisitRow where
  id : Nat
  user_id : Nat
  student_id : String
  student_name : String
  attr : Option Bool
  created_at : Nat
  staff_id : Option Nat
  /-- The column `face_path`, which no insert of the routes names: it stays
  null in the rows they write. -/
  face_path : Option String := none
  deriving DecidableEq

/-- The arguments `$1..$5` of the `INSERT INTO <section>_visits` statement. -/
structure VisitArgs where
  user_id : Nat
  student_id : String
  student_name : String
  attr : Option Bool
  staff_id : Option Nat
  deriving DecidableEq

/-- Effects a route issues, in order. -/
inductive Event where
  /-- The scan query `SELECT ... FROM users WHERE photo_data IS NOT NULL`. -/
  | selectGallery
  /-- The compare query `SELECT ... FROM users WHERE id = $1 LIMIT 1`. -/
  | selectTarget (key : String)
  /-- A call `faceppCompare(probe, target)` of the oracle adapter, for the
  user row with the given id. -/
  | compareCall (userId : Nat) (probe : Bytes) (target : Option Bytes)
  /-- The HTTP request `axios.post(FACEPP_ENDPOINT, ...)` with a 20 s timeout. -/
  | httpPost (probe : Bytes) (target : Option Bytes)
  /-- The pause `setTimeout(r, ms)` awaited between two candidates. -/
  | delay (ms : Nat)
  /-- The line `console.warn("Face++ error for user", id, ...)`. -/
  | warnOracle (userId : Nat)
  /-- The line `console.error("Face++ compare error for user", id, ...)`. -/
  | errorOracle (userId : Nat)
  /-- An `INSERT INTO <section>_visits ... RETURNING` statement sent to the
  database. -/
  | insertVisit (sec : SectionId) (args : VisitArgs)
  /-- The line `console.error("Insert ..._visit failed", e)`. -/
  | errorInsert
  /-- The line `console.error("... route error", err)` of the outer handler. -/
  | errorRoute
  deriving DecidableEq

/-- The adapter `faceppCompare(probeBuffer, targetBuffer)`: it throws without
issuing a request when the key or the secret is empty, and otherwise posts the
two images and returns `resp.data` (or rejects as the request did).  `net` is
what the HTTP request yields when it is issued. -/
def faceppCompare (cfg : Config) (probe : Bytes) (target : Option Bytes)
    (net : Outcome) : List Event × Outcome :=
  if envTrimmed cfg.FACEPP_KEY = [] ∨ envTrimmed cfg.FACEPP_SECRET = [] then
    ([], .threw "Face++ credentials not configured (FACEPP_KEY/FACEPP_SECRET)")
  else
    ([.httpPost probe target], net)

/-! ## Requests, the database, responses -/

/-- The object `req.session.staff` written at staff login. -/
structure Staff where
  id : Nat
  username : String
  «section» : String
  deriving DecidableEq

/-- What a route reads from the request. -/
structure Request where
  /-- The value `req.session && req.session.staff`. -/
  staff : Option Staff
  /-- The buffer `req.file.buffer` of the uploaded field `image`. -/
  file : Option Bytes
  /-- The form field `req.body.user_id`. -/
  user_id : Option String
  /-- The form field `req.body.student_id`. -/
  student_id : Option String
  deriving DecidableEq

/-- The tables the routes touch. -/
structure Db where
  users : List UserRow
  mess_visits : List VisitRow
  gym_visits : List VisitRow
  sports_visits : List VisitRow
  deriving DecidableEq

/-- The visits table of a section. -/
def Db.visits (db : Db) : SectionId → List VisitRow
  | .mess => db.mess_visits
  | .gym => db.gym_visits
  | .sports => db.sports_visits

/-- Appends a row to the visits table of a section. -/
def Db.addVisit (db : Db) (sec : SectionId) (row : VisitRow) : Db :=
  match sec with
  | .mess => { db with mess_visits := db.mess_visits ++ [row] }
  | .gym => { db with gym_visits := db.gym_visits ++ [row] }
  | .sports => { db with sports_visits := db.sports_visits ++ [row] }

/-- The outside world of one request. -/
structure World where
  db : Db
  /-- The error the query over `users` rejects with, if it does (pool or
  storage unavailable). -/
  selectError : Option String
  /-- The error the `INSERT` into the visits table rejects with, if it does. -/
  insertError : Option String
  /-- How the database reads the text parameter `$1` of `WHERE id = $1` as an
  id; `none` when it rejects the text (the query then fails). -/
  parseKey : String → Option Nat
  /-- The id the database assigns to the next visit row. -/
  nextVisitId : Nat
  /-- The database clock `now()`. -/
  dbNow : Nat
  /-- The server clock `new Date()`. -/
  serverNow : Nat
  /-- What the HTTP request for the candidate at a gallery position yields
  (position `0` for the single request of a compare). -/
  net : Nat → Outcome

/-- The `student` object of a response. -/
structure Student where
  id : Nat
  name : String
  student_id : String
  attr : Option Bool
  photo_url : String
  deriving DecidableEq

/-- The `recentVisit` object of a scan response. -/
structure RecentVisit where
  id : Option Nat
  student_id : String
  student_name : String
  attr : Option Bool
  photo_path : String
  created_at : Nat
  deriving DecidableEq

/-- The `message` of a response: a fixed text, or the concatenation
`"Face++ error: " + cmp.error_message`, kept with the value appended. -/
inductive Message where
  | text (s : String)
  | oracleError (errorMessage : JSVal)
  deriving DecidableEq

/-- The JSON object handed to `res.json`, with the HTTP status; an absent
field is `none`, and `inserted_visit_id: null` is `some none`. -/
structure Response where
  status : Nat
  ok : Bool
  matched : Option Bool
  confidence : Option JSNum
  threshold : Option JSNum
  message : Option Message
  student : Option Student
  inserted_visit_id : Option (Option Nat)
  recentVisit : Option RecentVisit
  facepp_raw : Option Body
  raw : Option Body
  error : Option String
  deriving DecidableEq

/-- The response `{ ok: false, message }` sent with a rejection status. -/
def Response.reject (status : Nat) (message : String) : Response :=
  { status := status, ok := false, matched := none, confidence := none,
    threshold := none, message := some (.text message), student := none,
    inserted_visit_id := none, recentVisit := none, facepp_raw := none,
    raw := none, error := none }

/-- The response `{ ok: false, message: "Server error", error: String(err) }`
of the outer handler, sent with status 500. -/
def Response.serverError (err : String) : Response :=
  { Response.reject 500 "Server error" with error := some err }

/-- The result of handling one request. -/
structure Result where
  response : Response
  trace : List Event
  db : Db

/-- The template string that builds the photo path from the user id. -/
def photoUrl (id : Nat) : String :=
  "/user/photo/" ++ toString id

/-- The expression `staff.id || null`. -/
def staffIdOrNull (staff : Staff) : Option Nat :=
  if staff.id = 0 then none else some staff.id

/-- What a resolved `INSERT ... RETURNING id, created_at` yields. -/
structure InsertResult where
  rowCount : Nat
  rows : List (Nat × Nat)
  deriving DecidableEq

/-- The statement `INSERT INTO <section>_visits (...) VALUES ($1, $2, $3, $4,
now(), $5) RETURNING id, created_at`: it rejects, or appends one row stamped
with the database clock and returns its id and time. -/
def insertVisit (w : World) (sec : SectionId) (a : VisitArgs) :
    Except String InsertResult × Db :=
  match w.insertError with
  | some e => (.error e, w.db)
  | none =>
    (.ok { rowCount := 1, rows := [(w.nextVisitId, w.dbNow)] },
     w.db.addVisit sec
       { id := w.nextVisitId, user_id := a.user_id, student_id := a.student_id,
         student_name := a.student_name, attr := a.attr, created_at := w.dbNow,
         staff_id := a.staff_id })

/-! ## The scan route -/

/-- The variables of the scan loop when it is left, with the effects issued. -/
structure LoopResult where
  matchedUser : Option UserRow
  matchedConfidence : JSNum
  rawCompare : Body
  trace : List Event

/-- The loop `for (const u of users) { try { ... } catch (e) { ... } }` of the
scan routes, from the gallery position `i` on, with `raw` the current value of
`rawCompare`.  `matchedUser` starts at `null` and `matchedConfidence` at `-1`;
both are assigned only on the iteration that breaks. -/
def scanLoop (cfg : Config) (threshold : JSNum) (probe : Bytes)
    (net : Nat → Outcome) : Nat → List UserRow → Body → LoopResult
  | _, [], raw =>
    { matchedUser := none, matchedConfidence := .fin (-1), rawCompare := raw,
      trace := [] }
  | i, u :: rest, raw =>
    let call := faceppCompare cfg probe u.photo_data (net i)
    let pre := Event.compareCall u.id probe u.photo_data :: call.1
    match call.2 with
    | .threw _ =>
      let r := scanLoop cfg threshold probe net (i + 1) rest raw
      { r with trace := pre ++ Event.errorOracle u.id :: r.trace }
    | .returned cmp =>
      if cmp.truthy && cmp.get "confidence" != JSVal.undefined then
        let conf := (cmp.get "confidence").toNumber
        if conf.ge threshold then
          { matchedUser := some u, matchedConfidence := conf,
            rawCompare := cmp, trace := pre }
        else
          let r := scanLoop cfg threshold probe net (i + 1) rest cmp
          { r with trace := pre ++ Event.delay 120 :: r.trace }
      else if cmp.truthy && (cmp.get "error_message").truthy then
        let r := scanLoop cfg threshold probe net (i + 1) rest cmp
        { r with trace := pre ++ Event.warnOracle u.id :: Event.delay 120 :: r.trace }
      else
        let r := scanLoop cfg threshold probe net (i + 1) rest cmp
        { r with trace := pre ++ Event.delay 120 :: r.trace }

/-- The gallery query `SELECT ... FROM users WHERE photo_data IS NOT NULL`. -/
def gallery (db : Db) : List UserRow :=
  db.users.filter (fun u => u.photo_data.isSome)

/-- The `student` object built from a user row. -/
def studentOf (u : UserRow) : Student :=
  { id := u.id, name := u.fullname, student_id := u.student_id, attr := u.attr,
    photo_url := photoUrl u.id }

/-- The arguments of the visit insert for a user row and the staff session. -/
def visitArgs (u : UserRow) (staff : Staff) : VisitArgs :=
  { user_id := u.id, student_id := u.student_id, student_name := u.fullname,
    attr := u.attr, staff_id := staffIdOrNull staff }

/-- The handler of `POST /api/staff/<section>/scan`; the three copies in
`server.js` differ only in the section name, the section column and the visits
table. -/
def scanRoute (sec : SectionId) (cfg : Config) (w : World) (req : Request) :
    Result :=
  match req.staff with
  | none =>
    ⟨.reject 403 ("Forbidden: not " ++ sec.name ++ " staff"), [], w.db⟩
  | some staff =>
    if staff.«section» ≠ sec.name then
      ⟨.reject 403 ("Forbidden: not " ++ sec.name ++ " staff"), [], w.db⟩
    else
      match req.file with
      | none => ⟨.reject 400 "Probe image (image) is required", [], w.db⟩
      | some probeBuf =>
        match w.selectError with
        | some e =>
          ⟨.serverError e, [.selectGallery, .errorRoute], w.db⟩
        | none =>
          let users := gallery w.db
          if users.length = 0 then
            ⟨{ Response.reject 200 "No users with stored photos" with
                ok := true, matched := some false },
             [.selectGallery], w.db⟩
          else
            let threshold := thresholdOf cfg
            let r := scanLoop cfg threshold probeBuf w.net 0 users (.value .null)
            match r.matchedUser with
            | none =>
              ⟨{ status := 200, ok := true, matched := some false,
                 confidence := some r.matchedConfidence,
                 threshold := some threshold, message := none, student := none,
                 inserted_visit_id := none, recentVisit := none,
                 facepp_raw := some r.rawCompare, raw := none, error := none },
               .selectGallery :: r.trace, w.db⟩
            | some matchedUser =>
              let args := visitArgs matchedUser staff
              let ins := insertVisit w sec args
              -- `insertedId`, `createdAt` and the log line of the catch block
              let written : Option Nat × Nat × List Event :=
                match ins.1 with
                | .error _ => (none, w.serverNow, [.errorInsert])
                | .ok insertRes =>
                  if insertRes.rowCount > 0 then
                    match insertRes.rows.head? with
                    | some row => (some row.1, row.2, [])
                    | none => (none, w.serverNow, [.errorInsert])
                  else (none, w.serverNow, [])
              let recentVisit : RecentVisit :=
                { id := written.1, student_id := matchedUser.student_id,
                  student_name := matchedUser.fullname,
                  attr := matchedUser.attr,
                  photo_path := photoUrl matchedUser.id,
                  created_at := written.2.1 }
              ⟨{ status := 200, ok := true, matched := some true,
                 confidence := some r.matchedConfidence,
                 threshold := some threshold, message := none,
                 student := some (studentOf matchedUser),
                 inserted_visit_id := some written.1,
                 recentVisit := some recentVisit,
                 facepp_raw := some r.rawCompare, raw := none, error := none },
               .selectGallery :: r.trace ++
                 Event.insertVisit sec args :: written.2.2,
               ins.2⟩

/-! ## The compare route -/

/-- The expression `req.body.user_id || req.body.student_id` on form fields
(strings): the first one that is present and not empty. -/
def targetKey (req : Request) : Option String :=
  match req.user_id with
  | some s => if s ≠ "" then some s else
    match req.student_id with
    | some t => if t ≠ "" then some t else none
    | none => none
  | none =>
    match req.student_id with
    | some t => if t ≠ "" then some t else none
    | none => none

/-- The handler of `POST /api/staff/<section>/compare`; the three copies in
`server.js` differ only in the section name, the section column and the visits
table. -/
def compareRoute (sec : SectionId) (cfg : Config) (w : World) (req : Request) :
    Result :=
  match req.staff with
  | none =>
    ⟨.reject 403 ("Forbidden: not " ++ sec.name ++ " staff"), [], w.db⟩
  | some staff =>
    if staff.«section» ≠ sec.name then
      ⟨.reject 403 ("Forbidden: not " ++ sec.name ++ " staff"), [], w.db⟩
    else
      match req.file with
      | none => ⟨.reject 400 "Probe image (image) is required", [], w.db⟩
      | some probeBuf =>
        match targetKey req with
        | none => ⟨.reject 400 "user_id (target) is required", [], w.db⟩
        | some userId =>
          match w.selectError, w.parseKey userId with
          | some e, _ =>
            ⟨.serverError e, [.selectTarget userId, .errorRoute], w.db⟩
          | none, none =>
            ⟨.serverError "invalid input syntax", [.selectTarget userId, .errorRoute],
             w.db⟩
          | none, some key =>
            match (w.db.users.filter (fun u => u.id = key)).head? with
            | none =>
              ⟨.reject 404 "Target user not found", [.selectTarget userId], w.db⟩
            | some userRow =>
              match userRow.photo_data with
              | none =>
                ⟨.reject 404 "Target user has no stored photo",
                 [.selectTarget userId], w.db⟩
              | some photo =>
                let call := faceppCompare cfg probeBuf (some photo) (w.net 0)
                let pre := Event.selectTarget userId ::
                  Event.compareCall userRow.id probeBuf (some photo) :: call.1
                match call.2 with
                | .threw e => ⟨.serverError e, pre ++ [.errorRoute], w.db⟩
                | .returned cmp =>
                  if !cmp.truthy then
                    ⟨.reject 502 "Face++ returned invalid response", pre, w.db⟩
                  else if (cmp.get "error_message").truthy then
                    ⟨{ Response.reject 500 "" with
                        message := some (.oracleError (cmp.get "error_message")),
                        raw := some cmp },
                     pre, w.db⟩
                  else
                    let confidence :=
                      ((cmp.get "confidence").orElse (.num (.fin (-1)))).toNumber
                    let threshold := thresholdOf cfg
                    let matched := confidence.ge threshold
                    let args := visitArgs userRow staff
                    -- `insertId`, the database after, and the effects of the
                    -- `if (matched) { try { ... } catch (e) { ... } }` block
                    let written : Option Nat × Db × List Event :=
                      if matched then
                        let ins := insertVisit w sec args
                        match ins.1 with
                        | .error _ =>
                          (none, ins.2, [.insertVisit sec args, .errorInsert])
                        | .ok insertRes =>
                          if insertRes.rowCount > 0 then
                            match insertRes.rows.head? with
                            | some row =>
                              (some row.1, ins.2, [.insertVisit sec args])
                            | none =>
                              (none, ins.2, [.insertVisit sec args, .errorInsert])
                          else (none, ins.2, [.insertVisit sec args])
                      else (none, w.db, [])
                    ⟨{ status := 200, ok := true, matched := some matched,
                       confidence := some confidence,
                       threshold := some threshold, message := none,
                       student := some (studentOf userRow),
                       inserted_visit_id := some written.1,
                       recentVisit := none, facepp_raw := some cmp,
                       raw := none, error := none },
                     pre ++ written.2.2, written.2.1⟩

/-! ## Vocabulary of the properties -/

/-- What the adapter hands back to a route when the HTTP request would yield
`o`: the credential error when the key or secret is empty, `o` otherwise. -/
def observe (cfg : Config) (o : Outcome) : Outcome :=
  (faceppCompare cfg [] none o).2

/-- The guard `!FACEPP_KEY || !FACEPP_SECRET` of the adapter. -/
def credentialsMissing (cfg : Config) : Bool :=
  decide (envTrimmed cfg.FACEPP_KEY = []) || decide (envTrimmed cfg.FACEPP_SECRET = [])

/-- The confidence the scan loop reads off an adapter result:
`Number(cmp.confidence)` when the call returned a truthy body whose
`confidence` is not `undefined`; none otherwise. -/
def usableConfidence : Outcome → Option JSNum
  | .threw _ => none
  | .returned cmp =>
    if cmp.truthy && cmp.get "confidence" != JSVal.undefined then
      some (cmp.get "confidence").toNumber
    else none

/-- The adapter result carries a usable confidence that reaches the
threshold. -/
def accepts (threshold : JSNum) (o : Outcome) : Bool :=
  match usableConfidence o with
  | some c => c.ge threshold
  | none => false

/-- The adapter result is a success response of the comparison service with
the numeric confidence `c`: an object with `confidence: c` and no
`error_message`. -/
def reportsConfidence (o : Outcome) (c : JSNum) : Bool :=
  match o with
  | .threw _ => false
  | .returned cmp =>
    cmp.get "confidence" == JSVal.num c && cmp.get "error_message" == JSVal.undefined

/-- The adapter call failed without offering a match at the threshold: it
threw (transport failure, missing credentials), or the service answered with
an `error_message` next to no `confidence` or to one whose `Number(...)` value
does not reach the threshold. -/
def oracleFailed (threshold : JSNum) (o : Outcome) : Bool :=
  match o with
  | .threw _ => true
  | .returned cmp =>
    cmp.get "error_message" != JSVal.undefined &&
      (cmp.get "confidence" == JSVal.undefined ||
        !((cmp.get "confidence").toNumber.ge threshold))

/-- A response that carries both a confidence of 85 and an `error_message`. -/
def confidenceAndErrorBody : Body :=
  .record [("confidence", .num (.fin 85)),
           ("error_message", .str "CONCURRENCY_LIMIT_EXCEEDED")]

/-- The adapter calls of a trace, in order: user id, probe and target. -/
def compareCalls (tr : List Event) : List (Nat × Bytes × Option Bytes) :=
  tr.filterMap fun e =>
    match e with
    | .compareCall id p t => some (id, p, t)
    | _ => none

/-- The HTTP requests of a trace, in order: probe and target. -/
def httpPosts (tr : List Event) : List (Bytes × Option Bytes) :=
  tr.filterMap fun e =>
    match e with
    | .httpPost p t => some (p, t)
    | _ => none

/-- The visit inserts of a trace, in order: table and arguments. -/
def visitInserts (tr : List Event) : List (SectionId × VisitArgs) :=
  tr.filterMap fun e =>
    match e with
    | .insertVisit sec a => some (sec, a)
    | _ => none

/-- The adapter call issued for a gallery row. -/
def callOf (probe : Bytes) (u : UserRow) : Nat × Bytes × Option Bytes :=
  (u.id, probe, u.photo_data)

/-- The scan loop as the scan route runs it: over the whole gallery, from
position `0`, with `rawCompare` initially `null`. -/
def routeLoop (cfg : Config) (w : World) (probe : Bytes) : LoopResult :=
  scanLoop cfg (thresholdOf cfg) probe w.net 0 (gallery w.db) (.value .null)

/-- The request passes the guards of a section route: a staff session bound to
the section and an uploaded probe image. -/
def passesGuards (sec : SectionId) (req : Request) (staff : Staff)
    (probe : Bytes) : Prop :=
  req.staff = some staff ∧ staff.«section» = sec.name ∧ req.file = some probe

/-- The confidence a compare reads off a body: `Number(cmp.confidence ?? -1)`. -/
def compareConfidence (cmp : Body) : JSNum :=
  ((cmp.get "confidence").orElse (.num (.fin (-1)))).toNumber

/-- The target query of a compare request returns the row `userRow`: the
request names a target, the database reads it as an id, and `userRow` is the
first row of `users` with that id. -/
def findsTarget (w : World) (req : Request) (userRow : UserRow) : Prop :=
  ∃ userId key, targetKey req = some userId ∧ w.parseKey userId = some key ∧
    (w.db.users.filter (fun u => u.id = key)).head? = some userRow

/-- The compare request passes its guards, finds the target row `userRow`
with a stored photo, and the adapter returns the truthy body `cmp` without a
truthy `error_message`: the route reaches its decision on `cmp`. -/
def reachesDecision (sec : SectionId) (cfg : Config) (w : World) (req : Request)
    (staff : Staff) (probe : Bytes) (userRow : UserRow) (cmp : Body) : Prop :=
  passesGuards sec req staff probe ∧ w.selectError = none ∧
  findsTarget w req userRow ∧
  userRow.photo_data ≠ none ∧ observe cfg (w.net 0) = .returned cmp ∧
  cmp.truthy = true ∧ (cmp.get "error_message").truthy = false

/-! ## Sample inputs -/

/-- A configuration with credentials and no threshold override (threshold 70). -/
def sampleCfg : Config :=
  { FACEPP_KEY := some "key", FACEPP_SECRET := some "secret",
    FACEPP_THRESHOLD := none }

/-- An enrolled user with a stored photo. -/
def sampleUser (id : Nat) : UserRow :=
  { id := id, fullname := "Student", student_id := "2sd23is012",
    attr := some true, photo_data := some [id] }

/-- A mess operator. -/
def sampleStaff : Staff :=
  { id := 7, username := "operator", «section» := "mess" }

/-- A scan request of the mess operator with a probe image. -/
def sampleReq : Request :=
  { staff := some sampleStaff, file := some [255, 216, 255],
    user_id := none, student_id := none }

/-- A success response of the comparison service. -/
def confidenceBody (c : ℚ) : Body :=
  .record [("confidence", .num (.fin c)), ("thresholds", .object "[object Object]")]

/-- An error response of the comparison service. -/
def errorBody : Body :=
  .record [("error_message", .str "CONCURRENCY_LIMIT_EXCEEDED")]

/-- A world with the given users and per-candidate answers, a working
database and empty visit tables. -/
def sampleWorld (users : List UserRow) (answers : List Outcome) : World :=
  { db := { users := users, mess_visits := [], gym_visits := [], sports_visits := [] },
    selectError := none, insertError := none,
    parseKey := fun s => (readDigits1 10 s.data),
    nextVisitId := 1, dbNow := 1000, serverNow := 1001,
    net := fun i => answers.getD i (.threw "timeout of 20000ms exceeded") }

/-- Three enrolled users answered with confidences 40, 81 and 95. -/
def world408195 : World :=
  sampleWorld [sampleUser 1, sampleUser 2, sampleUser 3]
    [.returned (confidenceBody 40), .returned (confidenceBody 81),
     .returned (confidenceBody 95)]

/-- A compare request of the mess operator that targets the user with id 2. -/
def sampleCompareReq : Request :=
  { staff := some sampleStaff, file := some [255, 216, 255],
    user_id := some "2", student_id := none }

/-- Three enrolled users; the single comparison is answered with the given
confidence. -/
def worldCompare (c : ℚ) : World :=
  sampleWorld [sampleUser 1, sampleUser 2, sampleUser 3] [.returned (confidenceBody c)]

/-- Two enrolled users answered with confidences 40 and 70. -/
def world4070 : World :=
  sampleWorld [sampleUser 1, sampleUser 2]
    [.returned (confidenceBody 40), .returned (confidenceBody 70)]

/-- Two users, none with a stored photo. -/
def worldNoPhotos : World :=
  sampleWorld [{ sampleUser 1 with photo_data := none },
    { sampleUser 2 with photo_data := none }] []

/-- Two enrolled users, both answered with an error response. -/
def worldAllErrors : World :=
  sampleWorld [sampleUser 1, sampleUser 2]
    [.returned errorBody, .returned errorBody]

/-- One enrolled user answered with confidence 40. -/
def world40 : World :=
  sampleWorld [sampleUser 1] [.returned (confidenceBody 40)]

/-- Two enrolled users: an error response for the first, confidence 81 for
the second. -/
def worldErrorThen81 : World :=
  sampleWorld [sampleUser 1, sampleUser 2]
    [.returned errorBody, .returned (confidenceBody 81)]

/-- Two enrolled users: a confidence of 85 next to an `error_message` for the
first, confidence 81 for the second. -/
def worldError85Then81 : World :=
  sampleWorld [sampleUser 1, sampleUser 2]
    [.returned confidenceAndErrorBody, .returned (confidenceBody 81)]

/-- Two enrolled users, both answered with a confidence of 85 next to an
`error_message`. -/
def worldAllErrors85 : World :=
  sampleWorld [sampleUser 1, sampleUser 2]
    [.returned confidenceAndErrorBody, .returned confidenceAndErrorBody]

/-- The world `worldErrorThen81` with its first user removed from the gallery. -/
def world81Only : World :=
  sampleWorld [sampleUser 2] [.returned (confidenceBody 81)]

/-- The world `world408195` with a database that rejects the visit insert. -/
def worldInsertFails : World :=
  { world408195 with insertError := some "Connection terminated unexpectedly" }

/-- The world `worldCompare 81` with a database that rejects the visit insert. -/
def worldCompareInsertFails : World :=
  { worldCompare 81 with insertError := some "Connection terminated unexpectedly" }

/-! ## Vocabulary and sample inputs of the input and credential checks -/

/-- The session holds a staff member bound to the section of the route. -/
def authorized (sec : SectionId) (req : Request) : Prop :=
  ∃ staff, req.staff = some staff ∧ staff.«section» = sec.name

/-- A scan request without a session. -/
def reqNoSession : Request :=
  { sampleReq with staff := none }

/-- A scan request in the session of a gym operator. -/
def reqGymStaff : Request :=
  { sampleReq with staff := some { sampleStaff with «section» := "gym" } }

/-- A request of the mess operator without a probe image. -/
def reqNoFile : Request :=
  { sampleCompareReq with file := none }

/-- A compare request of the mess operator without a target id. -/
def compareReqNoTarget : Request :=
  { sampleCompareReq with user_id := some "", student_id := none }

/-- A configuration without an oracle key. -/
def cfgNoKey : Config :=
  { sampleCfg with FACEPP_KEY := none }

/-- Three enrolled users; every HTTP request to the service times out. -/
def worldTimeouts : World :=
  sampleWorld [sampleUser 1, sampleUser 2, sampleUser 3] []

/-- One enrolled user; the service answers with the string `"85"` as
confidence. -/
def worldString85 : World :=
  sampleWorld [sampleUser 1] [.returned (.record [("confidence", .str "85")])]

/-- Two enrolled users; the service answers `{ confidence: "high" }` for the
first and confidence 81 for the second. -/
def worldTextThen81 : World :=
  sampleWorld [sampleUser 1, sampleUser 2]
    [.returned (.record [("confidence", .str "high")]), .returned (confidenceBody 81)]

/-- Three enrolled users; the single comparison is answered with an error
response. -/
def worldCompareError : World :=
  sampleWorld [sampleUser 1, sampleUser 2, sampleUser 3] [.returned errorBody]

/-- Three users, the second without a stored photo. -/
def worldTargetNoPhoto : World :=
  sampleWorld [sampleUser 1, { sampleUser 2 with photo_data := none }, sampleUser 3]
    [.returned (confidenceBody 81)]

/-! ## The staff page script (`staffGym.js`, `staffMess.js`)

The two scripts are the same state machine; they differ in the scan URL and in
the texts of a visit item.  The script is embedded as its variables and the
parts of the page it writes, together with what the browser holds for it: the
pending timers, the pending animation-frame callbacks and the suspended
`async` calls (a start that awaits the camera or the preview, a capture step
that awaits the encoded frame or the answer to its probe).  Each handler and
each resumption of a suspended call is one function on that state.  The page
elements the script looks up are taken to be present, and the counters of the
page to hold numbers; a timer handle is never falsy (browsers hand out
positive handles). -/

/-- The page a script runs on. -/
inductive Page where
  | gym
  | mess
  deriving DecidableEq

/-- The text of the status line, by the statement that wrote it. -/
inductive Status where
  /-- The text the page was rendered with. -/
  | rendered (text : String)
  /-- The text "Stopped". -/
  | stopped
  /-- The text "Scanning...". -/
  | scanning
  /-- The text "Camera active". -/
  | cameraActive
  /-- The text "Camera started — scanning...". -/
  | cameraStarted
  /-- The text "Resuming scan...". -/
  | resuming
  /-- The text "Camera error". -/
  | cameraError
  /-- The text "Matched recently (name) — continuing". -/
  | matchedRecently (name : String)
  /-- The text "Matched: " + name, followed by the confidence in brackets with
  one decimal when `result.confidence` is truthy. -/
  | matched (name : String) (confidence : JSVal)
  /-- The text "No match (best: c)" with the confidence with one decimal. -/
  | noMatchBest (confidence : JSVal)
  /-- The text "No match — scanning...". -/
  | noMatchScanning
  deriving DecidableEq

/-- An entry of the visit list, by the values it shows. -/
structure VisitItem where
  dataId : Option Nat
  photo : Option String
  name : String
  idText : String
  category : String
  deriving DecidableEq

/-- The callback of a pending timer. -/
inductive TimerKind where
  /-- The warm-up callback of `startScanning`:
  `if (!scanning) return; requestAnimationFrame(continuousScanStep)`. -/
  | warmup
  /-- The callback `() => requestAnimationFrame(continuousScanStep)`. -/
  | capture
  deriving DecidableEq

/-- A pending timer. -/
structure Timer where
  handle : Nat
  kind : TimerKind
  delay : Nat
  deriving DecidableEq

/-- The parsed answer `result` to a probe, by what the script reads of it. -/
structure ScanReply where
  /-- Truthiness of `result.ok`. -/
  ok : Bool
  /-- Truthiness of `result.matched`. -/
  matched : Bool
  student : Option Student
  /-- The field `result.confidence`, `undefined` when absent. -/
  confidence : JSVal
  recentVisit : Option RecentVisit
  inserted_visit_id : Option Nat
  deriving DecidableEq

/-- What the request of `sendProbe` comes to. -/
inductive FetchOutcome where
  /-- The call `fetch` rejects (network failure). -/
  | failed
  /-- The body is not JSON: `res.json()` rejects. -/
  | notJson
  /-- The body parses to `result`. -/
  | reply (result : ScanReply)
  deriving DecidableEq

/-- The function `sendProbe`, once its request has ended: the parsed body,
`null` when the body does not parse, `{ ok: false, message }` when the request
failed. -/
def sendProbe : FetchOutcome → Option ScanReply
  | .failed =>
    some { ok := false, matched := false, student := none, confidence := .undefined,
           recentVisit := none, inserted_visit_id := none }
  | .notJson => none
  | .reply result => some result

/-- The variables of the script, the parts of the page it writes, and what the
browser holds for it. -/
structure Client where
  stream : Option Nat
  scanning : Bool
  cameraActive : Bool
  scanLoopTimer : Option Nat
  attempts : Nat
  /-- The map `lastMatched`: user id to time of the last displayed match. -/
  lastMatched : List (Nat × Nat)
  /-- The property `startBtn.disabled`. -/
  startDisabled : Bool
  /-- The property `stopBtn.disabled`. -/
  stopDisabled : Bool
  status : Status
  /-- The overlay is displayed (`scanOverlay.style.display` is `block`). -/
  overlayShown : Bool
  /-- The property `videoEl.srcObject`. -/
  videoSrc : Option Nat
  videoPaused : Bool
  /-- The class `active` of `videoWrap`. -/
  wrapActive : Bool
  visitList : List VisitItem
  totalVisits : Nat
  /-- The counter of subscribed (gym) or hostelite (mess) visits. -/
  attrVisits : Nat
  /-- The counter of not subscribed (gym) or day scholar (mess) visits. -/
  otherVisits : Nat
  /-- The number of `alert(...)` boxes shown. -/
  alerts : Nat
  /-- The pending timers, oldest first. -/
  timers : List Timer
  /-- The handle the next `setTimeout` returns. -/
  nextTimer : Nat
  /-- The pending `requestAnimationFrame(continuousScanStep)` callbacks. -/
  frames : Nat
  /-- The calls of `startScanning` that await `getUserMedia`. -/
  cameraPending : Nat
  /-- The calls of `startScanning` that await `videoEl.play()`. -/
  playPending : Nat
  /-- The capture steps that await the blob of `canvas.toBlob`. -/
  blobPending : Nat
  /-- The capture steps that await the answer to their probe. -/
  probesInFlight : Nat
  /-- The probes sent, oldest first. -/
  sent : List Bytes
  /-- The streams whose tracks were stopped, in order. -/
  released : List Nat
  deriving DecidableEq

/-- The state when the script has been loaded, for the page contents given. -/
def Client.initial (stopDisabled : Bool) (statusText : String)
    (visits : List VisitItem) (total attr other : Nat) : Client :=
  { stream := none, scanning := false, cameraActive := false, scanLoopTimer := none,
    attempts := 0, lastMatched := [], startDisabled := false,
    stopDisabled := stopDisabled, status := .rendered statusText,
    overlayShown := false, videoSrc := none, videoPaused := true, wrapActive := false,
    visitList := visits, totalVisits := total, attrVisits := attr, otherVisits := other,
    alerts := 0, timers := [], nextTimer := 1, frames := 0, cameraPending := 0,
    playPending := 0, blobPending := 0, probesInFlight := 0, sent := [], released := [] }

def CAPTURE_INTERVAL_MS : Nat := 1200

def POST_MATCH_COOLDOWN_MS : Nat := 3000

def SAME_USER_DEBOUNCE_MS : Nat := 10000

/-- The function `setStatus(s)`: the text is written and the overlay is shown
unless the text is "Stopped". -/
def setStatus (c : Client) (s : Status) : Client :=
  { c with status := s, overlayShown := decide (s ≠ .stopped) }

/-- The statement `scanLoopTimer = setTimeout(() =>
requestAnimationFrame(continuousScanStep), delay)`. -/
def scheduleStep (c : Client) (delay : Nat) : Client :=
  { c with timers := c.timers ++ [{ handle := c.nextTimer, kind := .capture, delay := delay }],
           scanLoopTimer := some c.nextTimer, nextTimer := c.nextTimer + 1 }

/-- The call `lastMatched.set(id, now)`. -/
def setLastMatched (m : List (Nat × Nat)) (id now : Nat) : List (Nat × Nat) :=
  (id, now) :: m.filter (fun e => e.1 ≠ id)

/-- The function `prependVisit(student)` on an object of the shape of
`recentVisit`: the item is built from the fields with their fallbacks and put
first in the list. -/
def prependVisit (page : Page) (c : Client) (v : RecentVisit) : Client :=
  let item : VisitItem :=
    { dataId := match v.id with
        | some n => if n ≠ 0 then some n else none
        | none => none,
      photo := if v.photo_path ≠ "" then some v.photo_path else none,
      name := if v.student_name ≠ "" then v.student_name else "Unknown",
      idText := if v.student_id ≠ "" then v.student_id else
        match v.id with
        | some n => if n ≠ 0 then toString n else ""
        | none => "",
      category := match page with
        | .gym =>
          match v.attr with
          | some true => "Subscribed"
          | some false => "Not Subscribed"
          | none => ""
        | .mess => if v.attr = some true then "Hostelite" else "Day Scholar" }
  { c with visitList := item :: c.visitList }

/-- The function `updateTotalsOnMatch(rv)`, which reads the section attribute
of `rv`. -/
def updateTotalsOnMatch (c : Client) (attr : Option Bool) : Client :=
  if attr = some true then
    { c with totalVisits := c.totalVisits + 1, attrVisits := c.attrVisits + 1 }
  else
    { c with totalVisits := c.totalVisits + 1, otherVisits := c.otherVisits + 1 }

/-- The function `continuousScanStep` from its start to its first real
suspension, as run by an animation-frame callback; `readyState` and
`videoWidth` are those of the preview at that moment.  The step ends at once
when `scanning` is false; it schedules the next step when no frame is ready or
`captureFrameBlob` returns `null`; otherwise it awaits the encoded frame. -/
def continuousScanStep (c : Client) (readyState videoWidth : Nat) : Client :=
  if !c.scanning then c
  else
    let c1 := { c with attempts := c.attempts + 1 }
    if c1.stream.isNone || decide (readyState < 2) then
      scheduleStep c1 CAPTURE_INTERVAL_MS
    else if videoWidth = 0 then
      scheduleStep c1 CAPTURE_INTERVAL_MS
    else
      { c1 with blobPending := c1.blobPending + 1 }

/-- The function `continuousScanStep` resumed with the blob of
`canvas.toBlob`: without a blob the next step is scheduled; with one the
status is written and the probe is sent. -/
def stepAfterBlob (c : Client) (blob : Option Bytes) : Client :=
  match blob with
  | none => scheduleStep c CAPTURE_INTERVAL_MS
  | some b =>
    let c1 := setStatus c .scanning
    { c1 with probesInFlight := c1.probesInFlight + 1, sent := c1.sent ++ [b] }

/-- The function `continuousScanStep` resumed with the result of `sendProbe`,
at the time `now` of `Date.now()`. -/
def stepAfterProbe (page : Page) (c : Client) (o : FetchOutcome) (now : Nat) :
    Client :=
  match sendProbe o with
  | none => scheduleStep c CAPTURE_INTERVAL_MS
  | some result =>
    if !result.ok then scheduleStep c CAPTURE_INTERVAL_MS
    else if result.matched then
      -- `matchedId = result.student && result.student.id`, a truthy id
      let matchedId : Option Nat :=
        match result.student with
        | some st => if st.id ≠ 0 then some st.id else none
        | none => none
      let last : Nat :=
        match matchedId with
        | some id => (c.lastMatched.lookup id).getD 0
        | none => 0
      if matchedId.isSome && decide ((now : Int) - (last : Int) < (SAME_USER_DEBOUNCE_MS : Int)) then
        scheduleStep
          (setStatus c (.matchedRecently (match result.student with
            | some st => st.name
            | none => "")))
          CAPTURE_INTERVAL_MS
      else
        let c1 : Client :=
          match matchedId with
          | some id => { c with lastMatched := setLastMatched c.lastMatched id now }
          | none => c
        let c2 := setStatus c1 (.matched (match result.student with
          | some st => st.name
          | none => "") result.confidence)
        let c3 : Client :=
          match result.recentVisit, result.student with
          | some rv, _ => updateTotalsOnMatch (prependVisit page c2 rv) rv.attr
          | none, some st =>
            updateTotalsOnMatch
              (prependVisit page c2
                { id := match result.inserted_visit_id with
                    | some n => if n ≠ 0 then some n else none
                    | none => none,
                  student_id := st.student_id, student_name := st.name,
                  attr := st.attr, photo_path := st.photo_url, created_at := now })
              st.attr
          | none, none => c2
        scheduleStep c3 POST_MATCH_COOLDOWN_MS
    else
      let c1 :=
        if result.confidence ≠ .undefined then setStatus c (.noMatchBest result.confidence)
        else setStatus c .noMatchScanning
      scheduleStep c1 CAPTURE_INTERVAL_MS

/-- The end of `startScanning` after the camera has started: `scanning` is
set, the status written and the warm-up timer of 600 ms set. -/
def startScanningResume (c : Client) : Client :=
  let c1 := setStatus { c with scanning := true } .cameraStarted
  { c1 with timers := c1.timers ++ [{ handle := c1.nextTimer, kind := .warmup, delay := 600 }],
            nextTimer := c1.nextTimer + 1 }

/-- The `catch` block of `startScanning`. -/
def startScanningFailed (c : Client) : Client :=
  setStatus { c with alerts := c.alerts + 1, scanning := false, startDisabled := false,
                     stopDisabled := true, wrapActive := false } .cameraError

/-- The function `startScanning` up to its suspension: nothing when
`scanning`; else the buttons are switched, `attempts` reset and
`startCameraIfNeeded` called, which returns at once when the camera is active
and otherwise requests the camera. -/
def startScanning (c : Client) : Client :=
  if c.scanning then c
  else
    let c1 := { c with startDisabled := true, stopDisabled := false, attempts := 0 }
    if c1.cameraActive && c1.stream.isSome then startScanningResume c1
    else { c1 with cameraPending := c1.cameraPending + 1 }

/-- The function `startCameraIfNeeded` resumed with the stream of
`getUserMedia`: the stream is kept and shown, and `videoEl.play()` awaited. -/
def cameraGranted (c : Client) (s : Nat) : Client :=
  { c with stream := some s, videoSrc := some s, playPending := c.playPending + 1 }

/-- The function `startCameraIfNeeded` resumed after `videoEl.play()`, followed
by the end of `startScanning`. -/
def playStarted (c : Client) : Client :=
  startScanningResume
    (setStatus { c with wrapActive := true, cameraActive := true, videoPaused := false }
      .cameraActive)

/-- The function `stopScanning`. -/
def stopScanning (c : Client) : Client :=
  let c1 := { c with scanning := false, startDisabled := false, stopDisabled := true }
  let c2 : Client :=
    match c1.scanLoopTimer with
    | some h =>
      { c1 with timers := c1.timers.filter (fun t => t.handle ≠ h), scanLoopTimer := none }
    | none => c1
  let c3 : Client :=
    match c2.stream with
    | some s => { c2 with released := c2.released ++ [s], stream := none }
    | none => c2
  setStatus { c3 with cameraActive := false, videoPaused := true, videoSrc := none,
                      wrapActive := false } .stopped

/-- The click handler of the start button. -/
def onStartClick (c : Client) : Client :=
  if c.cameraActive && !c.scanning then
    let c1 := setStatus { c with scanning := true, startDisabled := true,
                                 stopDisabled := false } .resuming
    { c1 with frames := c1.frames + 1 }
  else startScanning c

/-- The callback of a timer that fires. -/
def runTimer (c : Client) (k : TimerKind) : Client :=
  match k with
  | .warmup => if !c.scanning then c else { c with frames := c.frames + 1 }
  | .capture => { c with frames := c.frames + 1 }

/-- What can happen to the page. -/
inductive ClientEvent where
  /-- A click on the start button. -/
  | clickStart
  /-- A click on the stop button. -/
  | clickStop
  /-- The call `getUserMedia` resolves with a stream. -/
  | cameraGranted (s : Nat)
  /-- The call `getUserMedia` rejects. -/
  | cameraDenied
  /-- The call `videoEl.play()` resolves. -/
  | playOk
  /-- The call `videoEl.play()` rejects. -/
  | playFailed
  /-- The pending timer with this handle fires. -/
  | timerFires (handle : Nat)
  /-- A pending animation-frame callback runs. -/
  | frame (readyState videoWidth : Nat)
  /-- The callback of `canvas.toBlob` runs. -/
  | blobReady (blob : Option Bytes)
  /-- The request of a probe ends, at the time `now`. -/
  | probeResponse (o : FetchOutcome) (now : Nat)
  deriving DecidableEq

/-- One event on the page.  An event that cannot happen in the state (a click
on a disabled button, a timer that is not pending, an answer nobody awaits)
leaves it as it is. -/
def Client.step (page : Page) (c : Client) : ClientEvent → Client
  | .clickStart => if c.startDisabled then c else onStartClick c
  | .clickStop => if c.stopDisabled then c else stopScanning c
  | .cameraGranted s =>
    if c.cameraPending = 0 then c
    else cameraGranted { c with cameraPending := c.cameraPending - 1 } s
  | .cameraDenied =>
    if c.cameraPending = 0 then c
    else startScanningFailed { c with cameraPending := c.cameraPending - 1 }
  | .playOk =>
    if c.playPending = 0 then c
    else playStarted { c with playPending := c.playPending - 1 }
  | .playFailed =>
    if c.playPending = 0 then c
    else startScanningFailed { c with playPending := c.playPending - 1 }
  | .timerFires h =>
    match c.timers.find? (fun t => t.handle = h) with
    | some t => runTimer { c with timers := c.timers.filter (fun t => t.handle ≠ h) } t.kind
    | none => c
  | .frame readyState videoWidth =>
    if c.frames = 0 then c
    else continuousScanStep { c with frames := c.frames - 1 } readyState videoWidth
  | .blobReady blob =>
    if c.blobPending = 0 then c
    else stepAfterBlob { c with blobPending := c.blobPending - 1 } blob
  | .probeResponse o now =>
    if c.probesInFlight = 0 then c
    else stepAfterProbe page { c with probesInFlight := c.probesInFlight - 1 } o now

/-- A sequence of events, in order. -/
def Client.run (page : Page) (c : Client) (es : List ClientEvent) : Client :=
  es.foldl (Client.step page) c

/-! ## Vocabulary and sample inputs of the script properties -/

/-- The debounce test of the script on a matched answer: the student id is
truthy and `now - last < SAME_USER_DEBOUNCE_MS`, where `last` is the time
recorded for the id, or `0` when none is recorded. -/
def suppressed (c : Client) (r : ScanReply) (now : Nat) : Bool :=
  match r.student with
  | some st =>
    decide (st.id ≠ 0) &&
      decide ((now : Int) - (((c.lastMatched.lookup st.id).getD 0 : Nat) : Int) < 10000)
  | none => false

/-- The result of a probe is a match that the script displays: an answer with
truthy `ok` and `matched` that the debounce test does not suppress. -/
def displayedMatch (c : Client) (o : FetchOutcome) (now : Nat) : Bool :=
  match sendProbe o with
  | some r => r.ok && r.matched && !suppressed c r now
  | none => false

/-- The gym page as loaded: stop button disabled, no visit listed. -/
def samplePage : Client :=
  Client.initial true "Idle" [] 0 0 0

/-- The answer of a scan that matched the sample user with the given id. -/
def matchedReply (id : Nat) : ScanReply :=
  { ok := true, matched := true, student := some (studentOf (sampleUser id)),
    confidence := .num (.fin 81),
    recentVisit := some
      { id := some 1, student_id := "2sd23is012", student_name := "Student",
        attr := some true, photo_path := photoUrl id, created_at := 1000 },
    inserted_visit_id := some 1 }

/-- The answer of a scan that matched nobody. -/
def noMatchReply : ScanReply :=
  { ok := true, matched := false, student := none, confidence := .num (.fin (-1)),
    recentVisit := none, inserted_visit_id := none }

/-- A start click, the camera granted and playing, the warm-up timer, one
frame captured and encoded: the first probe is in flight. -/
def firstProbeEvents : List ClientEvent :=
  [.clickStart, .cameraGranted 1, .playOk, .timerFires 1, .frame 4 640,
   .blobReady (some [255, 216, 255])]

/-- The page with its first probe in flight. -/
def probing : Client :=
  Client.run .gym samplePage firstProbeEvents

/-- The page with its first probe in flight, then stopped. -/
def stoppedWhileProbing : Client :=
  Client.step .gym probing .clickStop

/-- The event is not the end of a probe request. -/
def ClientEvent.notResponse : ClientEvent → Bool
  | .probeResponse _ _ => false
  | _ => true

/-- The page after its first probe was answered with a match of user 5, at
the time 1700000000000. -/
def confirmed5 : Client :=
  Client.step .gym probing (.probeResponse (.reply (matchedReply 5)) 1700000000000)

/-- A stop click, then a start click with the camera granted and playing, the
warm-up timer, one frame captured and encoded. -/
def restartEvents : List ClientEvent :=
  [.clickStop, .clickStart, .cameraGranted 2, .playOk, .timerFires 3, .frame 4 640,
   .blobReady (some [255, 216, 255])]

/-- The next capture step after the match of user 5: its timer fires, a frame
is captured and encoded. -/
def nextProbeEvents : List ClientEvent :=
  [.timerFires 2, .frame 4 640, .blobReady (some [255, 216, 255])]

/-- After a stop while the first probe is in flight: a start click with the
camera granted and playing, then the answer to the first probe. -/
def startThenLateAnswer : List ClientEvent :=
  [.clickStart, .cameraGranted 2, .playOk,
   .probeResponse (.reply noMatchReply) 1700000000000]

/-- Both pending timers fire, both frames are captured and encoded. -/
def bothLoopsCapture : List ClientEvent :=
  [.timerFires 2, .timerFires 3, .frame 4 640, .frame 4 640,
   .blobReady (some [255, 216, 255]), .blobReady (some [255, 216, 255])]

/-! ## Sample inputs of the later properties -/

/-- A start click after which the camera is granted and the preview cannot be
played. -/
def previewFails : Client :=
  Client.run .gym samplePage [.clickStart, .cameraGranted 1, .playFailed]

/-- A start click after which the camera is denied. -/
def cameraRefused : Client :=
  Client.run .gym samplePage [.clickStart, .cameraDenied]

/-- Two enrolled users: the request for the first is rejected by the service
(the HTTP call throws), the second is answered with confidence 81. -/
def worldThrowThen81 : World :=
  sampleWorld [sampleUser 1, sampleUser 2]
    [.threw "Request failed with status code 403", .returned (confidenceBody 81)]

/-! ## `escapeHtml` (`staffGym.js`, `staffMess.js`) -/

/-- The double quote character. -/
def dquote : Char := Char.ofNat 34

/-- The single quote character. -/
def squote : Char := Char.ofNat 39

/-- The call `str.replace(re, fn)` for a global regular expression `re` that
is one character class, and a callback `fn` that looks the matched character
up in an object literal: each character of the class is replaced by the text
the lookup yields (the text "undefined" when the object has no such key), every
other character is kept. -/
def replaceClass (cls : List Char) (table : List (Char × String)) (cs : List Char) :
    List Char :=
  cs.flatMap fun ch =>
    if cls.contains ch then ((table.lookup ch).getD "undefined").data else [ch]

namespace Gym

/-- The function `escapeHtml` of `staffGym.js`, on a string. -/
def escapeHtml (s : String) : String :=
  if s = "" then ""
  else
    String.mk (replaceClass ['&', '<', '>', dquote, squote]
      [('&', "&amp;"), ('<', "&lt;"), ('>', "&gt;"), (dquote, "&quot;"), (squote, "&#39;")]
      s.data)

end Gym

namespace Mess

/-- The function `escapeHtml` of `staffMess.js`, on a string. -/
def escapeHtml (s : String) : String :=
  if s = "" then ""
  else
    String.mk (replaceClass ['&', '<', '>', dquote, squote]
      [('&', "&amp;"), ('<', "&lt;"), ('>', "&gt;"), (dquote, "&quot;"), (squote, "&#39;")]
      s.data)

end Mess

/-- The five characters `escapeHtml` replaces. -/
def isMarkupChar (c : Char) : Bool :=
  c == '&' || c == '<' || c == '>' || c == dquote || c == squote

/-- The entity that replaces a markup character. -/
def entityOf (c : Char) : List Char :=
  if c = '&' then "&amp;".data
  else if c = '<' then "&lt;".data
  else if c = '>' then "&gt;".data
  else if c = dquote then "&quot;".data
  else "&#39;".data

/-- The five entities. -/
def entities : List (List Char) :=
  ["&amp;".data, "&lt;".data, "&gt;".data, "&quot;".data, "&#39;".data]

/-- The piece `escapeHtml` writes for one character. -/
def escapePiece (c : Char) : List Char :=
  if isMarkupChar c = true then entityOf c else [c]

/-! ## The subscription routes (server.js, `/gym/subscribe`, `/sports/subscribe`) -/

namespace JSNum

/-- The relational operator `a < b` on numbers: false as soon as one side is
NaN. -/
def lt : JSNum → JSNum → Bool
  | nan, _ => false
  | _, nan => false
  | posInf, _ => false
  | _, negInf => false
  | negInf, _ => true
  | _, posInf => true
  | fin a, fin b => decide (a < b)

/-- The relational operator `a <= b` on numbers: false as soon as one side is
NaN. -/
def le : JSNum → JSNum → Bool
  | nan, _ => false
  | _, nan => false
  | negInf, _ => true
  | _, posInf => true
  | posInf, _ => false
  | _, negInf => false
  | fin a, fin b => decide (a ≤ b)

/-- The subtraction `a - b` on numbers. -/
def sub : JSNum → JSNum → JSNum
  | nan, _ => nan
  | _, nan => nan
  | posInf, posInf => nan
  | negInf, negInf => nan
  | posInf, _ => posInf
  | negInf, _ => negInf
  | fin _, posInf => negInf
  | fin _, negInf => posInf
  | fin a, fin b => fin (a - b)

end JSNum

/-- The columns of a `users` row the subscription routes read and write. -/
structure Account where
  id : Nat
  /-- The `wallet` column as the driver hands it over. -/
  wallet : JSVal
  gym_active : Bool
  indoor_sports_active : Bool
  deriving DecidableEq

/-- A request to a subscription route. -/
structure SubscribeRequest where
  /-- Value of `req.session.userId`, absent when nobody is logged in. -/
  userId : Option Nat
  /-- Value of `req.body.amount`. -/
  amount : JSVal
  deriving DecidableEq

/-- What a subscription route sends back. -/
inductive SubscribeReply where
  | redirect (url : String)
  | json (ok : Bool) (message : String)
  deriving DecidableEq

/-- The accounts and what the two statements of a subscription route do when
they are run: each may fail. -/
structure Bank where
  accounts : List Account
  selectFails : Bool
  updateFails : Bool
  deriving DecidableEq

/-- Reply of a subscription route and the accounts it leaves. -/
structure SubscribeResult where
  reply : SubscribeReply
  accounts : List Account
  deriving DecidableEq

/-- The value `r.rows[0].wallet || 0` turned into a number. -/
def walletOf (a : Account) : JSNum :=
  (if a.wallet.truthy then a.wallet else JSVal.num (.fin 0)).toNumber

/-- The statement `UPDATE users SET wallet = $1, <flag> = true WHERE id = $2`. -/
def updateWallet (sec : SectionId) (newWallet : JSNum) (userId : Nat)
    (accounts : List Account) : List Account :=
  accounts.map fun a =>
    if a.id = userId then
      match sec with
      | .gym => { a with wallet := .num newWallet, gym_active := true }
      | _ => { a with wallet := .num newWallet, indoor_sports_active := true }
    else a

/-- The body of the `try` block shared by the two subscription routes. -/
def subscribeBody (sec : SectionId) (b : Bank) (userId : Nat) (amount : JSNum) :
    SubscribeResult :=
  if b.selectFails then ⟨.json false "Server error", b.accounts⟩
  else match b.accounts.find? (fun a => a.id == userId) with
    | none => ⟨.json false "User not found", b.accounts⟩
    | some row =>
      let wallet := walletOf row
      if wallet.lt amount then ⟨.json false "Insufficient amount", b.accounts⟩
      else
        let newWallet := wallet.sub amount
        if b.updateFails then ⟨.json false "Server error", b.accounts⟩
        else ⟨.json true "Subscription successful",
              updateWallet sec newWallet userId b.accounts⟩

/-- The route `POST /gym/subscribe`. -/
def gymSubscribe (b : Bank) (req : SubscribeRequest) : SubscribeResult :=
  match req.userId with
  | none => ⟨.redirect "/login", b.accounts⟩
  | some userId =>
    if userId = 0 then ⟨.redirect "/login", b.accounts⟩
    else
      let amount := req.amount.toNumber
      subscribeBody .gym b userId amount

/-- The route `POST /sports/subscribe`. -/
def sportsSubscribe (b : Bank) (req : SubscribeRequest) : SubscribeResult :=
  match req.userId with
  | none => ⟨.redirect "/login", b.accounts⟩
  | some userId =>
    if userId = 0 then ⟨.redirect "/login", b.accounts⟩
    else
      let amount := req.amount.toNumber
      if !amount.truthy || amount.le (.fin 0) then
        ⟨.json false "Invalid amount", b.accounts⟩
      else subscribeBody .sports b userId amount

/-- One student with 100 in the wallet and no subscription. -/
def bank100 : Bank :=
  { accounts := [{ id := 1, wallet := .num (.fin 100), gym_active := false,
                   indoor_sports_active := false }],
    selectFails := false, updateFails := false }

/-- The student of `bank100` submits the amount `-50`. -/
def negativeAmount : SubscribeRequest :=
  { userId := some 1, amount := .num (.fin (-50)) }

/-! ## Library fines (server.js, `/sdmcet/library`, `/sdmcet/staff/library`)

Instants are milliseconds since the epoch, as `Date.prototype.getTime` gives
them.  The text `DD/MM/YYYY` that the staff query asks of the data base names
one calendar day of the zone of the server; the day is kept here by its
number, counted from the epoch, instead of by its three fields. -/

/-- The divisor `1000 * 60 * 60 * 24`. -/
def MS_PER_DAY : Int := 1000 * 60 * 60 * 24

/-- The time zone of the server.  The language leaves it to the host: the
offset of local time from UTC, in milliseconds, at a UTC instant, and the
offset that turns a local time value into an instant. -/
structure Zone where
  /-- The offset in force at the UTC instant `t`. -/
  offsetAtUtc : Int → Int
  /-- The offset used for the local time value `l`. -/
  offsetAtLocal : Int → Int

/-- The local time value of an instant. -/
def localTime (z : Zone) (t : Int) : Int := t + z.offsetAtUtc t

/-- The instant of a local time value. -/
def utcOfLocal (z : Zone) (l : Int) : Int := l - z.offsetAtLocal l

/-- The call `d.setHours(0, 0, 0, 0)`: the local time of `t` cut to the start
of its day, turned back into an instant. -/
def setHoursZero (z : Zone) (t : Int) : Int :=
  utcOfLocal z (localTime z t / MS_PER_DAY * MS_PER_DAY)

/-- The calendar day `TO_CHAR(b.due_on, 'DD/MM/YYYY')` names, in the zone of
the server. -/
def calendarDay (z : Zone) (t : Int) : Int := localTime z t / MS_PER_DAY

/-- The call `new Date(year, month - 1, day)`: the instant of the local
midnight that opens a calendar day. -/
def dateOfDay (z : Zone) (day : Int) : Int := utcOfLocal z (day * MS_PER_DAY)

/-- Day count of the student page for one book:
`Math.floor((today - due) / (1000 * 60 * 60 * 24))` with `today` the instant
of the request. -/
def studentDiffDays (now due_on : Int) : Int := (now - due_on) / MS_PER_DAY

/-- What the loop of the student page adds to `totalFine` for one book. -/
def studentFine (now due_on : Int) : Int :=
  let diffDays := studentDiffDays now due_on
  if diffDays > 0 then
    if diffDays ≤ 7 then diffDays * 1 else 7 * 1 + (diffDays - 7) * 5
  else 0

/-- The `totalFine` the student page renders. -/
def totalFine (now : Int) (dues : List Int) : Int :=
  dues.foldl (fun acc due_on => acc + studentFine now due_on) 0

/-- Day count of the staff page for one book. -/
def staffDiffDays (z : Zone) (now due_on : Int) : Int :=
  let today := setHoursZero z now
  let due := setHoursZero z (dateOfDay z (calendarDay z due_on))
  (today - due) / MS_PER_DAY

/-- The `fine` the staff page shows for one book. -/
def staffFine (z : Zone) (now due_on : Int) : Int :=
  let diffDays := staffDiffDays z now due_on
  if diffDays > 0 then
    if diffDays ≤ 7 then diffDays else 7 + (diffDays - 7) * 5
  else 0

/-- The tariff in the words of the specification: nothing when not overdue,
one per day for the first seven days, five per day after that. -/
def tariff (d : Int) : Int :=
  if d ≤ 0 then 0 else if d ≤ 7 then d else 7 + 5 * (d - 7)

/-- A stored instant without a time of day: a local midnight. -/
def atLocalMidnight (z : Zone) (t : Int) : Prop := localTime z t % MS_PER_DAY = 0

instance (z : Zone) (t : Int) : Decidable (atLocalMidnight z t) := by
  unfold atLocalMidnight; infer_instance

/-- Local time is `c` milliseconds ahead of UTC at the stored due instant, at
the instant of the request and at the midnights that open their two days. -/
def sameOffset (z : Zone) (c now due_on : Int) : Prop :=
  z.offsetAtUtc now = c ∧ z.offsetAtUtc due_on = c ∧
  z.offsetAtLocal (calendarDay z now * MS_PER_DAY) = c ∧
  z.offsetAtLocal (calendarDay z due_on * MS_PER_DAY) = c

instance (z : Zone) (c now due_on : Int) : Decidable (sameOffset z c now due_on) := by
  unfold sameOffset; infer_instance

/-- A server that runs in UTC. -/
def utcZone : Zone := { offsetAtUtc := fun _ => 0, offsetAtLocal := fun _ => 0 }

/-- A server in the zone of New York around the change to daylight saving of
9 March 2025 (day 20156): five hours behind UTC before 07:00 UTC of that day,
four hours behind from then on; a local time value before 03:00 of that day is
read with the offset before the change. -/
def newYorkZone : Zone :=
  { offsetAtUtc := fun t =>
      if t < 20156 * 86400000 + 7 * 3600000 then -(5 * 3600000) else -(4 * 3600000),
    offsetAtLocal := fun l =>
      if l < 20156 * 86400000 + 3 * 3600000 then -(5 * 3600000) else -(4 * 3600000) }

/-- A book due on 8 March 2025, stored as the local midnight of New York. -/
def dueMarch8 : Int := 20155 * 86400000 + 5 * 3600000

/-- A request on 10 March 2025 at 12:00, New York time. -/
def nowMarch10Noon : Int := 20157 * 86400000 + 16 * 3600000

/-- A book due on day 10 at 18:00 UTC. -/
def dueDay10Evening : Int := 10 * 86400000 + 18 * 3600000

/-- A request on day 11 at 12:00 UTC. -/
def nowDay11Noon : Int := 11 * 86400000 + 12 * 3600000

/-- The configuration `sampleCfg` with `FACEPP_THRESHOLD` set to the text `s`. -/
def cfgThreshold (s : String) : Config :=
  { sampleCfg with FACEPP_THRESHOLD := some s }

/-! ## Vocabulary and sample inputs of the scan and compare comparison -/

/-- An adapter result on which a scan over the single candidate and a compare
of that candidate come to the same decision at the threshold: a failed call,
a falsy body, and every other body except (a) one with a truthy
`error_message` whose `confidence` reaches the threshold, (b) one without
`error_message` and without `confidence` when `-1` reaches the threshold,
(c) one without `error_message` whose `confidence` is `null` when `0` reaches
the threshold. -/
def agreeable (threshold : JSNum) (o : Outcome) : Bool :=
  match o with
  | .threw _ => true
  | .returned cmp =>
    !cmp.truthy ||
      (if (cmp.get "error_message").truthy then
        !(cmp.get "confidence" != JSVal.undefined &&
          (cmp.get "confidence").toNumber.ge threshold)
      else if cmp.get "confidence" == JSVal.undefined then
        !(JSNum.ge (.fin (-1)) threshold)
      else if cmp.get "confidence" == JSVal.null then
        !(JSNum.ge (.fin 0) threshold)
      else true)

/-- One enrolled user; the service answers with a confidence of 85 next to an
`error_message`. -/
def worldConfidenceAndError : World :=
  sampleWorld [sampleUser 2] [.returned confidenceAndErrorBody]

/-- One enrolled user; the service answers with a body that has neither a
`confidence` nor an `error_message`. -/
def worldNoConfidence : World :=
  sampleWorld [sampleUser 2] [.returned (.record [("request_id", .str "1700000000,r1")])]

/-- One enrolled user; the service answers `{ confidence: null }`. -/
def worldNullConfidence : World :=
  sampleWorld [sampleUser 2] [.returned (.record [("confidence", .null)])]

/-! ## The staff pages, the identify routes and the photo route (server.js)

The three staff pages `GET /sdmcet/staff/<section>` and the three identify
routes `POST /api/staff/<section>/identify` differ in the section name, the
section column, the visits table and, for the pages, in the session check,
which only the mess page has. -/

/-- An element of `recentVisits` as a staff page hands it to its template. -/
structure PageVisit where
  id : Nat
  student_id : String
  student_name : String
  attr : Option Bool
  photo_path : Option String
  created_at : Nat
  deriving DecidableEq

/-- What a staff page sends back: a redirect, or the rendered view with its
`recentVisits` and `message`. -/
inductive PageReply where
  | redirect (url : String)
  | render (view : String) (recentVisits : List PageVisit) (message : Option String)
  deriving DecidableEq

/-- The mapping of a staff page over the rows of its visits query, with
`photo_path: r.face_path || (r.student_id ? "/user/photo/" + r.student_id : null)`. -/
def pageVisitOf (r : VisitRow) : PageVisit :=
  { id := r.id, student_id := r.student_id, student_name := r.student_name,
    attr := r.attr,
    photo_path :=
      match r.face_path with
      | some p =>
        if p ≠ "" then some p
        else if r.student_id ≠ "" then some ("/user/photo/" ++ r.student_id) else none
      | none =>
        if r.student_id ≠ "" then some ("/user/photo/" ++ r.student_id) else none,
    created_at := r.created_at }

/-- The view a staff page renders. -/
def viewOf : SectionId → String
  | .mess => "staffMess"
  | .gym => "staffGym"
  | .sports => "staffSports"

/-- The message a staff page renders when a query of its rejects. -/
def pageErrorOf : SectionId → String
  | .mess => "Server error while loading Mess page."
  | .gym => "Server error while loading Gym page."
  | .sports => "Server error while loading Sports page."

/-- The `try` block of a staff page.  The outcome `rv` stands for its queries:
the error when one of them rejects, the rows the visits query
`SELECT ... ORDER BY created_at DESC LIMIT 500` returns otherwise. -/
def renderStaffPage (sec : SectionId) (rv : Except String (List VisitRow)) :
    PageReply :=
  match rv with
  | .error _ => .render (viewOf sec) [] (some (pageErrorOf sec))
  | .ok rows => .render (viewOf sec) (rows.map pageVisitOf) none

/-- The handler of `GET /sdmcet/staff/<section>`. -/
def staffPage (sec : SectionId) (req : Request)
    (rv : Except String (List VisitRow)) : PageReply :=
  match sec with
  | .mess =>
    match req.staff with
    | none => .redirect "/adminLogin"
    | some staff =>
      if staff.«section» ≠ "mess" then .redirect "/adminLogin"
      else renderStaffPage .mess rv
  | .gym => renderStaffPage .gym rv
  | .sports => renderStaffPage .sports rv

/-- The rows `rows` are an answer to `SELECT ... ORDER BY created_at DESC
LIMIT limit` over `table`: the first `limit` rows of an arrangement of the
table in which no row is older than a row after it. -/
def isNewestFirst (table : List VisitRow) (limit : Nat) (rows : List VisitRow) :
    Prop :=
  ∃ sorted : List VisitRow, sorted.Perm table ∧
    sorted.Pairwise (fun a b => b.created_at ≤ a.created_at) ∧
    rows = sorted.take limit

/-- What an identify route reads from the request. -/
structure IdentifyRequest where
  /-- The value `req.session && req.session.staff`. -/
  staff : Option Staff
  /-- The field `req.body.barcode`. -/
  barcode : Option String
  deriving DecidableEq

/-- A row of the recent-visits query of an identify route. -/
structure RecentRow where
  id : Nat
  created_at : Nat
  student_name : String
  student_id : String
  attr : Option Bool
  user_id : Nat
  deriving DecidableEq

/-- An element of `recentVisits` in the response of an identify route. -/
structure IdentifyVisit where
  id : Nat
  time : Nat
  student_name : String
  student_id : String
  attr : Option Bool
  photo_path : String
  deriving DecidableEq

/-- The JSON body and status of an identify response. -/
structure IdentifyResponse where
  status : Nat
  ok : Bool
  message : Option String
  student : Option Student
  recentVisits : List IdentifyVisit
  deriving DecidableEq

/-- Response of an identify route and the database it leaves. -/
structure IdentifyResult where
  response : IdentifyResponse
  db : Db
  deriving DecidableEq

/-- The handler of `POST /api/staff/<section>/identify`.  `recent` is what the
recent-visits query returns after the insert. -/
def identifyRoute (sec : SectionId) (w : World) (req : IdentifyRequest)
    (recent : List RecentRow) : IdentifyResult :=
  let barcode : String :=
    match req.barcode with
    | some b => if b ≠ "" then String.mk (trimChars b.data) else ""
    | none => ""
  if barcode = "" then ⟨⟨400, false, some "Missing barcode", none, []⟩, w.db⟩
  else
    match w.selectError with
    | some _ => ⟨⟨500, false, some "Server error", none, []⟩, w.db⟩
    | none =>
      match w.db.users.find? (fun u => u.student_id == barcode) with
      | none => ⟨⟨200, false, some "Student not found", none, []⟩, w.db⟩
      | some user =>
        let ins := insertVisit w sec
          { user_id := user.id, student_id := user.student_id,
            student_name := user.fullname, attr := user.attr, staff_id := none }
        match ins.1 with
        | .error _ => ⟨⟨500, false, some "Server error", none, []⟩, ins.2⟩
        | .ok _ =>
          let recentVisits := recent.map fun r =>
            { id := r.id, time := r.created_at, student_name := r.student_name,
              student_id := r.student_id, attr := r.attr,
              photo_path := photoUrl r.user_id : IdentifyVisit }
          ⟨⟨200, true, none, some (studentOf user), recentVisits⟩, ins.2⟩

/-- What the photo route sends back: a bare status, or the stored image. -/
inductive PhotoReply where
  | status (code : Nat)
  | jpeg (data : Bytes)
  deriving DecidableEq

/-- The handler of `GET /user/photo/:id`, with `id` the text of the route
parameter. -/
def photoRoute (w : World) (id : String) : PhotoReply :=
  match w.selectError, w.parseKey id with
  | some _, _ => .status 500
  | none, none => .status 500
  | none, some key =>
    match (w.db.users.filter (fun u => u.id = key)).head? with
    | none => .status 404
    | some row =>
      match row.photo_data with
      | none => .status 404
      | some data => .jpeg data

/-- The route parameter `:id` of a path under `/user/photo/`. -/
def photoParam (path : String) : Option String :=
  if "/user/photo/".data.isPrefixOf path.data then
    some (String.mk (path.data.drop 12))
  else none

/-- What a browser gets when it loads the image at `path`. -/
def loadPhoto (w : World) (path : String) : PhotoReply :=
  match photoParam path with
  | some id => photoRoute w id
  | none => .status 404

/-- An identify request without a session, for the student id of the sample
users. -/
def identifyNoSession : IdentifyRequest :=
  { staff := none, barcode := some "2sd23is012" }

/-- A stored visit of user 2, written by a scan at time 900. -/
def storedVisit : VisitRow :=
  { id := 5, user_id := 2, student_id := "2sd23is012", student_name := "Student",
    attr := some true, created_at := 900, staff_id := some 7 }

/-- A stored mess visit stamped 2000, later than the clock of `sampleWorld`. -/
def laterVisit : VisitRow :=
  { id := 5, user_id := 1, student_id := "2sd23is001", student_name := "Other",
    attr := some false, created_at := 2000, staff_id := some 7 }

/-- The world `world81Only` whose mess ledger already holds `laterVisit`; the
next visit gets the id 6 and the time 1000. -/
def worldLaterVisit : World :=
  { world81Only with
    db := { world81Only.db with mess_visits := [laterVisit] },
    nextVisitId := 6 }

/-- The world `world81Only` whose mess ledger already holds `storedVisit`,
stamped 900; the next visit gets the id 6 and the time 1000. -/
def worldEarlierVisit : World :=
  { world81Only with
    db := { world81Only.db with mess_visits := [storedVisit] },
    nextVisitId := 6 }

/-- The ledger row the scan of `worldLaterVisit`, and of `worldEarlierVisit`,
writes. -/
def scannedVisit : VisitRow :=
  { id := 6, user_id := 2, student_id := "2sd23is012", student_name := "Student",
    attr := some true, created_at := 1000, staff_id := some 7 }

end SmartCampus

namespace SmartCampus

/-! ## Facts about the adapter and the scan loop -/

theorem faceppCompare_snd (cfg : Config) (p : Bytes) (t : Option Bytes)
    (o : Outcome) : (faceppCompare cfg p t o).2 = observe cfg o := by
  unfold observe faceppCompare
  split <;> rfl

theorem scanLoop_accept (cfg : Config) (t : JSNum) (p : Bytes)
    (net : Nat → Outcome) (i : Nat) (u : UserRow) (rest : List UserRow)
    (raw : Body) (c : JSNum)
    (hc : usableConfidence (observe cfg (net i)) = some c)
    (hge : c.ge t = true) :
    (scanLoop cfg t p net i (u :: rest) raw).matchedUser = some u ∧
    (scanLoop cfg t p net i (u :: rest) raw).matchedConfidence = c ∧
    compareCalls (scanLoop cfg t p net i (u :: rest) raw).trace = [callOf p u] := by
  rw [scanLoop]
  simp only [faceppCompare_snd]
  cases ho : observe cfg (net i) with
  | threw m => rw [ho] at hc; simp [usableConfidence] at hc
  | returned cmp =>
    rw [ho] at hc
    simp only [usableConfidence] at hc
    split at hc
    · rename_i hu
      injection hc with hc
      subst hc
      simp only [hu, hge, if_true]
      refine ⟨trivial, trivial, ?_⟩
      unfold faceppCompare
      split <;> simp [compareCalls, callOf]
    · exact absurd hc (by simp)

theorem scanLoop_raw (cfg : Config) (t : JSNum) (p : Bytes)
    (net : Nat → Outcome) (l : List UserRow) :
    ∀ (i : Nat) (raw raw' : Body),
      (scanLoop cfg t p net i l raw).matchedUser =
        (scanLoop cfg t p net i l raw').matchedUser ∧
      (scanLoop cfg t p net i l raw).matchedConfidence =
        (scanLoop cfg t p net i l raw').matchedConfidence ∧
      (scanLoop cfg t p net i l raw).trace =
        (scanLoop cfg t p net i l raw').trace := by
  induction l with
  | nil => intro i raw raw'; simp [scanLoop]
  | cons u rest ih =>
    intro i raw raw'
    rw [scanLoop, scanLoop]
    simp only [faceppCompare_snd]
    cases observe cfg (net i) with
    | threw m =>
      obtain ⟨h1, h2, h3⟩ := ih (i + 1) raw raw'
      simp [h1, h2, h3]
    | returned cmp => simp

theorem scanLoop_skip (cfg : Config) (t : JSNum) (p : Bytes)
    (net : Nat → Outcome) (i : Nat) (u : UserRow) (rest : List UserRow)
    (raw : Body) (h : accepts t (observe cfg (net i)) = false) :
    (scanLoop cfg t p net i (u :: rest) raw).matchedUser =
      (scanLoop cfg t p net (i + 1) rest raw).matchedUser ∧
    (scanLoop cfg t p net i (u :: rest) raw).matchedConfidence =
      (scanLoop cfg t p net (i + 1) rest raw).matchedConfidence ∧
    compareCalls (scanLoop cfg t p net i (u :: rest) raw).trace =
      callOf p u :: compareCalls (scanLoop cfg t p net (i + 1) rest raw).trace ∧
    visitInserts (scanLoop cfg t p net i (u :: rest) raw).trace =
      visitInserts (scanLoop cfg t p net (i + 1) rest raw).trace := by
  rw [scanLoop]
  simp only [faceppCompare_snd]
  have hpre : ∀ tail : List Event,
      compareCalls ((Event.compareCall u.id p u.photo_data ::
        (faceppCompare cfg p u.photo_data (net i)).1) ++ tail) =
        callOf p u :: compareCalls tail ∧
      visitInserts ((Event.compareCall u.id p u.photo_data ::
        (faceppCompare cfg p u.photo_data (net i)).1) ++ tail) =
        visitInserts tail := by
    intro tail
    unfold faceppCompare
    split <;> simp [compareCalls, visitInserts, callOf]
  cases ho : observe cfg (net i) with
  | threw m =>
    simp only []
    refine ⟨trivial, trivial, ?_, ?_⟩
    · rw [(hpre _).1]; simp [compareCalls]
    · rw [(hpre _).2]; simp [visitInserts]
  | returned cmp =>
    rw [ho] at h
    obtain ⟨r1, r2, r3⟩ := scanLoop_raw cfg t p net rest (i + 1) cmp raw
    simp only [accepts, usableConfidence] at h
    simp only []
    split
    · rename_i hu
      simp only [hu, if_true] at h
      simp only [h]
      refine ⟨r1, r2, ?_, ?_⟩
      · simp only [Bool.false_eq_true, if_false]
        rw [(hpre _).1, r3]; simp [compareCalls]
      · simp only [Bool.false_eq_true, if_false]
        rw [(hpre _).2, r3]; simp [visitInserts]
    · split
      · refine ⟨r1, r2, ?_, ?_⟩
        · rw [(hpre _).1, r3]; simp [compareCalls]
        · rw [(hpre _).2, r3]; simp [visitInserts]
      · refine ⟨r1, r2, ?_, ?_⟩
        · rw [(hpre _).1, r3]; simp [compareCalls]
        · rw [(hpre _).2, r3]; simp [visitInserts]

theorem accepts_iff (t : JSNum) (o : Outcome) :
    accepts t o = true ↔ ∃ c, usableConfidence o = some c ∧ c.ge t = true := by
  unfold accepts
  cases usableConfidence o <;> simp

theorem observe_of_missing (cfg : Config) (o : Outcome)
    (h : credentialsMissing cfg = true) : usableConfidence (observe cfg o) = none := by
  unfold observe faceppCompare
  simp only [credentialsMissing, Bool.or_eq_true, decide_eq_true_eq] at h
  simp [h, usableConfidence]

theorem observe_of_configured (cfg : Config) (o : Outcome)
    (h : credentialsMissing cfg = false) : observe cfg o = o := by
  unfold observe faceppCompare
  simp only [credentialsMissing, Bool.or_eq_false_iff, decide_eq_false_iff_not] at h
  simp [h.1, h.2]

theorem faceppCompare_fst (cfg : Config) (p : Bytes) (t : Option Bytes)
    (o : Outcome) :
    (faceppCompare cfg p t o).1 =
      if credentialsMissing cfg = true then [] else [Event.httpPost p t] := by
  unfold faceppCompare credentialsMissing
  simp only [Bool.or_eq_true, decide_eq_true_eq]
  split <;> rfl

/-- Without an accepted candidate the loop runs through the whole list. -/
theorem scanLoop_none (cfg : Config) (t : JSNum) (p : Bytes)
    (net : Nat → Outcome) (l : List UserRow) :
    ∀ (i : Nat) (raw : Body),
      (∀ j, j < l.length → accepts t (observe cfg (net (i + j))) = false) →
      (scanLoop cfg t p net i l raw).matchedUser = none ∧
      (scanLoop cfg t p net i l raw).matchedConfidence = .fin (-1) ∧
      compareCalls (scanLoop cfg t p net i l raw).trace = l.map (callOf p) ∧
      visitInserts (scanLoop cfg t p net i l raw).trace = [] := by
  induction l with
  | nil => intro i raw _; simp [scanLoop, compareCalls, visitInserts]
  | cons u rest ih =>
    intro i raw h
    have h0 : accepts t (observe cfg (net i)) = false := by
      simpa using h 0 (by simp)
    obtain ⟨s1, s2, s3, s4⟩ := scanLoop_skip cfg t p net i u rest raw h0
    have hrest : ∀ j, j < rest.length →
        accepts t (observe cfg (net (i + 1 + j))) = false := by
      intro j hj
      have := h (j + 1) (by simpa using hj)
      rwa [show i + (j + 1) = i + 1 + j by omega] at this
    obtain ⟨r1, r2, r3, r4⟩ := ih (i + 1) raw hrest
    refine ⟨by rw [s1, r1], by rw [s2, r2], by rw [s3, r3]; rfl, by rw [s4, r4]⟩

/-- The loop stops at the first accepted candidate. -/
theorem scanLoop_first (cfg : Config) (t : JSNum) (p : Bytes)
    (net : Nat → Outcome) (l : List UserRow) :
    ∀ (i k : Nat) (raw : Body) (u : UserRow) (c : JSNum),
      l[k]? = some u →
      usableConfidence (observe cfg (net (i + k))) = some c →
      c.ge t = true →
      (∀ j, j < k → accepts t (observe cfg (net (i + j))) = false) →
      (scanLoop cfg t p net i l raw).matchedUser = some u ∧
      (scanLoop cfg t p net i l raw).matchedConfidence = c ∧
      compareCalls (scanLoop cfg t p net i l raw).trace =
        (l.take (k + 1)).map (callOf p) ∧
      visitInserts (scanLoop cfg t p net i l raw).trace = [] := by
  induction l with
  | nil => intro i k raw u c hk; simp at hk
  | cons v rest ih =>
    intro i k raw u c hk hc hge hbefore
    cases k with
    | zero =>
      simp only [List.getElem?_cons_zero, Option.some.injEq] at hk
      subst hk
      obtain ⟨a1, a2, a3⟩ :=
        scanLoop_accept cfg t p net i v rest raw c (by simpa using hc) hge
      refine ⟨a1, a2, by rw [a3]; simp, ?_⟩
      rw [scanLoop]
      simp only [faceppCompare_snd]
      cases ho : observe cfg (net i) with
      | threw m =>
        rw [show i + 0 = i from rfl, ho] at hc
        simp [usableConfidence] at hc
      | returned cmp =>
        rw [show i + 0 = i from rfl, ho] at hc
        simp only [usableConfidence] at hc
        split at hc
        · rename_i hu
          injection hc with hc
          subst hc
          simp only [hu, hge, if_true]
          rw [faceppCompare_fst]
          split <;> simp [visitInserts]
        · exact absurd hc (by simp)
    | succ k =>
      simp only [List.getElem?_cons_succ] at hk
      have h0 : accepts t (observe cfg (net i)) = false := by
        simpa using hbefore 0 (by omega)
      obtain ⟨s1, s2, s3, s4⟩ := scanLoop_skip cfg t p net i v rest raw h0
      have hc' : usableConfidence (observe cfg (net (i + 1 + k))) = some c := by
        rwa [show i + (k + 1) = i + 1 + k by omega] at hc
      have hb' : ∀ j, j < k → accepts t (observe cfg (net (i + 1 + j))) = false := by
        intro j hj
        have := hbefore (j + 1) (by omega)
        rwa [show i + (j + 1) = i + 1 + j by omega] at this
      obtain ⟨r1, r2, r3, r4⟩ := ih (i + 1) k raw u c hk hc' hge hb'
      refine ⟨by rw [s1, r1], by rw [s2, r2], by rw [s3, r3]; rfl, by rw [s4, r4]⟩

/-- Either no candidate of the list is accepted, or there is a first one. -/
theorem first_accepted_or_none (t : JSNum) (ans : Nat → Outcome) (n : Nat) :
    (∀ j, j < n → accepts t (ans j) = false) ∨
    ∃ k, k < n ∧ accepts t (ans k) = true ∧
      ∀ j, j < k → accepts t (ans j) = false := by
  induction n with
  | zero => left; intro j hj; omega
  | succ n ih =>
    rcases ih with h | ⟨k, hk, ha, hb⟩
    · cases hn : accepts t (ans n) with
      | false =>
        left
        intro j hj
        rcases Nat.lt_succ_iff_lt_or_eq.mp hj with h1 | h1
        · exact h j h1
        · rw [h1]; exact hn
      | true => right; exact ⟨n, by omega, hn, h⟩
    · right; exact ⟨k, by omega, ha, hb⟩

/-- The scan route after its guards, when the loop found nobody. -/
theorem scanRoute_nomatch (sec : SectionId) (cfg : Config) (w : World)
    (req : Request) (staff : Staff) (probe : Bytes)
    (hg : passesGuards sec req staff probe) (hsel : w.selectError = none)
    (hne : gallery w.db ≠ [])
    (hm : (routeLoop cfg w probe).matchedUser = none) :
    (scanRoute sec cfg w req).response =
      { status := 200, ok := true, matched := some false,
        confidence := some (routeLoop cfg w probe).matchedConfidence,
        threshold := some (thresholdOf cfg), message := none, student := none,
        inserted_visit_id := none, recentVisit := none,
        facepp_raw := some (routeLoop cfg w probe).rawCompare, raw := none,
        error := none } ∧
    (scanRoute sec cfg w req).trace =
      Event.selectGallery :: (routeLoop cfg w probe).trace ∧
    (scanRoute sec cfg w req).db = w.db := by
  obtain ⟨h1, h2, h3⟩ := hg
  have hlen : ¬ (gallery w.db).length = 0 := by
    intro h; exact hne (List.length_eq_zero.mp h)
  unfold routeLoop at hm
  unfold scanRoute
  simp only [h1, h2, h3, hsel, hlen, ne_eq, not_true_eq_false, if_false, hm]
  exact ⟨rfl, rfl, trivial⟩

/-- The loop issues no visit insert. -/
theorem scanLoop_no_insert (cfg : Config) (t : JSNum) (p : Bytes)
    (net : Nat → Outcome) (l : List UserRow) :
    ∀ (i : Nat) (raw : Body),
      visitInserts (scanLoop cfg t p net i l raw).trace = [] := by
  induction l with
  | nil => intro i raw; simp [scanLoop, visitInserts]
  | cons u rest ih =>
    intro i raw
    cases ha : accepts t (observe cfg (net i)) with
    | false =>
      rw [(scanLoop_skip cfg t p net i u rest raw ha).2.2.2]
      exact ih (i + 1) raw
    | true =>
      obtain ⟨c, hc, hge⟩ := (accepts_iff t _).mp ha
      exact (scanLoop_first cfg t p net (u :: rest) i 0 raw u c (by simp)
        (by simpa using hc) hge (by intro j hj; omega)).2.2.2

/-- The scan route after its guards, when the loop accepted a candidate. -/
theorem scanRoute_match (sec : SectionId) (cfg : Config) (w : World)
    (req : Request) (staff : Staff) (probe : Bytes) (mu : UserRow)
    (hg : passesGuards sec req staff probe) (hsel : w.selectError = none)
    (hne : gallery w.db ≠ [])
    (hm : (routeLoop cfg w probe).matchedUser = some mu) :
    (scanRoute sec cfg w req).response.status = 200 ∧
    (scanRoute sec cfg w req).response.ok = true ∧
    (scanRoute sec cfg w req).response.matched = some true ∧
    (scanRoute sec cfg w req).response.confidence =
      some (routeLoop cfg w probe).matchedConfidence ∧
    (scanRoute sec cfg w req).response.threshold = some (thresholdOf cfg) ∧
    (scanRoute sec cfg w req).response.student = some (studentOf mu) ∧
    (scanRoute sec cfg w req).response.inserted_visit_id =
      some (match w.insertError with
        | none => some w.nextVisitId
        | some _ => none) ∧
    visitInserts (scanRoute sec cfg w req).trace = [(sec, visitArgs mu staff)] ∧
    compareCalls (scanRoute sec cfg w req).trace =
      compareCalls (routeLoop cfg w probe).trace ∧
    (scanRoute sec cfg w req).db = (insertVisit w sec (visitArgs mu staff)).2 ∧
    httpPosts (scanRoute sec cfg w req).trace =
      httpPosts (routeLoop cfg w probe).trace ∧
    (scanRoute sec cfg w req).response.recentVisit.map (fun v => v.id) =
      (scanRoute sec cfg w req).response.inserted_visit_id := by
  obtain ⟨h1, h2, h3⟩ := hg
  have hlen : ¬ (gallery w.db).length = 0 := by
    intro h; exact hne (List.length_eq_zero.mp h)
  have hni := scanLoop_no_insert cfg (thresholdOf cfg) probe w.net (gallery w.db) 0
    (.value .null)
  unfold routeLoop at hm
  unfold scanRoute
  simp only [h1, h2, h3, hsel, hlen, ne_eq, not_true_eq_false, if_false, hm]
  refine ⟨trivial, trivial, trivial, rfl, trivial, trivial, ?_, ?_, ?_, trivial, ?_, ?_⟩
  rotate_left 4
  · simp
  · unfold insertVisit
    cases w.insertError <;> simp
  · unfold insertVisit
    cases w.insertError <;>
      simp [visitInserts, List.filterMap_append] <;>
      simpa [visitInserts] using hni
  · unfold insertVisit
    cases w.insertError <;>
      simp [compareCalls, List.filterMap_append, routeLoop]
  · unfold insertVisit
    cases w.insertError <;>
      simp [httpPosts, List.filterMap_append, routeLoop]

/-- The HTTP requests of the loop are those of its adapter calls when the
credentials are configured, and none otherwise. -/
theorem scanLoop_posts (cfg : Config) (t : JSNum) (p : Bytes)
    (net : Nat → Outcome) (l : List UserRow) :
    ∀ (i : Nat) (raw : Body),
      httpPosts (scanLoop cfg t p net i l raw).trace =
        if credentialsMissing cfg = true then []
        else (compareCalls (scanLoop cfg t p net i l raw).trace).map
          (fun c => (c.2.1, c.2.2)) := by
  induction l with
  | nil => intro i raw; simp [scanLoop, httpPosts, compareCalls]
  | cons u rest ih =>
    intro i raw
    have ih1 := fun r => ih (i + 1) r
    rw [scanLoop]
    simp only [faceppCompare_snd, faceppCompare_fst]
    cases observe cfg (net i) with
    | threw m =>
      simp only []
      have := ih1 raw
      simp only [httpPosts, compareCalls] at this ⊢
      split <;> rename_i hm <;> simp [hm] at this ⊢ <;> exact this
    | returned cmp =>
      simp only []
      have := ih1 cmp
      simp only [httpPosts, compareCalls] at this ⊢
      split
      · split
        · split <;> simp
        · split <;> rename_i hm <;> simp [hm] at this ⊢ <;> exact this
      · split
        · split <;> rename_i hm <;> simp [hm] at this ⊢ <;> exact this
        · split <;> rename_i hm <;> simp [hm] at this ⊢ <;> exact this

/-- When the loop accepts a candidate, the confidence it keeps reaches the
threshold. -/
theorem scanLoop_matched_ge (cfg : Config) (t : JSNum) (p : Bytes)
    (net : Nat → Outcome) (l : List UserRow) (i : Nat) (raw : Body) (u : UserRow)
    (h : (scanLoop cfg t p net i l raw).matchedUser = some u) :
    (scanLoop cfg t p net i l raw).matchedConfidence.ge t = true ∧
    ∃ k, l[k]? = some u ∧ accepts t (observe cfg (net (i + k))) = true ∧
      ∀ j, j < k → accepts t (observe cfg (net (i + j))) = false := by
  rcases first_accepted_or_none t (fun j => observe cfg (net (i + j))) l.length
    with hnone | ⟨k, hk, ha, hb⟩
  · rw [(scanLoop_none cfg t p net l i raw hnone).1] at h
    exact absurd h (by simp)
  · obtain ⟨c, hc, hge⟩ := (accepts_iff _ _).mp ha
    obtain ⟨l1, l2, _, _⟩ := scanLoop_first cfg t p net l i k raw l[k] c
      (List.getElem?_eq_getElem hk) hc hge hb
    rw [l1] at h
    injection h with h
    subst h
    exact ⟨by rw [l2]; exact hge, k, List.getElem?_eq_getElem hk, ha, hb⟩

/-- A scan request either reaches the loop, or answers without `matched: true`
and without any adapter call, HTTP request or insert, leaving the database
as it was. -/
theorem scanRoute_guarded (sec : SectionId) (cfg : Config) (w : World)
    (req : Request) :
    (∃ staff probe, passesGuards sec req staff probe ∧ w.selectError = none ∧
      gallery w.db ≠ []) ∨
    ((scanRoute sec cfg w req).response.matched ≠ some true ∧
      compareCalls (scanRoute sec cfg w req).trace = [] ∧
      httpPosts (scanRoute sec cfg w req).trace = [] ∧
      visitInserts (scanRoute sec cfg w req).trace = [] ∧
      (scanRoute sec cfg w req).db = w.db) := by
  cases hs : req.staff with
  | none => right; simp [scanRoute, hs, Response.reject, compareCalls, httpPosts, visitInserts]
  | some staff =>
    by_cases hsec : staff.«section» = sec.name
    · cases hf : req.file with
      | none =>
        right
        simp [scanRoute, hs, hsec, hf, Response.reject, compareCalls, httpPosts,
          visitInserts]
      | some probe =>
        cases hsel : w.selectError with
        | some e =>
          right
          simp [scanRoute, hs, hsec, hf, hsel, Response.reject, Response.serverError,
            compareCalls, httpPosts, visitInserts]
        | none =>
          by_cases hne : gallery w.db = []
          · right
            simp [scanRoute, hs, hsec, hf, hsel, hne, Response.reject,
              compareCalls, httpPosts, visitInserts]
          · left
            exact ⟨staff, probe, ⟨hs, hsec, hf⟩, rfl, hne⟩
    · right
      simp [scanRoute, hs, hsec, Response.reject, compareCalls, httpPosts,
        visitInserts]

/-- The compare route once it reaches its decision. -/
theorem compareRoute_decision (sec : SectionId) (cfg : Config) (w : World)
    (req : Request) (staff : Staff) (probe : Bytes) (userRow : UserRow)
    (cmp : Body) (h : reachesDecision sec cfg w req staff probe userRow cmp) :
    (compareRoute sec cfg w req).response.status = 200 ∧
    (compareRoute sec cfg w req).response.ok = true ∧
    (compareRoute sec cfg w req).response.matched =
      some ((compareConfidence cmp).ge (thresholdOf cfg)) ∧
    (compareRoute sec cfg w req).response.confidence = some (compareConfidence cmp) ∧
    (compareRoute sec cfg w req).response.threshold = some (thresholdOf cfg) ∧
    (compareRoute sec cfg w req).response.student = some (studentOf userRow) ∧
    (compareRoute sec cfg w req).response.inserted_visit_id =
      some (if (compareConfidence cmp).ge (thresholdOf cfg) = true then
          match w.insertError with
          | none => some w.nextVisitId
          | some _ => none
        else none) ∧
    visitInserts (compareRoute sec cfg w req).trace =
      (if (compareConfidence cmp).ge (thresholdOf cfg) = true then
        [(sec, visitArgs userRow staff)] else []) ∧
    compareCalls (compareRoute sec cfg w req).trace =
      [callOf probe userRow] ∧
    (compareRoute sec cfg w req).db =
      (if (compareConfidence cmp).ge (thresholdOf cfg) = true then
        (insertVisit w sec (visitArgs userRow staff)).2 else w.db) := by
  obtain ⟨⟨h1, h2, h3⟩, hsel, ⟨userId, key, hk1, hk2, hk3⟩, hphoto, hobs, htr, herr⟩ := h
  obtain ⟨photo, hphoto⟩ : ∃ ph, userRow.photo_data = some ph := by
    cases hp : userRow.photo_data with
    | none => exact absurd hp hphoto
    | some ph => exact ⟨ph, rfl⟩
  have hpre : ∀ tail : List Event,
      compareCalls (Event.selectTarget userId ::
        Event.compareCall userRow.id probe (some photo) ::
        (faceppCompare cfg probe (some photo) (w.net 0)).1 ++ tail) =
        callOf probe userRow :: compareCalls tail ∧
      visitInserts (Event.selectTarget userId ::
        Event.compareCall userRow.id probe (some photo) ::
        (faceppCompare cfg probe (some photo) (w.net 0)).1 ++ tail) =
        visitInserts tail := by
    intro tail
    rw [faceppCompare_fst]
    split <;> simp [compareCalls, visitInserts, callOf, hphoto]
  unfold compareRoute
  simp only [h1, h2, h3, hk1, hsel, hk2, hk3, hphoto, faceppCompare_snd, hobs, htr,
    herr, ne_eq, not_true_eq_false, if_false, Bool.not_true, Bool.false_eq_true]
  have hcc : ((cmp.get "confidence").orElse (.num (.fin (-1)))).toNumber =
      compareConfidence cmp := rfl
  simp only [hcc]
  cases hm : (compareConfidence cmp).ge (thresholdOf cfg) with
  | false =>
    simp only [Bool.false_eq_true, if_false]
    refine ⟨trivial, trivial, trivial, trivial, trivial, trivial, trivial, ?_, ?_, trivial⟩
    · rw [(hpre _).2]; simp [visitInserts]
    · rw [(hpre _).1]; simp [compareCalls]
  | true =>
    simp only [if_true]
    unfold insertVisit
    cases w.insertError with
    | none =>
      simp only [gt_iff_lt, Nat.lt_one_iff, pos_of_gt, if_true, List.head?_cons]
      refine ⟨trivial, trivial, trivial, trivial, trivial, trivial, ?_, ?_, ?_, trivial⟩
      · simp
      · rw [(hpre _).2]; simp [visitInserts]
      · rw [(hpre _).1]; simp [compareCalls]
    | some e =>
      simp only []
      refine ⟨trivial, trivial, trivial, trivial, trivial, trivial, trivial, ?_, ?_, trivial⟩
      · rw [(hpre _).2]; simp [visitInserts]
      · rw [(hpre _).1]; simp [compareCalls]

/-- A compare request either reaches its decision, or is answered with
`ok: false`, no `matched` field and no insert, leaving the database as it
was. -/
theorem compareRoute_guarded (sec : SectionId) (cfg : Config) (w : World)
    (req : Request) :
    (∃ staff probe userRow cmp, reachesDecision sec cfg w req staff probe userRow cmp) ∨
    ((compareRoute sec cfg w req).response.matched = none ∧
      (compareRoute sec cfg w req).response.ok = false ∧
      (compareRoute sec cfg w req).response.inserted_visit_id = none ∧
      visitInserts (compareRoute sec cfg w req).trace = [] ∧
      (compareRoute sec cfg w req).db = w.db) := by
  cases hs : req.staff with
  | none => right; simp [compareRoute, hs, Response.reject, visitInserts]
  | some staff =>
  by_cases hsec : staff.«section» = sec.name
  swap
  · right; simp [compareRoute, hs, hsec, Response.reject, visitInserts]
  cases hf : req.file with
  | none => right; simp [compareRoute, hs, hsec, hf, Response.reject, visitInserts]
  | some probe =>
  cases hk : targetKey req with
  | none => right; simp [compareRoute, hs, hsec, hf, hk, Response.reject, visitInserts]
  | some userId =>
  cases hsel : w.selectError with
  | some e =>
    right
    simp [compareRoute, hs, hsec, hf, hk, hsel, Response.reject, Response.serverError,
      visitInserts]
  | none =>
  cases hp : w.parseKey userId with
  | none =>
    right
    simp [compareRoute, hs, hsec, hf, hk, hsel, hp, Response.reject,
      Response.serverError, visitInserts]
  | some key =>
  cases hrow : (w.db.users.filter (fun u => u.id = key)).head? with
  | none =>
    right
    simp [compareRoute, hs, hsec, hf, hk, hsel, hp, hrow, Response.reject, visitInserts]
  | some userRow =>
  cases hph : userRow.photo_data with
  | none =>
    right
    simp [compareRoute, hs, hsec, hf, hk, hsel, hp, hrow, hph, Response.reject,
      visitInserts]
  | some photo =>
  have hpre : ∀ tail : List Event,
      visitInserts (Event.selectTarget userId ::
        Event.compareCall userRow.id probe (some photo) ::
        (faceppCompare cfg probe (some photo) (w.net 0)).1 ++ tail) =
        visitInserts tail := by
    intro tail
    rw [faceppCompare_fst]
    split <;> simp [visitInserts]
  cases hobs : observe cfg (w.net 0) with
  | threw m =>
    right
    unfold compareRoute
    simp only [hs, hsec, hf, hk, hsel, hp, hrow, hph, faceppCompare_snd, hobs, ne_eq,
      not_true_eq_false, if_false]
    refine ⟨rfl, rfl, rfl, ?_, trivial⟩
    have := hpre [Event.errorRoute]
    simpa [visitInserts] using this
  | returned cmp =>
  cases htr : cmp.truthy with
  | false =>
    right
    unfold compareRoute
    simp only [hs, hsec, hf, hk, hsel, hp, hrow, hph, faceppCompare_snd, hobs, htr, ne_eq,
      not_true_eq_false, if_false, Bool.not_false, if_true]
    refine ⟨rfl, rfl, rfl, ?_, trivial⟩
    have := hpre []
    simpa [visitInserts] using this
  | true =>
  cases herr : (cmp.get "error_message").truthy with
  | true =>
    right
    unfold compareRoute
    simp only [hs, hsec, hf, hk, hsel, hp, hrow, hph, faceppCompare_snd, hobs, htr, herr,
      ne_eq, not_true_eq_false, if_false, Bool.not_true, Bool.false_eq_true, if_true]
    refine ⟨rfl, rfl, rfl, ?_, trivial⟩
    have := hpre []
    simpa [visitInserts] using this
  | false =>
    left
    refine ⟨staff, probe, userRow, cmp, ⟨hs, hsec, hf⟩, hsel, ⟨userId, key, hk, hp, hrow⟩,
      ?_, hobs, htr, herr⟩
    rw [hph]; simp

theorem strictEq_ge (c t : JSNum) (h : c.strictEq t = true) : c.ge t = true := by
  cases c <;> cases t <;> simp_all [JSNum.strictEq, JSNum.ge]

theorem oracleFailed_not_accepts (t : JSNum) (o : Outcome)
    (h : oracleFailed t o = true) : accepts t o = false := by
  cases o with
  | threw m => simp [accepts, usableConfidence]
  | returned cmp =>
    simp only [oracleFailed, Bool.and_eq_true, Bool.or_eq_true, beq_iff_eq,
      Bool.not_eq_true'] at h
    rcases h.2 with h2 | h2
    · simp [accepts, usableConfidence, h2]
    · by_cases hu : (cmp.truthy && cmp.get "confidence" != JSVal.undefined) = true
      · simp [accepts, usableConfidence, hu, h2]
      · simp [accepts, usableConfidence, hu]

theorem reportsConfidence_usable (o : Outcome) (c : JSNum)
    (h : reportsConfidence o c = true) :
    usableConfidence o = some c ∧
    ∃ cmp, o = .returned cmp ∧ cmp.truthy = true ∧
      (cmp.get "error_message").truthy = false ∧ compareConfidence cmp = c := by
  cases o with
  | threw m => simp [reportsConfidence] at h
  | returned cmp =>
    simp only [reportsConfidence, Bool.and_eq_true, beq_iff_eq] at h
    have htr : cmp.truthy = true := by
      cases cmp with
      | value v => simp [Body.get] at h
      | record f => rfl
    refine ⟨?_, cmp, rfl, htr, ?_, ?_⟩
    · simp [usableConfidence, htr, h.1, JSVal.toNumber]
    · rw [h.2]; rfl
    · simp [compareConfidence, h.1, JSVal.orElse, JSVal.toNumber]

/-- The scan route when the first accepted candidate sits at position `k`. -/
theorem scanRoute_first (sec : SectionId) (cfg : Config) (w : World)
    (req : Request) (staff : Staff) (probe : Bytes) (k : Nat) (u : UserRow)
    (c : JSNum)
    (hg : passesGuards sec req staff probe) (hsel : w.selectError = none)
    (hk : (gallery w.db)[k]? = some u)
    (hc : usableConfidence (observe cfg (w.net k)) = some c)
    (hge : c.ge (thresholdOf cfg) = true)
    (hb : ∀ j, j < k → accepts (thresholdOf cfg) (observe cfg (w.net j)) = false) :
    (routeLoop cfg w probe).matchedUser = some u ∧
    (routeLoop cfg w probe).matchedConfidence = c ∧
    compareCalls (routeLoop cfg w probe).trace =
      ((gallery w.db).take (k + 1)).map (callOf probe) ∧
    gallery w.db ≠ [] ∧
    (scanRoute sec cfg w req).response.matched = some true ∧
    (scanRoute sec cfg w req).response.student = some (studentOf u) ∧
    (scanRoute sec cfg w req).response.confidence = some c := by
  have hne : gallery w.db ≠ [] := by
    intro h; rw [h] at hk; simp at hk
  obtain ⟨l1, l2, l3, _⟩ := scanLoop_first cfg (thresholdOf cfg) probe w.net
    (gallery w.db) 0 k (.value .null) u c hk (by simpa using hc) hge
    (by intro j hj; simpa using hb j hj)
  obtain ⟨_, _, m3, m4, _, m6, _⟩ :=
    scanRoute_match sec cfg w req staff probe u hg hsel hne l1
  refine ⟨l1, l2, l3, hne, m3, m6, ?_⟩
  rw [m4]
  exact congrArg some l2

/-- The scan route when no candidate of the gallery is accepted. -/
theorem scanRoute_none (sec : SectionId) (cfg : Config) (w : World)
    (req : Request) (staff : Staff) (probe : Bytes)
    (hg : passesGuards sec req staff probe) (hsel : w.selectError = none)
    (hne : gallery w.db ≠ [])
    (hnone : ∀ j, j < (gallery w.db).length →
      accepts (thresholdOf cfg) (observe cfg (w.net j)) = false) :
    (scanRoute sec cfg w req).response.status = 200 ∧
    (scanRoute sec cfg w req).response.ok = true ∧
    (scanRoute sec cfg w req).response.matched = some false ∧
    (scanRoute sec cfg w req).response.student = none ∧
    (scanRoute sec cfg w req).response.confidence = some (.fin (-1)) ∧
    compareCalls (scanRoute sec cfg w req).trace =
      (gallery w.db).map (callOf probe) ∧
    visitInserts (scanRoute sec cfg w req).trace = [] ∧
    (scanRoute sec cfg w req).db = w.db := by
  obtain ⟨l1, l2, l3, l4⟩ := scanLoop_none cfg (thresholdOf cfg) probe w.net
    (gallery w.db) 0 (.value .null) (by intro j hj; simpa using hnone j hj)
  obtain ⟨m1, m2, m3⟩ := scanRoute_nomatch sec cfg w req staff probe hg hsel hne l1
  rw [m1, m2, m3]
  refine ⟨rfl, rfl, rfl, rfl, ?_, ?_, ?_, rfl⟩
  · exact congrArg some l2
  · simpa [compareCalls, routeLoop] using l3
  · simpa [visitInserts, routeLoop] using l4

/-- When the candidate at position `i` is not accepted and none before it
is, the scan answers with status 200 and the next candidate, if any, is the
next adapter call. -/
theorem scanRoute_next_called (sec : SectionId) (cfg : Config) (w : World)
    (req : Request) (staff : Staff) (probe : Bytes) (i : Nat)
    (hg : passesGuards sec req staff probe) (hsel : w.selectError = none)
    (hi : i < (gallery w.db).length)
    (hni : accepts (thresholdOf cfg) (observe cfg (w.net i)) = false)
    (hb : ∀ j, j < i → accepts (thresholdOf cfg) (observe cfg (w.net j)) = false) :
    (scanRoute sec cfg w req).response.status = 200 ∧
    (scanRoute sec cfg w req).response.ok = true ∧
    ∀ v, (gallery w.db)[i + 1]? = some v →
      (compareCalls (scanRoute sec cfg w req).trace)[i + 1]? = some (callOf probe v) := by
  have hne : gallery w.db ≠ [] := by
    intro h; rw [h] at hi; simp at hi
  rcases first_accepted_or_none (thresholdOf cfg) (fun j => observe cfg (w.net j))
      (gallery w.db).length with hnone | ⟨k, hk, ha, hbk⟩
  · obtain ⟨n1, n2, _, _, _, n6, _⟩ :=
      scanRoute_none sec cfg w req staff probe hg hsel hne hnone
    refine ⟨n1, n2, ?_⟩
    intro v hv
    rw [n6, List.getElem?_map, hv]; rfl
  · have hik : i < k := by
      rcases Nat.lt_trichotomy i k with h | h | h
      · exact h
      · subst h
        change accepts (thresholdOf cfg) (observe cfg (w.net i)) = true at ha
        rw [hni] at ha; simp at ha
      · have := hb k h
        change accepts (thresholdOf cfg) (observe cfg (w.net k)) = true at ha
        rw [this] at ha; simp at ha
    obtain ⟨c, hc, hge⟩ := (accepts_iff _ _).mp ha
    obtain ⟨f1, _, f3, _⟩ := scanRoute_first sec cfg w req staff probe k
      (gallery w.db)[k] c hg hsel (List.getElem?_eq_getElem hk) hc hge hbk
    obtain ⟨m1, m2, _, _, _, _, _, _, m9, _⟩ := scanRoute_match sec cfg w req staff probe
      (gallery w.db)[k] hg hsel hne f1
    refine ⟨m1, m2, ?_⟩
    intro v hv
    rw [m9, f3, List.getElem?_map, List.getElem?_take_of_lt (by omega), hv]
    rfl

/-- The compare route once its target row is found: the adapter calls, the
HTTP requests, the inserts and the database, and the answer to an error
response. -/
theorem compareRoute_target (sec : SectionId) (cfg : Config) (w : World)
    (req : Request) (staff : Staff) (probe : Bytes) (u : UserRow)
    (hg : passesGuards sec req staff probe) (hsel : w.selectError = none)
    (hfind : findsTarget w req u) :
    compareCalls (compareRoute sec cfg w req).trace =
      (if u.photo_data = none then [] else [callOf probe u]) ∧
    httpPosts (compareRoute sec cfg w req).trace =
      (if u.photo_data = none ∨ credentialsMissing cfg = true then []
        else [(probe, u.photo_data)]) ∧
    visitInserts (compareRoute sec cfg w req).trace =
      (if (compareRoute sec cfg w req).response.matched = some true then
        [(sec, visitArgs u staff)] else []) ∧
    (compareRoute sec cfg w req).db =
      (if (compareRoute sec cfg w req).response.matched = some true then
        (insertVisit w sec (visitArgs u staff)).2 else w.db) ∧
    (u.photo_data = none →
      (compareRoute sec cfg w req).response =
        .reject 404 "Target user has no stored photo") ∧
    (∀ cmp, u.photo_data ≠ none → observe cfg (w.net 0) = .returned cmp →
      (cmp.get "error_message").truthy = true →
      (compareRoute sec cfg w req).response.status = 500 ∧
      (compareRoute sec cfg w req).response.ok = false ∧
      (compareRoute sec cfg w req).response.matched = none ∧
      (compareRoute sec cfg w req).response.message =
        some (.oracleError (cmp.get "error_message"))) := by
  obtain ⟨hs, hsec, hf⟩ := hg
  obtain ⟨userId, key, hk, hp, hrow⟩ := hfind
  cases hph : u.photo_data with
  | none =>
    simp [compareRoute, hs, hsec, hf, hk, hsel, hp, hrow, hph, Response.reject,
      compareCalls, httpPosts, visitInserts]
  | some photo =>
  have hpre : ∀ tail : List Event,
      compareCalls (Event.selectTarget userId ::
        Event.compareCall u.id probe (some photo) ::
        (faceppCompare cfg probe (some photo) (w.net 0)).1 ++ tail) =
        callOf probe u :: compareCalls tail ∧
      httpPosts (Event.selectTarget userId ::
        Event.compareCall u.id probe (some photo) ::
        (faceppCompare cfg probe (some photo) (w.net 0)).1 ++ tail) =
        (if credentialsMissing cfg = true then [] else [(probe, some photo)]) ++
          httpPosts tail ∧
      visitInserts (Event.selectTarget userId ::
        Event.compareCall u.id probe (some photo) ::
        (faceppCompare cfg probe (some photo) (w.net 0)).1 ++ tail) =
        visitInserts tail := by
    intro tail
    rw [faceppCompare_fst]
    split <;> simp [compareCalls, httpPosts, visitInserts, callOf, hph]
  have hnil : compareCalls ([] : List Event) = [] ∧ httpPosts ([] : List Event) = [] ∧
      visitInserts ([] : List Event) = [] := ⟨rfl, rfl, rfl⟩
  have hposts : (if credentialsMissing cfg = true then []
      else [(probe, some photo)]) =
      (if (some photo : Option Bytes) = none ∨ credentialsMissing cfg = true then []
        else [(probe, (some photo : Option Bytes))]) := by
    simp
  cases hobs : observe cfg (w.net 0) with
  | threw m =>
    have e1 : (compareRoute sec cfg w req).response = .serverError m := by
      unfold compareRoute
      simp only [hs, hsec, hf, hk, hsel, hp, hrow, hph, faceppCompare_snd, hobs, ne_eq,
        not_true_eq_false, if_false]
    have e2 : (compareRoute sec cfg w req).trace =
        Event.selectTarget userId :: Event.compareCall u.id probe (some photo) ::
          (faceppCompare cfg probe (some photo) (w.net 0)).1 ++ [Event.errorRoute] := by
      unfold compareRoute
      simp only [hs, hsec, hf, hk, hsel, hp, hrow, hph, faceppCompare_snd, hobs, ne_eq,
        not_true_eq_false, if_false]
    have e3 : (compareRoute sec cfg w req).db = w.db := by
      unfold compareRoute
      simp only [hs, hsec, hf, hk, hsel, hp, hrow, hph, faceppCompare_snd, hobs, ne_eq,
        not_true_eq_false, if_false]
    rw [e1, e2, e3, (hpre _).1, (hpre _).2.1, (hpre _).2.2]
    refine ⟨by simp [compareCalls], ?_, by simp [visitInserts, Response.serverError,
      Response.reject], by simp [Response.serverError, Response.reject], by simp, ?_⟩
    · rw [← hposts]; simp [httpPosts]
    · intro cmp _ h; exact absurd h (by simp)
  | returned cmp =>
  cases htr : cmp.truthy with
  | false =>
    have herr : (cmp.get "error_message").truthy = false := by
      cases cmp with
      | value v => rfl
      | record f => simp [Body.truthy] at htr
    have e1 : (compareRoute sec cfg w req).response =
        .reject 502 "Face++ returned invalid response" := by
      unfold compareRoute
      simp only [hs, hsec, hf, hk, hsel, hp, hrow, hph, faceppCompare_snd, hobs, htr, ne_eq,
        not_true_eq_false, if_false, Bool.not_false, if_true]
    have e2 : (compareRoute sec cfg w req).trace =
        Event.selectTarget userId :: Event.compareCall u.id probe (some photo) ::
          (faceppCompare cfg probe (some photo) (w.net 0)).1 ++ [] := by
      unfold compareRoute
      simp only [hs, hsec, hf, hk, hsel, hp, hrow, hph, faceppCompare_snd, hobs, htr, ne_eq,
        not_true_eq_false, if_false, Bool.not_false, if_true]
      simp
    have e3 : (compareRoute sec cfg w req).db = w.db := by
      unfold compareRoute
      simp only [hs, hsec, hf, hk, hsel, hp, hrow, hph, faceppCompare_snd, hobs, htr, ne_eq,
        not_true_eq_false, if_false, Bool.not_false, if_true]
    rw [e1, e2, e3, (hpre _).1, (hpre _).2.1, (hpre _).2.2]
    refine ⟨by simp [compareCalls], ?_, by simp [visitInserts, Response.reject],
      by simp [Response.reject], by simp, ?_⟩
    · rw [← hposts]; simp [httpPosts]
    · intro cmp' _ h1 h2
      injection h1 with h1
      subst h1
      rw [herr] at h2; exact absurd h2 (by simp)
  | true =>
  cases herr : (cmp.get "error_message").truthy with
  | true =>
    have e1 : (compareRoute sec cfg w req).response =
        { Response.reject 500 "" with
          message := some (.oracleError (cmp.get "error_message")), raw := some cmp } := by
      unfold compareRoute
      simp only [hs, hsec, hf, hk, hsel, hp, hrow, hph, faceppCompare_snd, hobs, htr, herr,
        ne_eq, not_true_eq_false, if_false, Bool.not_true, Bool.false_eq_true, if_true]
    have e2 : (compareRoute sec cfg w req).trace =
        Event.selectTarget userId :: Event.compareCall u.id probe (some photo) ::
          (faceppCompare cfg probe (some photo) (w.net 0)).1 ++ [] := by
      unfold compareRoute
      simp only [hs, hsec, hf, hk, hsel, hp, hrow, hph, faceppCompare_snd, hobs, htr, herr,
        ne_eq, not_true_eq_false, if_false, Bool.not_true, Bool.false_eq_true, if_true]
      simp
    have e3 : (compareRoute sec cfg w req).db = w.db := by
      unfold compareRoute
      simp only [hs, hsec, hf, hk, hsel, hp, hrow, hph, faceppCompare_snd, hobs, htr, herr,
        ne_eq, not_true_eq_false, if_false, Bool.not_true, Bool.false_eq_true, if_true]
    rw [e1, e2, e3, (hpre _).1, (hpre _).2.1, (hpre _).2.2]
    refine ⟨by simp [compareCalls], ?_, by simp [visitInserts, Response.reject],
      by simp [Response.reject], by simp, ?_⟩
    · rw [← hposts]; simp [httpPosts]
    · intro cmp' _ h1 _
      injection h1 with h1
      subst h1
      simp [Response.reject]
  | false =>
    have hd : reachesDecision sec cfg w req staff probe u cmp :=
      ⟨⟨hs, hsec, hf⟩, hsel, ⟨userId, key, hk, hp, hrow⟩, by rw [hph]; simp, hobs, htr, herr⟩
    obtain ⟨_, _, d3, _, _, _, _, d8, d9, d10⟩ :=
      compareRoute_decision sec cfg w req staff probe u cmp hd
    have hcfg : credentialsMissing cfg = false := by
      cases hm : credentialsMissing cfg with
      | false => rfl
      | true =>
        have := observe_of_missing cfg (w.net 0) hm
        unfold observe faceppCompare at hobs
        simp only [credentialsMissing, Bool.or_eq_true, decide_eq_true_eq] at hm
        simp [hm] at hobs
    have hp2 : httpPosts (compareRoute sec cfg w req).trace = [(probe, some photo)] := by
      unfold compareRoute
      simp only [hs, hsec, hf, hk, hsel, hp, hrow, hph, faceppCompare_snd, hobs, htr, herr,
        ne_eq, not_true_eq_false, if_false, Bool.not_true, Bool.false_eq_true]
      rw [(hpre _).2.1, hcfg]
      cases ((cmp.get "confidence").orElse (.num (.fin (-1)))).toNumber.ge (thresholdOf cfg) with
      | false => simp [httpPosts]
      | true =>
        unfold insertVisit
        cases w.insertError <;> simp [httpPosts]
    rw [d3, d8, d9, d10, hp2]
    refine ⟨by simp, by simp [hcfg], ?_, ?_, by simp, ?_⟩
    · cases (compareConfidence cmp).ge (thresholdOf cfg) <;> simp
    · cases (compareConfidence cmp).ge (thresholdOf cfg) <;> simp
    · intro cmp' _ h1 h2
      injection h1 with h1
      subst h1
      rw [herr] at h2; exact absurd h2 (by simp)

/-! ## Facts about the script -/

theorem lookup_setLastMatched (m : List (Nat × Nat)) (id now : Nat) :
    (setLastMatched m id now).lookup id = some now := by
  simp [setLastMatched, List.lookup]

/-- The resumption of a step on a matched answer with a student: suppressed
by the debounce test, or displayed. -/
theorem stepAfterProbe_matched (page : Page) (c : Client) (r : ScanReply)
    (st : Student) (now : Nat)
    (hok : r.ok = true) (hm : r.matched = true) (hst : r.student = some st) :
    (suppressed c r now = true →
      (stepAfterProbe page c (.reply r) now).visitList = c.visitList ∧
      (stepAfterProbe page c (.reply r) now).totalVisits = c.totalVisits ∧
      (stepAfterProbe page c (.reply r) now).attrVisits = c.attrVisits ∧
      (stepAfterProbe page c (.reply r) now).otherVisits = c.otherVisits ∧
      (stepAfterProbe page c (.reply r) now).lastMatched = c.lastMatched ∧
      (stepAfterProbe page c (.reply r) now).status = .matchedRecently st.name ∧
      (stepAfterProbe page c (.reply r) now).timers =
        c.timers ++ [{ handle := c.nextTimer, kind := .capture, delay := 1200 }]) ∧
    (suppressed c r now = false →
      (stepAfterProbe page c (.reply r) now).visitList.length = c.visitList.length + 1 ∧
      (stepAfterProbe page c (.reply r) now).totalVisits = c.totalVisits + 1 ∧
      (stepAfterProbe page c (.reply r) now).lastMatched =
        (if st.id ≠ 0 then setLastMatched c.lastMatched st.id now else c.lastMatched) ∧
      (stepAfterProbe page c (.reply r) now).status = .matched st.name r.confidence ∧
      (stepAfterProbe page c (.reply r) now).timers =
        c.timers ++ [{ handle := c.nextTimer, kind := .capture, delay := 3000 }]) := by
  constructor
  · intro hs
    simp only [suppressed, hst, Bool.and_eq_true, decide_eq_true_eq] at hs
    obtain ⟨hid, hlt⟩ := hs
    simp [stepAfterProbe, sendProbe, hok, hm, hst, hid, hlt, SAME_USER_DEBOUNCE_MS,
      scheduleStep, setStatus, CAPTURE_INTERVAL_MS]
  · intro hs
    simp only [suppressed, hst, Bool.and_eq_false_iff, decide_eq_false_iff_not] at hs
    by_cases hid : st.id = 0
    · cases hrv : r.recentVisit with
      | none =>
        simp [stepAfterProbe, sendProbe, hok, hm, hst, hid, hrv, scheduleStep, setStatus,
          POST_MATCH_COOLDOWN_MS, prependVisit, updateTotalsOnMatch]
        split <;> simp
      | some rv =>
        simp [stepAfterProbe, sendProbe, hok, hm, hst, hid, hrv, scheduleStep, setStatus,
          POST_MATCH_COOLDOWN_MS, prependVisit, updateTotalsOnMatch]
        split <;> simp
    · have hge : ¬ ((now : Int) - (((c.lastMatched.lookup st.id).getD 0 : Nat) : Int) < 10000) := by
        rcases hs with h | h
        · exact absurd h (by simpa using hid)
        · exact h
      cases hrv : r.recentVisit with
      | none =>
        simp [stepAfterProbe, sendProbe, hok, hm, hst, hid, hge, hrv, scheduleStep, setStatus,
          POST_MATCH_COOLDOWN_MS, SAME_USER_DEBOUNCE_MS, prependVisit, updateTotalsOnMatch]
        split <;> simp
      | some rv =>
        simp [stepAfterProbe, sendProbe, hok, hm, hst, hid, hge, hrv, scheduleStep, setStatus,
          POST_MATCH_COOLDOWN_MS, SAME_USER_DEBOUNCE_MS, prependVisit, updateTotalsOnMatch]
        split <;> simp

/-- Only the end of a probe request writes the debounce map. -/
theorem step_lastMatched (page : Page) (c : Client) (e : ClientEvent)
    (h : e.notResponse = true) :
    (Client.step page c e).lastMatched = c.lastMatched := by
  cases e with
  | clickStart =>
    simp only [Client.step, onStartClick, startScanning, startScanningResume, setStatus]
    repeat' split
    all_goals rfl
  | clickStop =>
    simp only [Client.step, stopScanning, setStatus]
    repeat' split
    all_goals rfl
  | cameraGranted s =>
    simp only [Client.step, cameraGranted]
    split <;> rfl
  | cameraDenied =>
    simp only [Client.step, startScanningFailed, setStatus]
    split <;> rfl
  | playOk =>
    simp only [Client.step, playStarted, startScanningResume, setStatus]
    split <;> rfl
  | playFailed =>
    simp only [Client.step, startScanningFailed, setStatus]
    split <;> rfl
  | timerFires hd =>
    simp only [Client.step, runTimer]
    repeat' split
    all_goals rfl
  | frame rs vw =>
    simp only [Client.step, continuousScanStep, scheduleStep]
    repeat' split
    all_goals rfl
  | blobReady b =>
    simp only [Client.step, stepAfterBlob, scheduleStep, setStatus]
    repeat' split
    all_goals rfl
  | probeResponse o now => simp [ClientEvent.notResponse] at h

theorem run_lastMatched (page : Page) (es : List ClientEvent) :
    ∀ c : Client, (∀ e, e ∈ es → e.notResponse = true) →
      (Client.run page c es).lastMatched = c.lastMatched := by
  induction es with
  | nil => intro c _; rfl
  | cons e rest ih =>
    intro c h
    have h1 := step_lastMatched page c e (h e (by simp))
    have h2 := ih (Client.step page c e) (fun e' he' => h e' (by simp [he']))
    simp only [Client.run, List.foldl_cons] at h2 ⊢
    rw [h2, h1]

/-- Every resumption of a step with the result of its probe sets exactly one
timer: 3000 ms for a displayed match, 1200 ms otherwise. -/
theorem stepAfterProbe_timers (page : Page) (c : Client) (o : FetchOutcome)
    (now : Nat) :
    (stepAfterProbe page c o now).timers =
      c.timers ++ [{ handle := c.nextTimer, kind := .capture,
                     delay := if displayedMatch c o now = true then 3000 else 1200 }] ∧
    (stepAfterProbe page c o now).scanLoopTimer = some c.nextTimer ∧
    (stepAfterProbe page c o now).frames = c.frames ∧
    (stepAfterProbe page c o now).blobPending = c.blobPending ∧
    (stepAfterProbe page c o now).probesInFlight = c.probesInFlight := by
  cases o with
  | failed =>
    simp [stepAfterProbe, sendProbe, displayedMatch, scheduleStep, CAPTURE_INTERVAL_MS]
  | notJson =>
    simp [stepAfterProbe, sendProbe, displayedMatch, scheduleStep, CAPTURE_INTERVAL_MS]
  | reply r =>
    cases hok : r.ok with
    | false =>
      simp [stepAfterProbe, sendProbe, displayedMatch, hok, scheduleStep,
        CAPTURE_INTERVAL_MS]
    | true =>
      cases hm : r.matched with
      | false =>
        by_cases hc : r.confidence = JSVal.undefined <;>
          simp [stepAfterProbe, sendProbe, displayedMatch, hok, hm, hc, scheduleStep,
            CAPTURE_INTERVAL_MS, setStatus]
      | true =>
        cases hst : r.student with
        | none =>
          cases hrv : r.recentVisit with
          | none =>
            simp [stepAfterProbe, sendProbe, displayedMatch, suppressed, hok, hm, hst, hrv,
              scheduleStep, POST_MATCH_COOLDOWN_MS, setStatus]
          | some rv =>
            simp [stepAfterProbe, sendProbe, displayedMatch, suppressed, hok, hm, hst, hrv,
              scheduleStep, POST_MATCH_COOLDOWN_MS, setStatus, prependVisit,
              updateTotalsOnMatch]
            split <;> simp
        | some st =>
          by_cases hid : st.id = 0
          · cases hrv : r.recentVisit <;>
              simp [stepAfterProbe, sendProbe, displayedMatch, suppressed, hok, hm, hst, hrv,
                hid, scheduleStep, POST_MATCH_COOLDOWN_MS, setStatus, prependVisit,
                updateTotalsOnMatch] <;>
              (try split) <;> simp
          · by_cases hlt :
                (now : Int) - (((c.lastMatched.lookup st.id).getD 0 : Nat) : Int) < 10000
            · simp [stepAfterProbe, sendProbe, displayedMatch, suppressed, hok, hm, hst,
                hid, hlt, scheduleStep, CAPTURE_INTERVAL_MS, SAME_USER_DEBOUNCE_MS,
                setStatus]
            · cases hrv : r.recentVisit <;>
                simp [stepAfterProbe, sendProbe, displayedMatch, suppressed, hok, hm, hst,
                  hrv, hid, hlt, scheduleStep, POST_MATCH_COOLDOWN_MS,
                  SAME_USER_DEBOUNCE_MS, setStatus, prependVisit, updateTotalsOnMatch] <;>
                (try split) <;> simp

/-! ## Facts about `escapeHtml` -/

/-- What the replacement makes of one character. -/
theorem replaceClass_piece (c : Char) :
    (if ['&', '<', '>', dquote, squote].contains c then
      (([('&', "&amp;"), ('<', "&lt;"), ('>', "&gt;"), (dquote, "&quot;"),
         (squote, "&#39;")].lookup c).getD "undefined").data
     else [c]) =
    (if isMarkupChar c = true then entityOf c else [c]) := by
  by_cases h1 : c = '&'
  · subst h1; decide
  by_cases h2 : c = '<'
  · subst h2; decide
  by_cases h3 : c = '>'
  · subst h3; decide
  by_cases h4 : c = dquote
  · subst h4; decide
  by_cases h5 : c = squote
  · subst h5; decide
  simp [isMarkupChar, h1, h2, h3, h4, h5]

theorem gym_escapeHtml_data (s : String) :
    (Gym.escapeHtml s).data = s.data.flatMap escapePiece := by
  unfold Gym.escapeHtml
  split
  · rename_i h; subst h; rfl
  · show replaceClass _ _ s.data = _
    unfold replaceClass
    congr 1
    funext c
    exact replaceClass_piece c

theorem entityOf_chars (d c : Char) (h : c ∈ entityOf d) :
    c ≠ '<' ∧ c ≠ '>' ∧ c ≠ dquote ∧ c ≠ squote := by
  unfold entityOf at h
  split at h
  · simp at h; rcases h with h | h | h | h | h <;> subst h <;> decide
  · split at h
    · simp at h; rcases h with h | h | h | h <;> subst h <;> decide
    · split at h
      · simp at h; rcases h with h | h | h | h <;> subst h <;> decide
      · split at h
        · simp at h; rcases h with h | h | h | h | h | h <;> subst h <;> decide
        · simp at h; rcases h with h | h | h | h | h <;> subst h <;> decide

theorem escapePiece_chars (d c : Char) (h : c ∈ escapePiece d) :
    c ≠ '<' ∧ c ≠ '>' ∧ c ≠ dquote ∧ c ≠ squote := by
  unfold escapePiece at h
  split at h
  · exact entityOf_chars d c h
  · rename_i hm
    simp only [List.mem_singleton] at h
    subst h
    simp only [isMarkupChar, Bool.or_eq_true, beq_iff_eq, not_or] at hm
    exact ⟨hm.1.1.1.2, hm.1.1.2, hm.1.2, hm.2⟩

/-- In the output of `escapeHtml` every suffix that begins with `&` begins
with an entity. -/
theorem flatMap_escapePiece_amp (l : List Char) :
    ∀ t : List Char, t <:+ l.flatMap escapePiece → t.head? = some '&' →
      ∃ e, e ∈ entities ∧ e <+: t := by
  induction l with
  | nil =>
    intro t ht hh
    simp at ht
    subst ht
    simp at hh
  | cons d rest ih =>
    intro t ht hh
    rw [List.flatMap_cons] at ht
    by_cases h1 : d = '&'
    · subst h1
      have hp : escapePiece '&' = ['&', 'a', 'm', 'p', ';'] := by decide
      rw [hp] at ht
      simp only [List.cons_append, List.nil_append, List.suffix_cons_iff] at ht
      rcases ht with ht | ht | ht | ht | ht | ht
      · exact ⟨"&amp;".data, by simp [entities], by rw [ht]; exact ⟨_, rfl⟩⟩
      · subst ht; simp at hh
      · subst ht; simp at hh
      · subst ht; simp at hh
      · subst ht; simp at hh
      · exact ih t ht hh
    by_cases h2 : d = '<'
    · subst h2
      have hp : escapePiece '<' = ['&', 'l', 't', ';'] := by decide
      rw [hp] at ht
      simp only [List.cons_append, List.nil_append, List.suffix_cons_iff] at ht
      rcases ht with ht | ht | ht | ht | ht
      · exact ⟨"&lt;".data, by simp [entities], by rw [ht]; exact ⟨_, rfl⟩⟩
      · subst ht; simp at hh
      · subst ht; simp at hh
      · subst ht; simp at hh
      · exact ih t ht hh
    by_cases h3 : d = '>'
    · subst h3
      have hp : escapePiece '>' = ['&', 'g', 't', ';'] := by decide
      rw [hp] at ht
      simp only [List.cons_append, List.nil_append, List.suffix_cons_iff] at ht
      rcases ht with ht | ht | ht | ht | ht
      · exact ⟨"&gt;".data, by simp [entities], by rw [ht]; exact ⟨_, rfl⟩⟩
      · subst ht; simp at hh
      · subst ht; simp at hh
      · subst ht; simp at hh
      · exact ih t ht hh
    by_cases h4 : d = dquote
    · subst h4
      have hp : escapePiece dquote = ['&', 'q', 'u', 'o', 't', ';'] := by decide
      rw [hp] at ht
      simp only [List.cons_append, List.nil_append, List.suffix_cons_iff] at ht
      rcases ht with ht | ht | ht | ht | ht | ht | ht
      · exact ⟨"&quot;".data, by simp [entities], by rw [ht]; exact ⟨_, rfl⟩⟩
      · subst ht; simp at hh
      · subst ht; simp at hh
      · subst ht; simp at hh
      · subst ht; simp at hh
      · subst ht; simp at hh
      · exact ih t ht hh
    by_cases h5 : d = squote
    · subst h5
      have hp : escapePiece squote = ['&', '#', '3', '9', ';'] := by decide
      rw [hp] at ht
      simp only [List.cons_append, List.nil_append, List.suffix_cons_iff] at ht
      rcases ht with ht | ht | ht | ht | ht | ht
      · exact ⟨"&#39;".data, by simp [entities], by rw [ht]; exact ⟨_, rfl⟩⟩
      · subst ht; simp at hh
      · subst ht; simp at hh
      · subst ht; simp at hh
      · subst ht; simp at hh
      · exact ih t ht hh
    have hp : escapePiece d = [d] := by
      simp [escapePiece, isMarkupChar, h1, h2, h3, h4, h5]
    rw [hp] at ht
    simp only [List.cons_append, List.nil_append, List.suffix_cons_iff] at ht
    rcases ht with ht | ht
    · subst ht
      simp only [List.head?_cons, Option.some.injEq] at hh
      exact absurd hh h1
    · exact ih t ht hh

/-! ## Facts about the staff pages -/

/-- The `recentVisit` of a scan that accepts the row `mu`. -/
theorem scanRoute_recentVisit (sec : SectionId) (cfg : Config) (w : World)
    (req : Request) (staff : Staff) (probe : Bytes) (mu : UserRow)
    (hg : passesGuards sec req staff probe) (hsel : w.selectError = none)
    (hne : gallery w.db ≠ [])
    (hm : (routeLoop cfg w probe).matchedUser = some mu) :
    ∃ rv, (scanRoute sec cfg w req).response.recentVisit = some rv ∧
      rv.student_id = mu.student_id ∧ rv.student_name = mu.fullname ∧
      rv.attr = mu.attr ∧ rv.photo_path = photoUrl mu.id ∧
      (w.insertError = none → rv.id = some w.nextVisitId ∧ rv.created_at = w.dbNow) := by
  obtain ⟨h1, h2, h3⟩ := hg
  have hlen : ¬ (gallery w.db).length = 0 := by
    intro h; exact hne (List.length_eq_zero.mp h)
  unfold routeLoop at hm
  unfold scanRoute
  simp only [h1, h2, h3, hsel, hlen, ne_eq, not_true_eq_false, if_false, hm]
  refine ⟨_, rfl, rfl, rfl, rfl, rfl, ?_⟩
  intro hins
  simp [insertVisit, hins]

/-- The visits of a section after a row is appended to its table. -/
theorem visits_addVisit (db : Db) (sec : SectionId) (row : VisitRow) :
    (db.addVisit sec row).visits sec = db.visits sec ++ [row] := by
  cases sec <;> rfl

/-- A newest-first answer over a table whose last row is stamped later than
all others begins with that row. -/
theorem isNewestFirst_head (old : List VisitRow) (new : VisitRow) (limit : Nat)
    (rows : List VisitRow) (hl : 0 < limit)
    (hold : ∀ r ∈ old, r.created_at < new.created_at)
    (h : isNewestFirst (old ++ [new]) limit rows) :
    ∃ rest, rows = new :: rest := by
  obtain ⟨sorted, hp, hs, hr⟩ := h
  have hmem : new ∈ sorted := hp.mem_iff.mpr (by simp)
  cases sorted with
  | nil => simp at hmem
  | cons a t =>
    obtain ⟨n, rfl⟩ : ∃ n, limit = n + 1 := ⟨limit - 1, by omega⟩
    rw [List.take_succ_cons] at hr
    have ha : a = new := by
      by_contra hne
      have hat : new ∈ t := by
        rcases List.mem_cons.mp hmem with h | h
        · exact absurd h.symm hne
        · exact h
      have h1 : new.created_at ≤ a.created_at := (List.pairwise_cons.mp hs).1 new hat
      have h2 : a ∈ old ++ [new] := hp.mem_iff.mp (List.mem_cons_self a t)
      rcases List.mem_append.mp h2 with h | h
      · have := hold a h; omega
      · simp only [List.mem_singleton] at h; exact hne h
    exact ⟨t.take n, by rw [hr, ha]⟩

/-- When the candidate at position `i` is not accepted and none before it is,
a scan that reports a match reports a later row of the gallery, and a scan
whose last candidate is `i` reports no match. -/
theorem scanRoute_matched_later (sec : SectionId) (cfg : Config) (w : World)
    (req : Request) (staff : Staff) (probe : Bytes) (i : Nat)
    (hg : passesGuards sec req staff probe) (hsel : w.selectError = none)
    (hi : i < (gallery w.db).length)
    (hni : accepts (thresholdOf cfg) (observe cfg (w.net i)) = false)
    (hb : ∀ j, j < i → accepts (thresholdOf cfg) (observe cfg (w.net j)) = false) :
    ((scanRoute sec cfg w req).response.matched = some true →
      ∃ k v, i < k ∧ (gallery w.db)[k]? = some v ∧
        (scanRoute sec cfg w req).response.student = some (studentOf v)) ∧
    (i + 1 = (gallery w.db).length →
      (scanRoute sec cfg w req).response.matched = some false ∧
      (scanRoute sec cfg w req).response.student = none) := by
  have hne : gallery w.db ≠ [] := by
    intro h; rw [h] at hi; simp at hi
  rcases first_accepted_or_none (thresholdOf cfg) (fun j => observe cfg (w.net j))
      (gallery w.db).length with hnone | ⟨k, hk, ha, hbk⟩
  · obtain ⟨_, _, n3, n4, _⟩ :=
      scanRoute_none sec cfg w req staff probe hg hsel hne hnone
    exact ⟨fun h => by rw [n3] at h; simp at h, fun _ => ⟨n3, n4⟩⟩
  · have hik : i < k := by
      rcases Nat.lt_trichotomy i k with h | h | h
      · exact h
      · subst h
        change accepts (thresholdOf cfg) (observe cfg (w.net i)) = true at ha
        rw [hni] at ha; simp at ha
      · have := hb k h
        change accepts (thresholdOf cfg) (observe cfg (w.net k)) = true at ha
        rw [this] at ha; simp at ha
    obtain ⟨c, hc, hge⟩ := (accepts_iff _ _).mp ha
    obtain ⟨_, _, _, _, _, f6, _⟩ := scanRoute_first sec cfg w req staff probe k
      (gallery w.db)[k] c hg hsel (List.getElem?_eq_getElem hk) hc hge hbk
    exact ⟨fun _ => ⟨k, (gallery w.db)[k], hik, List.getElem?_eq_getElem hk, f6⟩,
      fun h => by omega⟩

/-- The debounce branch of the script.  On a matched answer for the student
`st` at the time `now`, let `last` be the time recorded for `st.id`, or `0`
when none is recorded.
The script suppresses the match (visit list, counters and debounce map
unchanged, status "Matched recently") exactly when `st.id` is truthy and
`now - last < 10000`; otherwise it displays the hit (one more visit item, the
total incremented, status "Matched") and records `now` for `st.id` when the id
is truthy.  In particular, after a displayed match of a truthy id at `now`, a
further match of that id at `later` is suppressed when `later - now < 10000`
and displayed otherwise. -/
theorem stepAfterProbe_debounce (page : Page) (c : Client) (r : ScanReply) (st : Student)
    (now : Nat) (hok : r.ok = true) (hm : r.matched = true)
    (hst : r.student = some st) :
    ((st.id ≠ 0 ∧
        (now : Int) - (((c.lastMatched.lookup st.id).getD 0 : Nat) : Int) < 10000) →
      (stepAfterProbe page c (.reply r) now).visitList = c.visitList ∧
      (stepAfterProbe page c (.reply r) now).totalVisits = c.totalVisits ∧
      (stepAfterProbe page c (.reply r) now).attrVisits = c.attrVisits ∧
      (stepAfterProbe page c (.reply r) now).otherVisits = c.otherVisits ∧
      (stepAfterProbe page c (.reply r) now).lastMatched = c.lastMatched ∧
      (stepAfterProbe page c (.reply r) now).status = .matchedRecently st.name) ∧
    (¬ (st.id ≠ 0 ∧
        (now : Int) - (((c.lastMatched.lookup st.id).getD 0 : Nat) : Int) < 10000) →
      (stepAfterProbe page c (.reply r) now).visitList.length = c.visitList.length + 1 ∧
      (stepAfterProbe page c (.reply r) now).totalVisits = c.totalVisits + 1 ∧
      (stepAfterProbe page c (.reply r) now).status = .matched st.name r.confidence ∧
      (st.id ≠ 0 →
        (stepAfterProbe page c (.reply r) now).lastMatched.lookup st.id = some now) ∧
      (st.id = 0 → (stepAfterProbe page c (.reply r) now).lastMatched = c.lastMatched) ∧
      (st.id ≠ 0 →
        ∀ (later : Nat) (r2 : ScanReply), r2.ok = true → r2.matched = true →
          r2.student = some st →
          ((later : Int) - (now : Int) < 10000 →
            (stepAfterProbe page (stepAfterProbe page c (.reply r) now)
              (.reply r2) later).visitList =
              (stepAfterProbe page c (.reply r) now).visitList) ∧
          (¬ ((later : Int) - (now : Int) < 10000) →
            (stepAfterProbe page (stepAfterProbe page c (.reply r) now)
              (.reply r2) later).visitList.length =
              (stepAfterProbe page c (.reply r) now).visitList.length + 1))) := by
  obtain ⟨hsup, hdis⟩ := stepAfterProbe_matched page c r st now hok hm hst
  constructor
  · rintro ⟨hid, hlt⟩
    have hs : suppressed c r now = true := by
      simp [suppressed, hst, hid, hlt]
    obtain ⟨a1, a2, a3, a4, a5, a6, _⟩ := hsup hs
    exact ⟨a1, a2, a3, a4, a5, a6⟩
  · intro hnot
    have hs : suppressed c r now = false := by
      simp only [suppressed, hst, Bool.and_eq_false_iff, decide_eq_false_iff_not]
      by_cases hid : st.id = 0
      · left; simpa using hid
      · right; intro hlt; exact hnot ⟨hid, hlt⟩
    obtain ⟨b1, b2, b3, b4, _⟩ := hdis hs
    have hlook : st.id ≠ 0 →
        (stepAfterProbe page c (.reply r) now).lastMatched.lookup st.id = some now := by
      intro hid
      rw [b3, if_pos hid]
      exact lookup_setLastMatched _ _ _
    refine ⟨b1, b2, b4, hlook, ?_, ?_⟩
    · intro hid; rw [b3, if_neg (by simpa using hid)]
    · intro hid later r2 hok2 hm2 hst2
      obtain ⟨hsup2, hdis2⟩ := stepAfterProbe_matched page
        (stepAfterProbe page c (.reply r) now) r2 st later hok2 hm2 hst2
      constructor
      · intro hlt
        have hs2 : suppressed (stepAfterProbe page c (.reply r) now) r2 later = true := by
          simp [suppressed, hst2, hid, hlook hid, hlt]
        exact (hsup2 hs2).1
      · intro hge
        have hs2 : suppressed (stepAfterProbe page c (.reply r) now) r2 later = false := by
          simp only [suppressed, hst2, Bool.and_eq_false_iff, decide_eq_false_iff_not]
          right
          rw [hlook hid]
          simpa using hge
        exact (hdis2 hs2).1

/-! ## Facts about a scan and a compare of one candidate -/

/-- A scan over a gallery of one row: what it answers by the adapter result. -/
theorem scanRoute_single (sec : SectionId) (cfg : Config) (w : World)
    (req : Request) (staff : Staff) (probe : Bytes) (u : UserRow)
    (hg : passesGuards sec req staff probe) (hsel : w.selectError = none)
    (hgal : gallery w.db = [u]) :
    (∀ c, usableConfidence (observe cfg (w.net 0)) = some c →
      c.ge (thresholdOf cfg) = true →
      (scanRoute sec cfg w req).response.matched = some true ∧
      (scanRoute sec cfg w req).response.confidence = some c ∧
      (scanRoute sec cfg w req).response.student = some (studentOf u)) ∧
    (accepts (thresholdOf cfg) (observe cfg (w.net 0)) = false →
      (scanRoute sec cfg w req).response.matched = some false) := by
  have hne : gallery w.db ≠ [] := by rw [hgal]; simp
  constructor
  · intro c hc hge
    obtain ⟨_, _, _, _, f5, f6, f7⟩ := scanRoute_first sec cfg w req staff probe 0 u c
      hg hsel (by rw [hgal]; rfl) hc hge (by intro j hj; omega)
    exact ⟨f5, f7, f6⟩
  · intro ha
    exact (scanRoute_none sec cfg w req staff probe hg hsel hne (by
      intro j hj
      rw [hgal] at hj
      simp only [List.length_singleton, Nat.lt_one_iff] at hj
      subst hj
      exact ha)).2.2.1

/-- A compare whose target row is found with a stored photo: what it answers by
the adapter result. -/
theorem compareRoute_single (sec : SectionId) (cfg : Config) (w : World)
    (req : Request) (staff : Staff) (probe : Bytes) (u : UserRow)
    (hg : passesGuards sec req staff probe) (hsel : w.selectError = none)
    (hfind : findsTarget w req u) (hphoto : u.photo_data ≠ none) :
    (∀ cmp, observe cfg (w.net 0) = .returned cmp → cmp.truthy = true →
      (cmp.get "error_message").truthy = false →
      (compareRoute sec cfg w req).response.matched =
        some ((compareConfidence cmp).ge (thresholdOf cfg)) ∧
      (compareRoute sec cfg w req).response.confidence =
        some (compareConfidence cmp) ∧
      (compareRoute sec cfg w req).response.student = some (studentOf u)) ∧
    ((∀ cmp, observe cfg (w.net 0) = .returned cmp →
        cmp.truthy = false ∨ (cmp.get "error_message").truthy = true) →
      (compareRoute sec cfg w req).response.matched = none) := by
  constructor
  · intro cmp ho htr hem
    obtain ⟨_, _, d3, d4, _, d6, _⟩ := compareRoute_decision sec cfg w req staff probe u
      cmp ⟨hg, hsel, hfind, hphoto, ho, htr, hem⟩
    exact ⟨d3, d4, d6⟩
  · intro hbad
    rcases compareRoute_guarded sec cfg w req with
      ⟨staff', probe', userRow', cmp', hd⟩ | hrej
    · obtain ⟨_, _, _, _, ho, htr, hem⟩ := hd
      rcases hbad cmp' ho with h | h
      · rw [h] at htr; simp at htr
      · rw [h] at hem; simp at hem
    · exact hrej.1

theorem ge_minus_one_ge_zero (t : JSNum)
    (h : JSNum.ge (.fin (-1)) t = true) : JSNum.ge (.fin 0) t = true := by
  cases t with
  | nan => simp [JSNum.ge] at h
  | negInf => rfl
  | posInf => simp [JSNum.ge] at h
  | fin q =>
    simp only [JSNum.ge, decide_eq_true_eq] at h ⊢
    linarith

/-! ## The properties -/

/-- C1. First match wins.  For a scan that passes its guards over a non-empty
gallery, whatever the threshold and the per-candidate answers: the response has
`matched: true` exactly when some candidate's answer carries a usable
confidence that reaches the threshold (and has `matched: false` otherwise);
the returned student is then the first such candidate in gallery order, with
that row's id, name, student id and section attribute and the photo path of
its id, and the returned confidence is that candidate's, whatever later
candidates score. -/
theorem scan_first_match_wins (sec : SectionId) (cfg : Config) (w : World)
    (req : Request) (staff : Staff) (probe : Bytes)
    (hg : passesGuards sec req staff probe) (hsel : w.selectError = none)
    (hne : gallery w.db ≠ []) :
    ((scanRoute sec cfg w req).response.matched = some true ↔
      ∃ i, i < (gallery w.db).length ∧
        accepts (thresholdOf cfg) (observe cfg (w.net i)) = true) ∧
    ((scanRoute sec cfg w req).response.matched = some true ∨
      (scanRoute sec cfg w req).response.matched = some false) ∧
    ∀ (k : Nat) (u : UserRow) (c : JSNum),
      (gallery w.db)[k]? = some u →
      usableConfidence (observe cfg (w.net k)) = some c →
      c.ge (thresholdOf cfg) = true →
      (∀ j, j < k → accepts (thresholdOf cfg) (observe cfg (w.net j)) = false) →
      (scanRoute sec cfg w req).response.matched = some true ∧
      (scanRoute sec cfg w req).response.student =
        some { id := u.id, name := u.fullname, student_id := u.student_id,
               attr := u.attr, photo_url := "/user/photo/" ++ toString u.id } ∧
      (scanRoute sec cfg w req).response.confidence = some c := by
  have hfirst : ∀ (k : Nat) (u : UserRow) (c : JSNum),
      (gallery w.db)[k]? = some u →
      usableConfidence (observe cfg (w.net k)) = some c →
      c.ge (thresholdOf cfg) = true →
      (∀ j, j < k → accepts (thresholdOf cfg) (observe cfg (w.net j)) = false) →
      (scanRoute sec cfg w req).response.matched = some true ∧
      (scanRoute sec cfg w req).response.student =
        some { id := u.id, name := u.fullname, student_id := u.student_id,
               attr := u.attr, photo_url := "/user/photo/" ++ toString u.id } ∧
      (scanRoute sec cfg w req).response.confidence = some c := by
    intro k u c hk hc hge hb
    exact (scanRoute_first sec cfg w req staff probe k u c hg hsel hk hc hge hb).2.2.2.2
  rcases first_accepted_or_none (thresholdOf cfg) (fun i => observe cfg (w.net i))
      (gallery w.db).length with hnone | ⟨k, hk, ha, hb⟩
  · obtain ⟨_, _, m1, _⟩ := scanRoute_none sec cfg w req staff probe hg hsel hne hnone
    refine ⟨⟨?_, ?_⟩, Or.inr m1, hfirst⟩
    · intro h; rw [m1] at h; simp at h
    · rintro ⟨i, hi, hacc⟩
      rw [hnone i hi] at hacc
      exact absurd hacc (by simp)
  · obtain ⟨c, hc, hge⟩ := (accepts_iff _ _).mp ha
    obtain ⟨u, hu⟩ : ∃ u, (gallery w.db)[k]? = some u :=
      ⟨(gallery w.db)[k], List.getElem?_eq_getElem hk⟩
    obtain ⟨f1, _, _⟩ := hfirst k u c hu hc hge hb
    exact ⟨⟨fun _ => ⟨k, hk, ha⟩, fun _ => f1⟩, Or.inl f1, hfirst⟩

/-- Witness of C1: with confidences 40, 81, 95 and threshold 70 the second
user, with id 2, is returned with confidence 81, although the third scores
95. -/
theorem scan_first_match_wins_witness :
    passesGuards .mess sampleReq sampleStaff [255, 216, 255] ∧
    world408195.selectError = none ∧ gallery world408195.db ≠ [] ∧
    (scanRoute .mess sampleCfg world408195 sampleReq).response.matched = some true ∧
    (scanRoute .mess sampleCfg world408195 sampleReq).response.student =
      some { id := 2, name := "Student", student_id := "2sd23is012",
             attr := some true, photo_url := "/user/photo/2" } ∧
    (scanRoute .mess sampleCfg world408195 sampleReq).response.confidence =
      some (.fin 81) :=
  ⟨⟨rfl, rfl, rfl⟩, rfl, by decide,
    (scan_first_match_wins .mess sampleCfg world408195 sampleReq sampleStaff
      [255, 216, 255] ⟨rfl, rfl, rfl⟩ rfl (by decide)).2.2 1 (sampleUser 2)
      (.fin 81) (by decide) (by decide) (by decide) (by decide)⟩

/-- C2. Early exit.  When the first candidate in gallery order whose answer
reaches the threshold sits at position `k` (counted from 0, so it is the
`k + 1`-th candidate), the scan issues exactly `k + 1` adapter calls, one for
each of the first `k + 1` candidates in gallery order, each of them one HTTP
request, and none for a later candidate. -/
theorem scan_early_exit (sec : SectionId) (cfg : Config) (w : World)
    (req : Request) (staff : Staff) (probe : Bytes) (k : Nat) (u : UserRow)
    (c : JSNum)
    (hg : passesGuards sec req staff probe) (hsel : w.selectError = none)
    (hk : (gallery w.db)[k]? = some u)
    (hc : usableConfidence (observe cfg (w.net k)) = some c)
    (hge : c.ge (thresholdOf cfg) = true)
    (hb : ∀ j, j < k → accepts (thresholdOf cfg) (observe cfg (w.net j)) = false) :
    compareCalls (scanRoute sec cfg w req).trace =
      ((gallery w.db).take (k + 1)).map (callOf probe) ∧
    (compareCalls (scanRoute sec cfg w req).trace).length = k + 1 ∧
    httpPosts (scanRoute sec cfg w req).trace =
      ((gallery w.db).take (k + 1)).map (fun v => (probe, v.photo_data)) ∧
    (scanRoute sec cfg w req).response.matched = some true ∧
    (scanRoute sec cfg w req).response.confidence = some c := by
  have hne : gallery w.db ≠ [] := by
    intro h; rw [h] at hk; simp at hk
  have hklt : k < (gallery w.db).length := by
    rcases Nat.lt_or_ge k (gallery w.db).length with h | h
    · exact h
    · rw [List.getElem?_eq_none h] at hk; simp at hk
  obtain ⟨l1, l2, l3, _⟩ := scanLoop_first cfg (thresholdOf cfg) probe w.net
    (gallery w.db) 0 k (.value .null) u c hk (by simpa using hc) hge
    (by intro j hj; simpa using hb j hj)
  obtain ⟨_, _, m3, m4, _, _, _, _, m9, _, m11, _⟩ :=
    scanRoute_match sec cfg w req staff probe u hg hsel hne l1
  have hcalls : compareCalls (scanRoute sec cfg w req).trace =
      ((gallery w.db).take (k + 1)).map (callOf probe) := by
    rw [m9]; exact l3
  have hcfg : credentialsMissing cfg = false := by
    cases hm : credentialsMissing cfg with
    | false => rfl
    | true => rw [observe_of_missing cfg _ hm] at hc; simp at hc
  refine ⟨hcalls, ?_, ?_, m3, ?_⟩
  · rw [hcalls, List.length_map, List.length_take]; omega
  · rw [m11]
    unfold routeLoop
    rw [scanLoop_posts, hcfg]
    simp only [Bool.false_eq_true, if_false]
    have l3' : compareCalls (scanLoop cfg (thresholdOf cfg) probe w.net 0
        (gallery w.db) (.value .null)).trace =
        ((gallery w.db).take (k + 1)).map (callOf probe) := l3
    rw [l3', List.map_map]
    rfl
  · rw [m4]; exact congrArg some l2

/-- Witness of C2: confidences 40, 81, 95 against threshold 70 give
`matched: true` with confidence 81 after exactly two calls, for the first and
the second user; the third is never asked. -/
theorem scan_early_exit_witness :
    compareCalls (scanRoute .mess sampleCfg world408195 sampleReq).trace =
      [callOf [255, 216, 255] (sampleUser 1), callOf [255, 216, 255] (sampleUser 2)] ∧
    (compareCalls (scanRoute .mess sampleCfg world408195 sampleReq).trace).length = 2 ∧
    httpPosts (scanRoute .mess sampleCfg world408195 sampleReq).trace =
      [([255, 216, 255], some [1]), ([255, 216, 255], some [2])] ∧
    (scanRoute .mess sampleCfg world408195 sampleReq).response.matched = some true ∧
    (scanRoute .mess sampleCfg world408195 sampleReq).response.confidence =
      some (.fin 81) :=
  scan_early_exit .mess sampleCfg world408195 sampleReq sampleStaff
    [255, 216, 255] 1 (sampleUser 2) (.fin 81) ⟨rfl, rfl, rfl⟩ rfl (by decide)
    (by decide) (by decide) (by decide)

/-- C3. Every response of a scan route or of a compare route that has
`matched: true` carries, in that same response, a confidence and a threshold
with `confidence >= threshold`. -/
theorem matched_implies_confidence_ge_threshold (sec : SectionId) (cfg : Config)
    (w : World) (req : Request) :
    ((scanRoute sec cfg w req).response.matched = some true →
      ∃ c t, (scanRoute sec cfg w req).response.confidence = some c ∧
        (scanRoute sec cfg w req).response.threshold = some t ∧ c.ge t = true) ∧
    ((compareRoute sec cfg w req).response.matched = some true →
      ∃ c t, (compareRoute sec cfg w req).response.confidence = some c ∧
        (compareRoute sec cfg w req).response.threshold = some t ∧ c.ge t = true) := by
  constructor
  · intro h
    rcases scanRoute_guarded sec cfg w req with ⟨staff, probe, hg, hsel, hne⟩ | ⟨hno, _⟩
    · cases hm : (routeLoop cfg w probe).matchedUser with
      | none =>
        rw [(scanRoute_nomatch sec cfg w req staff probe hg hsel hne hm).1] at h
        simp at h
      | some mu =>
        obtain ⟨_, _, _, m4, m5, _⟩ :=
          scanRoute_match sec cfg w req staff probe mu hg hsel hne hm
        exact ⟨_, _, m4, m5,
          (scanLoop_matched_ge cfg (thresholdOf cfg) probe w.net (gallery w.db) 0
            (.value .null) mu hm).1⟩
    · exact absurd h hno
  · intro h
    rcases compareRoute_guarded sec cfg w req with ⟨staff, probe, userRow, cmp, hd⟩ | ⟨hno, _⟩
    · obtain ⟨_, _, d3, d4, d5, _⟩ :=
        compareRoute_decision sec cfg w req staff probe userRow cmp hd
      rw [d3] at h
      exact ⟨_, _, d4, d5, by simpa using h⟩
    · rw [hno] at h; simp at h

/-- Witness of C3: a matching scan (81 against 70) and a matching compare. -/
theorem matched_implies_confidence_ge_threshold_witness :
    (scanRoute .mess sampleCfg world408195 sampleReq).response.matched = some true ∧
    (compareRoute .mess sampleCfg (worldCompare 81) sampleCompareReq).response.matched =
      some true ∧
    (∃ c t, (scanRoute .mess sampleCfg world408195 sampleReq).response.confidence = some c ∧
      (scanRoute .mess sampleCfg world408195 sampleReq).response.threshold = some t ∧
      c.ge t = true) ∧
    (∃ c t,
      (compareRoute .mess sampleCfg (worldCompare 81) sampleCompareReq).response.confidence =
        some c ∧
      (compareRoute .mess sampleCfg (worldCompare 81) sampleCompareReq).response.threshold =
        some t ∧
      c.ge t = true) :=
  ⟨by decide, by decide,
    (matched_implies_confidence_ge_threshold .mess sampleCfg world408195 sampleReq).1
      (by decide),
    (matched_implies_confidence_ge_threshold .mess sampleCfg (worldCompare 81)
      sampleCompareReq).2 (by decide)⟩

/-- C4. A scan that passes its guards while no enrolled user has a stored
photo answers `{ ok: true, matched: false, message: "No users with stored
photos" }`, issues no adapter call and no HTTP request, sends no insert and
leaves the database as it was. -/
theorem scan_empty_gallery (sec : SectionId) (cfg : Config) (w : World)
    (req : Request) (staff : Staff) (probe : Bytes)
    (hg : passesGuards sec req staff probe) (hsel : w.selectError = none)
    (hempty : ∀ u, u ∈ w.db.users → u.photo_data = none) :
    (scanRoute sec cfg w req).response =
      { Response.reject 200 "No users with stored photos" with
        ok := true, matched := some false } ∧
    (scanRoute sec cfg w req).response.matched = some false ∧
    compareCalls (scanRoute sec cfg w req).trace = [] ∧
    httpPosts (scanRoute sec cfg w req).trace = [] ∧
    visitInserts (scanRoute sec cfg w req).trace = [] ∧
    (scanRoute sec cfg w req).db = w.db := by
  obtain ⟨h1, h2, h3⟩ := hg
  have hgal : gallery w.db = [] := by
    unfold gallery
    rw [List.filter_eq_nil_iff]
    intro u hu
    simp [hempty u hu]
  simp [scanRoute, h1, h2, h3, hsel, hgal, compareCalls, httpPosts, visitInserts]

/-- Witness of C4: two users without a photo. -/
theorem scan_empty_gallery_witness :
    (scanRoute .mess sampleCfg worldNoPhotos sampleReq).response.matched = some false ∧
    compareCalls (scanRoute .mess sampleCfg worldNoPhotos sampleReq).trace = [] ∧
    httpPosts (scanRoute .mess sampleCfg worldNoPhotos sampleReq).trace = [] ∧
    visitInserts (scanRoute .mess sampleCfg worldNoPhotos sampleReq).trace = [] ∧
    (scanRoute .mess sampleCfg worldNoPhotos sampleReq).db = worldNoPhotos.db :=
  (scan_empty_gallery .mess sampleCfg worldNoPhotos sampleReq sampleStaff
    [255, 216, 255] ⟨rfl, rfl, rfl⟩ rfl (by decide)).2

/-- C5. Inclusive boundary.  A candidate whose answer is a success response
with a confidence strictly equal (`===`) to the threshold is accepted: a scan
that reaches it answers `matched: true` (for that candidate when no earlier
one was accepted), and so does a compare that targets it. -/
theorem boundary_confidence_is_accepted (sec : SectionId) (cfg : Config)
    (w : World) (req : Request) (staff : Staff) (probe : Bytes) (u : UserRow)
    (c : JSNum)
    (hg : passesGuards sec req staff probe) (hsel : w.selectError = none)
    (heq : c.strictEq (thresholdOf cfg) = true) :
    (∀ k, (gallery w.db)[k]? = some u →
      reportsConfidence (observe cfg (w.net k)) c = true →
      (scanRoute sec cfg w req).response.matched = some true ∧
      ((∀ j, j < k → accepts (thresholdOf cfg) (observe cfg (w.net j)) = false) →
        (scanRoute sec cfg w req).response.student = some (studentOf u) ∧
        (scanRoute sec cfg w req).response.confidence = some c)) ∧
    (findsTarget w req u → u.photo_data ≠ none →
      reportsConfidence (observe cfg (w.net 0)) c = true →
      (compareRoute sec cfg w req).response.matched = some true ∧
      (compareRoute sec cfg w req).response.student = some (studentOf u) ∧
      (compareRoute sec cfg w req).response.confidence = some c) := by
  have hge := strictEq_ge c (thresholdOf cfg) heq
  constructor
  · intro k hk hrep
    obtain ⟨huse, _⟩ := reportsConfidence_usable _ c hrep
    have hklt : k < (gallery w.db).length := by
      rcases Nat.lt_or_ge k (gallery w.db).length with h | h
      · exact h
      · rw [List.getElem?_eq_none h] at hk; simp at hk
    have hacc : accepts (thresholdOf cfg) (observe cfg (w.net k)) = true :=
      (accepts_iff _ _).mpr ⟨c, huse, hge⟩
    constructor
    · rcases first_accepted_or_none (thresholdOf cfg) (fun i => observe cfg (w.net i))
        (gallery w.db).length with hnone | ⟨k', hk', ha, hb⟩
      · rw [hnone k hklt] at hacc; simp at hacc
      · obtain ⟨c', hc', hge'⟩ := (accepts_iff _ _).mp ha
        exact (scanRoute_first sec cfg w req staff probe k' _ c' hg hsel
          (List.getElem?_eq_getElem hk') hc' hge' hb).2.2.2.2.1
    · intro hb
      exact (scanRoute_first sec cfg w req staff probe k u c hg hsel hk huse hge
        hb).2.2.2.2.2
  · intro hfind hphoto hrep
    obtain ⟨_, cmp, hobs, htr, herr, hconf⟩ := reportsConfidence_usable _ c hrep
    obtain ⟨_, _, d3, d4, _, d6, _⟩ := compareRoute_decision sec cfg w req staff probe
      u cmp ⟨hg, hsel, hfind, hphoto, hobs, htr, herr⟩
    rw [hconf] at d3 d4
    rw [hge] at d3
    exact ⟨d3, d6, d4⟩

/-- Witness of C5: confidence 70 against the default threshold 70, for the
second user of a scan and for the target of a compare. -/
theorem boundary_confidence_is_accepted_witness :
    ((scanRoute .mess sampleCfg world4070 sampleReq).response.matched = some true ∧
      (scanRoute .mess sampleCfg world4070 sampleReq).response.student =
        some (studentOf (sampleUser 2)) ∧
      (scanRoute .mess sampleCfg world4070 sampleReq).response.confidence =
        some (.fin 70)) ∧
    ((compareRoute .mess sampleCfg (worldCompare 70) sampleCompareReq).response.matched =
        some true ∧
      (compareRoute .mess sampleCfg (worldCompare 70) sampleCompareReq).response.student =
        some (studentOf (sampleUser 2)) ∧
      (compareRoute .mess sampleCfg (worldCompare 70) sampleCompareReq).response.confidence =
        some (.fin 70)) :=
  ⟨⟨((boundary_confidence_is_accepted .mess sampleCfg world4070 sampleReq sampleStaff
        [255, 216, 255] (sampleUser 2) (.fin 70) ⟨rfl, rfl, rfl⟩ rfl (by decide)).1 1
        (by decide) (by decide)).1,
      ((boundary_confidence_is_accepted .mess sampleCfg world4070 sampleReq sampleStaff
        [255, 216, 255] (sampleUser 2) (.fin 70) ⟨rfl, rfl, rfl⟩ rfl (by decide)).1 1
        (by decide) (by decide)).2 (by decide)⟩,
    (boundary_confidence_is_accepted .mess sampleCfg (worldCompare 70) sampleCompareReq
      sampleStaff [255, 216, 255] (sampleUser 2) (.fin 70) ⟨rfl, rfl, rfl⟩ rfl
      (by decide)).2 ⟨"2", 2, by decide, by decide, by decide⟩ (by decide) (by decide)⟩

/-- C6, counterexample: the service answers the first of two users with a
confidence of 85 next to an `error_message`, and the second with 81.  The scan
does not move on: it issues one adapter call only, reports the first user with
confidence 85 and writes a visit for that user, while the same scan without
the first user reports the second. -/
theorem scan_accepts_error_response_counterexample :
    (confidenceAndErrorBody.get "error_message").truthy = true ∧
    compareCalls (scanRoute .mess sampleCfg worldError85Then81 sampleReq).trace =
      [(1, [255, 216, 255], some [1])] ∧
    (scanRoute .mess sampleCfg worldError85Then81 sampleReq).response.matched =
      some true ∧
    (scanRoute .mess sampleCfg worldError85Then81 sampleReq).response.confidence =
      some (.fin 85) ∧
    (scanRoute .mess sampleCfg worldError85Then81 sampleReq).response.student.map
      (fun st => st.id) = some 1 ∧
    (visitInserts (scanRoute .mess sampleCfg worldError85Then81 sampleReq).trace).map
      (fun p => p.2.user_id) = [1] ∧
    (scanRoute .mess sampleCfg world81Only sampleReq).response.student.map
      (fun st => st.id) = some 2 := by
  decide

/-- C6 (amended).  When the adapter call fails for the candidate at position
`i` without offering a match (it throws, or the service answers with an
`error_message` next to no confidence or to one whose `Number(...)` value does
not reach the threshold) and no earlier candidate was accepted, the scan goes on: the
next candidate, if any, is the next adapter call of the trace; and the
`matched` flag and the matched student of the response are those of the same
scan over the gallery without candidate `i` (the world `w'`, whose gallery is
the gallery of `w` with position `i` erased and whose answers are those of
`w` for the remaining candidates). -/
theorem scan_skips_failed_candidate (sec : SectionId) (cfg : Config)
    (w w' : World) (req : Request) (staff : Staff) (probe : Bytes) (i : Nat)
    (hg : passesGuards sec req staff probe) (hsel : w.selectError = none)
    (hsel' : w'.selectError = none)
    (hi : i < (gallery w.db).length)
    (hfail : oracleFailed (thresholdOf cfg) (observe cfg (w.net i)) = true)
    (hb : ∀ j, j < i → accepts (thresholdOf cfg) (observe cfg (w.net j)) = false)
    (hgal : gallery w'.db = (gallery w.db).eraseIdx i)
    (hnet : ∀ j, w'.net j = if j < i then w.net j else w.net (j + 1)) :
    (∀ v, (gallery w.db)[i + 1]? = some v →
      (compareCalls (scanRoute sec cfg w req).trace)[i + 1]? =
        some (v.id, probe, v.photo_data)) ∧
    (scanRoute sec cfg w' req).response.matched =
      (scanRoute sec cfg w req).response.matched ∧
    (scanRoute sec cfg w' req).response.student =
      (scanRoute sec cfg w req).response.student := by
  have hne : gallery w.db ≠ [] := by
    intro h; rw [h] at hi; simp at hi
  have hni : accepts (thresholdOf cfg) (observe cfg (w.net i)) = false :=
    oracleFailed_not_accepts _ _ hfail
  have hlen' : (gallery w'.db).length = (gallery w.db).length - 1 := by
    rw [hgal, List.length_eraseIdx]; simp [hi]
  rcases first_accepted_or_none (thresholdOf cfg) (fun j => observe cfg (w.net j))
      (gallery w.db).length with hnone | ⟨k, hk, ha, hbk⟩
  · -- nobody is accepted in either scan
    obtain ⟨_, _, n3, n4, _, n6, _⟩ :=
      scanRoute_none sec cfg w req staff probe hg hsel hne hnone
    have hnone' : ∀ j, j < (gallery w'.db).length →
        accepts (thresholdOf cfg) (observe cfg (w'.net j)) = false := by
      intro j hj
      rw [hnet j]
      split
      · exact hnone j (by omega)
      · exact hnone (j + 1) (by omega)
    refine ⟨?_, ?_, ?_⟩
    · intro v hv
      rw [n6, List.getElem?_map, hv]; rfl
    · rw [n3]
      by_cases hne' : gallery w'.db = []
      · have hemp : (gallery w'.db).length = 0 := by rw [hne']; rfl
        obtain ⟨h1, h2, h3⟩ := hg
        simp [scanRoute, h1, h2, h3, hsel', hemp]
      · exact (scanRoute_none sec cfg w' req staff probe hg hsel' hne' hnone').2.2.1
    · rw [n4]
      by_cases hne' : gallery w'.db = []
      · have hemp : (gallery w'.db).length = 0 := by rw [hne']; rfl
        obtain ⟨h1, h2, h3⟩ := hg
        simp [scanRoute, h1, h2, h3, hsel', hemp, Response.reject]
      · exact (scanRoute_none sec cfg w' req staff probe hg hsel' hne' hnone').2.2.2.1
  · -- the first accepted candidate sits at `k`, after `i`
    have hik : i < k := by
      rcases Nat.lt_trichotomy i k with h | h | h
      · exact h
      · subst h
        change accepts (thresholdOf cfg) (observe cfg (w.net i)) = true at ha
        rw [hni] at ha; simp at ha
      · have := hb k h
        change accepts (thresholdOf cfg) (observe cfg (w.net k)) = true at ha
        rw [this] at ha; simp at ha
    obtain ⟨c, hc, hge⟩ := (accepts_iff _ _).mp ha
    obtain ⟨_, _, f3, _, f5, f6, _⟩ := scanRoute_first sec cfg w req staff probe k
      (gallery w.db)[k] c hg hsel (List.getElem?_eq_getElem hk) hc hge hbk
    have hne' : gallery w.db ≠ [] := hne
    obtain ⟨_, _, _, _, _, _, _, _, m9, _⟩ := scanRoute_match sec cfg w req staff probe
      (gallery w.db)[k] hg hsel hne
      (scanRoute_first sec cfg w req staff probe k (gallery w.db)[k] c hg hsel
        (List.getElem?_eq_getElem hk) hc hge hbk).1
    have hk' : (gallery w'.db)[k - 1]? = some (gallery w.db)[k] := by
      rw [hgal, List.getElem?_eraseIdx]
      have : ¬ (k - 1 < i) := by omega
      simp only [this, if_false]
      rw [show k - 1 + 1 = k by omega]
      exact List.getElem?_eq_getElem hk
    have hc' : usableConfidence (observe cfg (w'.net (k - 1))) = some c := by
      rw [hnet (k - 1)]
      have : ¬ (k - 1 < i) := by omega
      simp only [this, if_false]
      rw [show k - 1 + 1 = k by omega]
      exact hc
    have hb' : ∀ j, j < k - 1 →
        accepts (thresholdOf cfg) (observe cfg (w'.net j)) = false := by
      intro j hj
      rw [hnet j]
      split
      · exact hbk j (by omega)
      · exact hbk (j + 1) (by omega)
    obtain ⟨_, _, _, _, g5, g6, _⟩ := scanRoute_first sec cfg w' req staff probe (k - 1)
      (gallery w.db)[k] c hg hsel' hk' hc' hge hb'
    refine ⟨?_, by rw [g5, f5], by rw [g6, f6]⟩
    intro v hv
    rw [m9, f3, List.getElem?_map, List.getElem?_take_of_lt (by omega), hv]
    rfl

/-- Witness of C6 (amended): an error response for the first of two users and 81 for
the second give the same decision as the scan over the second user alone. -/
theorem scan_skips_failed_candidate_witness :
    oracleFailed (thresholdOf sampleCfg) (observe sampleCfg (worldErrorThen81.net 0)) =
      true ∧
    (compareCalls (scanRoute .mess sampleCfg worldErrorThen81 sampleReq).trace)[1]? =
      some (2, [255, 216, 255], some [2]) ∧
    (scanRoute .mess sampleCfg world81Only sampleReq).response.matched =
      (scanRoute .mess sampleCfg worldErrorThen81 sampleReq).response.matched ∧
    (scanRoute .mess sampleCfg world81Only sampleReq).response.student =
      (scanRoute .mess sampleCfg worldErrorThen81 sampleReq).response.student ∧
    (scanRoute .mess sampleCfg worldErrorThen81 sampleReq).response.student =
      some { id := 2, name := "Student", student_id := "2sd23is012",
             attr := some true, photo_url := "/user/photo/2" } :=
  have h := scan_skips_failed_candidate .mess sampleCfg worldErrorThen81 world81Only
    sampleReq sampleStaff [255, 216, 255] 0 ⟨rfl, rfl, rfl⟩ rfl rfl (by decide)
    (by decide) (by decide) (by decide)
    (by intro j; cases j <;> simp [world81Only, worldErrorThen81, sampleWorld])
  ⟨by decide, h.1 (sampleUser 2) (by decide), h.2.1, h.2.2, by decide⟩

/-- C7, counterexample: two enrolled users, each answered with a confidence of
85 next to an `error_message`.  The scan reports `matched: true` with
confidence 85 for the first user and writes one visit. -/
theorem scan_all_error_responses_counterexample :
    gallery worldAllErrors85.db = [sampleUser 1, sampleUser 2] ∧
    worldAllErrors85.net 0 = .returned confidenceAndErrorBody ∧
    worldAllErrors85.net 1 = .returned confidenceAndErrorBody ∧
    confidenceAndErrorBody.get "error_message" = .str "CONCURRENCY_LIMIT_EXCEEDED" ∧
    (scanRoute .mess sampleCfg worldAllErrors85 sampleReq).response.ok = true ∧
    (scanRoute .mess sampleCfg worldAllErrors85 sampleReq).response.matched =
      some true ∧
    (scanRoute .mess sampleCfg worldAllErrors85 sampleReq).response.confidence =
      some (.fin 85) ∧
    (visitInserts (scanRoute .mess sampleCfg worldAllErrors85 sampleReq).trace).length =
      1 ∧
    ((scanRoute .mess sampleCfg worldAllErrors85 sampleReq).db.visits .mess).map
      (fun r => r.user_id) = [1] := by
  decide

/-- C7 (amended).  A scan over a non-empty gallery in which the adapter call
fails for every candidate without offering a match (it throws, or the service
answers with an `error_message` next to no confidence or to one whose
`Number(...)` value does not reach the threshold) does not fail: it answers
status 200 with `ok: true`,
`matched: false` and the confidence `-1`, sends no insert and leaves the
database as it was. -/
theorem scan_all_candidates_failed (sec : SectionId) (cfg : Config) (w : World)
    (req : Request) (staff : Staff) (probe : Bytes)
    (hg : passesGuards sec req staff probe) (hsel : w.selectError = none)
    (hne : gallery w.db ≠ [])
    (hall : ∀ i, i < (gallery w.db).length →
      oracleFailed (thresholdOf cfg) (observe cfg (w.net i)) = true) :
    (scanRoute sec cfg w req).response.status = 200 ∧
    (scanRoute sec cfg w req).response.ok = true ∧
    (scanRoute sec cfg w req).response.matched = some false ∧
    (scanRoute sec cfg w req).response.confidence = some (.fin (-1)) ∧
    visitInserts (scanRoute sec cfg w req).trace = [] ∧
    (scanRoute sec cfg w req).db = w.db := by
  obtain ⟨n1, n2, n3, _, n5, _, n7, n8⟩ := scanRoute_none sec cfg w req staff probe hg
    hsel hne (fun i hi => oracleFailed_not_accepts _ _ (hall i hi))
  exact ⟨n1, n2, n3, n5, n7, n8⟩

/-- Witness of C7 (amended): two enrolled users, an `error_message` for both. -/
theorem scan_all_candidates_failed_witness :
    (scanRoute .mess sampleCfg worldAllErrors sampleReq).response.status = 200 ∧
    (scanRoute .mess sampleCfg worldAllErrors sampleReq).response.ok = true ∧
    (scanRoute .mess sampleCfg worldAllErrors sampleReq).response.matched = some false ∧
    (scanRoute .mess sampleCfg worldAllErrors sampleReq).response.confidence =
      some (.fin (-1)) ∧
    visitInserts (scanRoute .mess sampleCfg worldAllErrors sampleReq).trace = [] ∧
    (scanRoute .mess sampleCfg worldAllErrors sampleReq).db = worldAllErrors.db :=
  scan_all_candidates_failed .mess sampleCfg worldAllErrors sampleReq sampleStaff
    [255, 216, 255] ⟨rfl, rfl, rfl⟩ rfl (by decide) (by decide)

/-- C8 (what the code does).  One enrolled user whose comparison succeeds with
confidence 40, below the threshold 70: the scan answers `matched: false` with
the confidence `-1`, not with the confidence 40 it observed. -/
theorem scan_no_match_reports_sentinel_after_success :
    usableConfidence (observe sampleCfg (world40.net 0)) = some (.fin 40) ∧
    (scanRoute .mess sampleCfg world40 sampleReq).response.ok = true ∧
    (scanRoute .mess sampleCfg world40 sampleReq).response.matched = some false ∧
    (scanRoute .mess sampleCfg world40 sampleReq).response.confidence =
      some (.fin (-1)) ∧
    (scanRoute .mess sampleCfg world40 sampleReq).response.facepp_raw =
      some (confidenceBody 40) := by
  decide

/-- C9.  Visit write.  The id of a staff session is the id the database gave
the staff row at its insert, a positive number.  For every scan request of
such a session: it sends at most one visit insert, none (and the database is
left as it was) unless the response has `matched: true`, and exactly one when
it has.  The row inserted carries the user id, student id, name and section
attribute of the accepted candidate, who is a row of the scanned gallery and
the student of the response; its operator id is the id of the requesting
staff member.  When the insert succeeds that row, stamped by the database, is
appended to the visits table of the section. -/
theorem scan_visit_write (sec : SectionId) (cfg : Config) (w : World)
    (req : Request)
    (hid : ∀ staff, req.staff = some staff → staff.id ≠ 0) :
    (visitInserts (scanRoute sec cfg w req).trace).length ≤ 1 ∧
    ((scanRoute sec cfg w req).response.matched ≠ some true →
      visitInserts (scanRoute sec cfg w req).trace = [] ∧
      (scanRoute sec cfg w req).db = w.db) ∧
    ((scanRoute sec cfg w req).response.matched = some true →
      ∃ staff u, req.staff = some staff ∧ u ∈ gallery w.db ∧
        (scanRoute sec cfg w req).response.student =
          some { id := u.id, name := u.fullname, student_id := u.student_id,
                 attr := u.attr, photo_url := "/user/photo/" ++ toString u.id } ∧
        visitInserts (scanRoute sec cfg w req).trace =
          [(sec, { user_id := u.id, student_id := u.student_id,
                   student_name := u.fullname, attr := u.attr,
                   staff_id := some staff.id })] ∧
        (w.insertError = none →
          (scanRoute sec cfg w req).db.visits sec = w.db.visits sec ++
            [{ id := w.nextVisitId, user_id := u.id, student_id := u.student_id,
               student_name := u.fullname, attr := u.attr, created_at := w.dbNow,
               staff_id := some staff.id }])) := by
  rcases scanRoute_guarded sec cfg w req with ⟨staff, probe, hg, hsel, hne⟩ | ⟨hno, _, _, hi, hdb⟩
  · have hst : staffIdOrNull staff = some staff.id := by
      simp [staffIdOrNull, hid staff hg.1]
    cases hm : (routeLoop cfg w probe).matchedUser with
    | none =>
      obtain ⟨m1, m2, m3⟩ := scanRoute_nomatch sec cfg w req staff probe hg hsel hne hm
      have hni : visitInserts (scanRoute sec cfg w req).trace = [] := by
        rw [m2]
        simpa [visitInserts, routeLoop] using
          scanLoop_no_insert cfg (thresholdOf cfg) probe w.net (gallery w.db) 0 (.value .null)
      refine ⟨by rw [hni]; simp, fun _ => ⟨hni, m3⟩, ?_⟩
      intro h; rw [m1] at h; simp at h
    | some mu =>
      obtain ⟨_, _, m3, _, _, m6, _, m8, _, m10, _⟩ :=
        scanRoute_match sec cfg w req staff probe mu hg hsel hne hm
      obtain ⟨_, k, hk, _⟩ := scanLoop_matched_ge cfg (thresholdOf cfg) probe w.net
        (gallery w.db) 0 (.value .null) mu hm
      refine ⟨by rw [m8]; simp, fun h => absurd m3 h, fun _ => ?_⟩
      refine ⟨staff, mu, hg.1, List.getElem?_mem hk, m6, ?_, ?_⟩
      · rw [m8, visitArgs, hst]
      · intro hins
        rw [m10]
        simp only [insertVisit, hins, visitArgs, hst]
        cases sec <;> rfl
  · refine ⟨by rw [hi]; simp, fun _ => ⟨hi, hdb⟩, fun h => absurd h hno⟩

/-- Witness of C9: the scan of confidences 40, 81, 95 in the session of the
operator with id 7 writes one visit, for the second user, with the operator
id 7. -/
theorem scan_visit_write_witness :
    (∀ staff, sampleReq.staff = some staff → staff.id ≠ 0) ∧
    (scanRoute .mess sampleCfg world408195 sampleReq).response.matched = some true ∧
    visitInserts (scanRoute .mess sampleCfg world408195 sampleReq).trace =
      [(.mess, { user_id := 2, student_id := "2sd23is012", student_name := "Student",
                 attr := some true, staff_id := some 7 })] ∧
    ∃ staff u, sampleReq.staff = some staff ∧ u ∈ gallery world408195.db ∧
      (scanRoute .mess sampleCfg world408195 sampleReq).response.student =
        some { id := u.id, name := u.fullname, student_id := u.student_id,
               attr := u.attr, photo_url := "/user/photo/" ++ toString u.id } ∧
      visitInserts (scanRoute .mess sampleCfg world408195 sampleReq).trace =
        [(.mess, { user_id := u.id, student_id := u.student_id,
                   student_name := u.fullname, attr := u.attr,
                   staff_id := some staff.id })] ∧
      (world408195.insertError = none →
        (scanRoute .mess sampleCfg world408195 sampleReq).db.visits .mess =
          world408195.db.visits .mess ++
          [{ id := world408195.nextVisitId, user_id := u.id, student_id := u.student_id,
             student_name := u.fullname, attr := u.attr,
             created_at := world408195.dbNow,
             staff_id := some staff.id }]) :=
  ⟨by intro staff h; cases h; decide, by decide, by decide,
    (scan_visit_write .mess sampleCfg world408195 sampleReq
      (by intro staff h; cases h; decide)).2.2 (by decide)⟩

/-- C10. Ledger write failure.  When a candidate is accepted and the visit
insert is rejected by the database, the scan route, and likewise the compare
route, still answers status 200 with `ok: true` and `matched: true` for that
subject, with `inserted_visit_id: null` (and, for the scan, a `recentVisit`
whose id is `null`); no row is added to the database. -/
theorem insert_failure_still_matched (sec : SectionId) (cfg : Config)
    (w : World) (req : Request) (staff : Staff) (probe : Bytes) (u : UserRow)
    (e : String)
    (hg : passesGuards sec req staff probe) (hsel : w.selectError = none)
    (hins : w.insertError = some e) :
    (∀ k c, (gallery w.db)[k]? = some u →
      usableConfidence (observe cfg (w.net k)) = some c →
      c.ge (thresholdOf cfg) = true →
      (∀ j, j < k → accepts (thresholdOf cfg) (observe cfg (w.net j)) = false) →
      (scanRoute sec cfg w req).response.status = 200 ∧
      (scanRoute sec cfg w req).response.ok = true ∧
      (scanRoute sec cfg w req).response.matched = some true ∧
      (scanRoute sec cfg w req).response.student = some (studentOf u) ∧
      (scanRoute sec cfg w req).response.inserted_visit_id = some none ∧
      (scanRoute sec cfg w req).response.recentVisit.map (fun v => v.id) = some none ∧
      (scanRoute sec cfg w req).db = w.db) ∧
    (∀ cmp, reachesDecision sec cfg w req staff probe u cmp →
      (compareConfidence cmp).ge (thresholdOf cfg) = true →
      (compareRoute sec cfg w req).response.status = 200 ∧
      (compareRoute sec cfg w req).response.ok = true ∧
      (compareRoute sec cfg w req).response.matched = some true ∧
      (compareRoute sec cfg w req).response.student = some (studentOf u) ∧
      (compareRoute sec cfg w req).response.inserted_visit_id = some none ∧
      (compareRoute sec cfg w req).db = w.db) := by
  constructor
  · intro k c hk hc hge hb
    obtain ⟨l1, _, _, hne, _⟩ :=
      scanRoute_first sec cfg w req staff probe k u c hg hsel hk hc hge hb
    obtain ⟨m1, m2, m3, _, _, m6, m7, _, _, m10, _, m12⟩ :=
      scanRoute_match sec cfg w req staff probe u hg hsel hne l1
    rw [hins] at m7
    refine ⟨m1, m2, m3, m6, m7, by rw [m12, m7], ?_⟩
    rw [m10]
    simp [insertVisit, hins]
  · intro cmp hd hge
    obtain ⟨d1, d2, d3, _, _, d6, d7, _, _, d10⟩ :=
      compareRoute_decision sec cfg w req staff probe u cmp hd
    rw [hge] at d3
    rw [hins] at d7
    simp only [hge, if_true] at d7 d10
    refine ⟨d1, d2, d3, d6, d7, ?_⟩
    rw [d10]
    simp [insertVisit, hins]

/-- Witness of C10: the scan of confidences 40, 81, 95 and the compare with
confidence 81, both against a database that rejects the insert. -/
theorem insert_failure_still_matched_witness :
    ((scanRoute .mess sampleCfg worldInsertFails sampleReq).response.ok = true ∧
      (scanRoute .mess sampleCfg worldInsertFails sampleReq).response.matched = some true ∧
      (scanRoute .mess sampleCfg worldInsertFails sampleReq).response.student =
        some (studentOf (sampleUser 2)) ∧
      (scanRoute .mess sampleCfg worldInsertFails sampleReq).response.inserted_visit_id =
        some none) ∧
    ((compareRoute .mess sampleCfg worldCompareInsertFails sampleCompareReq).response.ok =
        true ∧
      (compareRoute .mess sampleCfg worldCompareInsertFails sampleCompareReq).response.matched =
        some true ∧
      (compareRoute .mess sampleCfg worldCompareInsertFails
        sampleCompareReq).response.student = some (studentOf (sampleUser 2)) ∧
      (compareRoute .mess sampleCfg worldCompareInsertFails
        sampleCompareReq).response.inserted_visit_id = some none) :=
  have h := insert_failure_still_matched .mess sampleCfg
  have hs := (h worldInsertFails sampleReq sampleStaff [255, 216, 255] (sampleUser 2)
    "Connection terminated unexpectedly" ⟨rfl, rfl, rfl⟩ rfl rfl).1 1 (.fin 81)
    (by decide) (by decide) (by decide) (by decide)
  have hc := (h worldCompareInsertFails sampleCompareReq sampleStaff [255, 216, 255]
    (sampleUser 2) "Connection terminated unexpectedly" ⟨rfl, rfl, rfl⟩ rfl rfl).2
    (confidenceBody 81)
    ⟨⟨rfl, rfl, rfl⟩, rfl, ⟨"2", 2, by decide, by decide, by decide⟩, by decide,
      by decide, by decide, by decide⟩ (by decide)
  ⟨⟨hs.2.1, hs.2.2.1, hs.2.2.2.1, hs.2.2.2.2.1⟩, ⟨hc.2.1, hc.2.2.1, hc.2.2.2.1, hc.2.2.2.2.1⟩⟩

/-- C11. Input errors are rejected before any effect.  A scan or compare
request without a staff session bound to the section of the route is answered
`{ ok: false, message }` with status 403; with such a session but without a
probe image, with status 400; a compare with both but without a target id,
with status 400.  In each case the route issues no effect at all (no query, no
adapter call, no HTTP request, no insert) and leaves the database as it
was. -/
theorem input_errors_rejected_before_effects (sec : SectionId) (cfg : Config)
    (w : World) (req : Request) :
    ((¬ authorized sec req →
        (scanRoute sec cfg w req).response =
          .reject 403 ("Forbidden: not " ++ sec.name ++ " staff")) ∧
      (authorized sec req → req.file = none →
        (scanRoute sec cfg w req).response =
          .reject 400 "Probe image (image) is required") ∧
      (¬ authorized sec req ∨ req.file = none →
        (scanRoute sec cfg w req).response.ok = false ∧
        (scanRoute sec cfg w req).response.message ≠ none ∧
        (scanRoute sec cfg w req).trace = [] ∧
        (scanRoute sec cfg w req).db = w.db)) ∧
    ((¬ authorized sec req →
        (compareRoute sec cfg w req).response =
          .reject 403 ("Forbidden: not " ++ sec.name ++ " staff")) ∧
      (authorized sec req → req.file = none →
        (compareRoute sec cfg w req).response =
          .reject 400 "Probe image (image) is required") ∧
      (authorized sec req → req.file ≠ none → targetKey req = none →
        (compareRoute sec cfg w req).response =
          .reject 400 "user_id (target) is required") ∧
      (¬ authorized sec req ∨ req.file = none ∨ targetKey req = none →
        (compareRoute sec cfg w req).response.ok = false ∧
        (compareRoute sec cfg w req).response.message ≠ none ∧
        (compareRoute sec cfg w req).trace = [] ∧
        (compareRoute sec cfg w req).db = w.db)) := by
  cases hs : req.staff with
  | none =>
    have hna : ¬ authorized sec req := by
      rintro ⟨st, h1, _⟩; rw [hs] at h1; exact absurd h1 (by simp)
    simp [hna, scanRoute, compareRoute, hs, Response.reject]
  | some staff =>
    by_cases hsec : staff.«section» = sec.name
    · have ha : authorized sec req := ⟨staff, hs, hsec⟩
      cases hf : req.file with
      | none => simp [ha, scanRoute, compareRoute, hs, hsec, hf, Response.reject]
      | some probe =>
        cases hk : targetKey req with
        | none => simp [ha, scanRoute, compareRoute, hs, hsec, hf, hk, Response.reject]
        | some key => simp [ha]
    · have hna : ¬ authorized sec req := by
        rintro ⟨st, h1, h2⟩
        rw [hs] at h1
        injection h1 with h1
        subst h1
        exact hsec h2
      simp [hna, scanRoute, compareRoute, hs, hsec, Response.reject]

/-- Witness of C11: a request without a session and one of a gym operator on
the mess routes (403); a request without a probe image (400); a compare
without a target id (400). -/
theorem input_errors_rejected_before_effects_witness :
    ((scanRoute .mess sampleCfg world408195 reqNoSession).response =
        .reject 403 "Forbidden: not mess staff" ∧
      (scanRoute .mess sampleCfg world408195 reqGymStaff).response.ok = false ∧
      (scanRoute .mess sampleCfg world408195 reqGymStaff).trace = [] ∧
      (scanRoute .mess sampleCfg world408195 reqNoFile).response =
        .reject 400 "Probe image (image) is required") ∧
    ((compareRoute .mess sampleCfg (worldCompare 81) reqGymStaff).response =
        .reject 403 "Forbidden: not mess staff" ∧
      (compareRoute .mess sampleCfg (worldCompare 81) compareReqNoTarget).response =
        .reject 400 "user_id (target) is required" ∧
      (compareRoute .mess sampleCfg (worldCompare 81) compareReqNoTarget).trace = [] ∧
      (compareRoute .mess sampleCfg (worldCompare 81) compareReqNoTarget).db =
        (worldCompare 81).db) :=
  have hno : ¬ authorized .mess reqNoSession := by
    rintro ⟨st, h1, _⟩; exact Option.noConfusion h1
  have hgym : ¬ authorized .mess reqGymStaff := by
    rintro ⟨st, h1, h2⟩
    have : st = { sampleStaff with «section» := "gym" } := by
      injection h1 with h1; exact h1.symm
    subst this
    exact absurd h2 (by decide)
  have hmess : authorized .mess reqNoFile := ⟨sampleStaff, rfl, rfl⟩
  have hmess' : authorized .mess compareReqNoTarget := ⟨sampleStaff, rfl, rfl⟩
  ⟨⟨(input_errors_rejected_before_effects .mess sampleCfg world408195 reqNoSession).1.1 hno,
      ((input_errors_rejected_before_effects .mess sampleCfg world408195
        reqGymStaff).1.2.2 (Or.inl hgym)).1,
      ((input_errors_rejected_before_effects .mess sampleCfg world408195
        reqGymStaff).1.2.2 (Or.inl hgym)).2.2.1,
      (input_errors_rejected_before_effects .mess sampleCfg world408195
        reqNoFile).1.2.1 hmess rfl⟩,
    ⟨(input_errors_rejected_before_effects .mess sampleCfg (worldCompare 81)
        reqGymStaff).2.1 hgym,
      (input_errors_rejected_before_effects .mess sampleCfg (worldCompare 81)
        compareReqNoTarget).2.2.2.1 hmess' (by decide) (by decide),
      ((input_errors_rejected_before_effects .mess sampleCfg (worldCompare 81)
        compareReqNoTarget).2.2.2.2 (Or.inr (Or.inr (by decide)))).2.2.1,
      ((input_errors_rejected_before_effects .mess sampleCfg (worldCompare 81)
        compareReqNoTarget).2.2.2.2 (Or.inr (Or.inr (by decide)))).2.2.2⟩⟩

/-- C12 (what the code does).  Without an oracle key, the scan of three
enrolled users issues no HTTP request and answers `{ ok: true, matched: false,
confidence: -1, threshold: 70, facepp_raw: null }` with status 200, without any
message or error text: the very response of the same scan with credentials
when every request to the service times out.  The compare route, in the same
configuration, answers with status 500 and the credential error in `error`. -/
theorem scan_missing_credentials_is_plain_no_match :
    credentialsMissing cfgNoKey = true ∧
    httpPosts (scanRoute .mess cfgNoKey world408195 sampleReq).trace = [] ∧
    (scanRoute .mess cfgNoKey world408195 sampleReq).response =
      { status := 200, ok := true, matched := some false,
        confidence := some (.fin (-1)), threshold := some (.fin 70),
        message := none, student := none, inserted_visit_id := none,
        recentVisit := none, facepp_raw := some (.value .null), raw := none,
        error := none } ∧
    (scanRoute .mess cfgNoKey world408195 sampleReq).response =
      (scanRoute .mess sampleCfg worldTimeouts sampleReq).response ∧
    (compareRoute .mess cfgNoKey (worldCompare 81) sampleCompareReq).response =
      .serverError "Face++ credentials not configured (FACEPP_KEY/FACEPP_SECRET)" := by
  decide

/-- C13, counterexample: a confidence that is the string `"85"`, not a number,
is converted by `Number(...)` and accepted against the default threshold 70:
the scan reports user 1 as matched with confidence 85 and writes a visit. -/
theorem scan_accepts_string_confidence_counterexample :
    worldString85.net 0 = .returned (.record [("confidence", .str "85")]) ∧
    (scanRoute .mess sampleCfg worldString85 sampleReq).response.matched = some true ∧
    (scanRoute .mess sampleCfg worldString85 sampleReq).response.student =
      some { id := 1, name := "Student", student_id := "2sd23is012",
             attr := some true, photo_url := "/user/photo/1" } ∧
    (scanRoute .mess sampleCfg worldString85 sampleReq).response.confidence =
      some (.fin 85) ∧
    ((scanRoute .mess sampleCfg worldString85 sampleReq).db.visits .mess).map
      (fun r => r.user_id) = [1] := by
  decide!

/-- C13 (amended).  Let the candidate `u` at gallery position `i` be answered
with the body `cmp`, no earlier candidate being accepted.  When `cmp` is
falsy, or its `confidence` is missing, or its `confidence` does not convert
to a number (`Number(...)` is NaN), then for every threshold the scan does not
fail (status 200, `ok: true`), the next candidate, if any, is the next adapter
call, a reported match is a later row of the gallery, and the scan reports
`matched: false` when `u` is the last candidate.  When `cmp` is an object
with a `confidence` of any kind, the scan reports `u` as matched, with the
converted value as confidence, if that value reaches the threshold, and
passes `u` over in the same way if it does not. -/
theorem scan_ignores_unusable_confidence (sec : SectionId) (cfg : Config)
    (w : World) (req : Request) (staff : Staff) (probe : Bytes) (i : Nat)
    (u : UserRow) (cmp : Body)
    (hg : passesGuards sec req staff probe) (hsel : w.selectError = none)
    (hk : (gallery w.db)[i]? = some u)
    (hobs : observe cfg (w.net i) = .returned cmp)
    (hb : ∀ j, j < i → accepts (thresholdOf cfg) (observe cfg (w.net j)) = false) :
    ((cmp.truthy = false ∨ cmp.get "confidence" = JSVal.undefined ∨
        (cmp.get "confidence").toNumber = JSNum.nan ∨
        (cmp.get "confidence").toNumber.ge (thresholdOf cfg) = false) →
      (scanRoute sec cfg w req).response.status = 200 ∧
      (scanRoute sec cfg w req).response.ok = true ∧
      (∀ v, (gallery w.db)[i + 1]? = some v →
        (compareCalls (scanRoute sec cfg w req).trace)[i + 1]? =
          some (v.id, probe, v.photo_data)) ∧
      ((scanRoute sec cfg w req).response.matched = some true →
        ∃ k v, i < k ∧ (gallery w.db)[k]? = some v ∧
          (scanRoute sec cfg w req).response.student =
            some { id := v.id, name := v.fullname, student_id := v.student_id,
                   attr := v.attr, photo_url := "/user/photo/" ++ toString v.id }) ∧
      (i + 1 = (gallery w.db).length →
        (scanRoute sec cfg w req).response.matched = some false ∧
        (scanRoute sec cfg w req).response.student = none)) ∧
    (cmp.truthy = true → cmp.get "confidence" ≠ JSVal.undefined →
      (cmp.get "confidence").toNumber.ge (thresholdOf cfg) = true →
      (scanRoute sec cfg w req).response.matched = some true ∧
      (scanRoute sec cfg w req).response.student =
        some { id := u.id, name := u.fullname, student_id := u.student_id,
               attr := u.attr, photo_url := "/user/photo/" ++ toString u.id } ∧
      (scanRoute sec cfg w req).response.confidence =
        some (cmp.get "confidence").toNumber) := by
  have hi : i < (gallery w.db).length := by
    rcases Nat.lt_or_ge i (gallery w.db).length with h | h
    · exact h
    · rw [List.getElem?_eq_none h] at hk; simp at hk
  refine ⟨?_, ?_⟩
  · intro hun
    have hni : accepts (thresholdOf cfg) (observe cfg (w.net i)) = false := by
      rw [hobs]
      rcases hun with h | h | h | h
      · simp [accepts, usableConfidence, h]
      · simp [accepts, usableConfidence, h]
      · by_cases hu : (cmp.truthy && cmp.get "confidence" != JSVal.undefined) = true
        · simp only [accepts, usableConfidence, hu, if_true, h]
          cases thresholdOf cfg <;> rfl
        · simp [accepts, usableConfidence, hu]
      · by_cases hu : (cmp.truthy && cmp.get "confidence" != JSVal.undefined) = true
        · simp [accepts, usableConfidence, hu, h]
        · simp [accepts, usableConfidence, hu]
    obtain ⟨n1, n2, n3⟩ :=
      scanRoute_next_called sec cfg w req staff probe i hg hsel hi hni hb
    obtain ⟨l1, l2⟩ :=
      scanRoute_matched_later sec cfg w req staff probe i hg hsel hi hni hb
    exact ⟨n1, n2, n3, l1, l2⟩
  · intro htr hdef hge
    have hc : usableConfidence (observe cfg (w.net i)) =
        some (cmp.get "confidence").toNumber := by
      rw [hobs]; simp [usableConfidence, htr, hdef]
    exact (scanRoute_first sec cfg w req staff probe i u _ hg hsel hk hc hge hb).2.2.2.2

/-- Witness of C13 (amended): `{ confidence: "high" }` for the first of two
users is passed over, the second user, answered with 81, is asked next and is
the one reported. -/
theorem scan_ignores_unusable_confidence_witness :
    (gallery worldTextThen81.db)[0]? = some (sampleUser 1) ∧
    observe sampleCfg (worldTextThen81.net 0) =
      .returned (.record [("confidence", .str "high")]) ∧
    (JSVal.str "high").toNumber = JSNum.nan ∧
    (scanRoute .mess sampleCfg worldTextThen81 sampleReq).response.status = 200 ∧
    (scanRoute .mess sampleCfg worldTextThen81 sampleReq).response.ok = true ∧
    (compareCalls (scanRoute .mess sampleCfg worldTextThen81 sampleReq).trace)[1]? =
      some (2, [255, 216, 255], some [2]) ∧
    (scanRoute .mess sampleCfg worldTextThen81 sampleReq).response.student =
      some { id := 2, name := "Student", student_id := "2sd23is012",
             attr := some true, photo_url := "/user/photo/2" } :=
  have h := (scan_ignores_unusable_confidence .mess sampleCfg worldTextThen81 sampleReq
    sampleStaff [255, 216, 255] 0 (sampleUser 1) (.record [("confidence", .str "high")])
    ⟨rfl, rfl, rfl⟩ rfl (by decide) (by decide) (by intro j hj; omega)).1
    (Or.inr (Or.inr (Or.inl (by decide!))))
  ⟨by decide, by decide, by decide!, h.1, h.2.1, h.2.2.1 (sampleUser 2) (by decide),
    by decide⟩

/-- C14 (as stated) fails for the written record: when the database rejects
the insert, the compare answers `matched: true` and no visit row is
written. -/
theorem compare_match_without_record_counterexample :
    (compareRoute .mess sampleCfg worldCompareInsertFails sampleCompareReq).response.matched =
      some true ∧
    (compareRoute .mess sampleCfg worldCompareInsertFails sampleCompareReq).db.visits .mess =
      [] ∧
    (compareRoute .mess sampleCfg worldCompareInsertFails sampleCompareReq).db =
      worldCompareInsertFails.db := by
  decide

/-- C14 (amended).  For a compare request that passes its guards and whose
target query returns the row `u`: at most one adapter call is made; it is made
for `u`, with the probe and the stored photo of `u`, whatever other users are
enrolled, and none is made when `u` has no stored photo.  A visit insert for
`u` is sent exactly when the response has `matched: true`; the row is appended
to the visits table of the section when that insert succeeds, and the
database is left as it was when the insert is rejected or when the response
has no `matched: true`.  A response of the service with a truthy
`error_message` is answered with status 500 and `ok: false`, without insert
and without change of the database. -/
theorem compare_targets_one_subject (sec : SectionId) (cfg : Config) (w : World)
    (req : Request) (staff : Staff) (probe : Bytes) (u : UserRow)
    (hg : passesGuards sec req staff probe) (hsel : w.selectError = none)
    (hfind : findsTarget w req u) :
    (compareCalls (compareRoute sec cfg w req).trace).length ≤ 1 ∧
    compareCalls (compareRoute sec cfg w req).trace =
      (if u.photo_data = none then [] else [callOf probe u]) ∧
    httpPosts (compareRoute sec cfg w req).trace =
      (if u.photo_data = none ∨ credentialsMissing cfg = true then []
        else [(probe, u.photo_data)]) ∧
    (visitInserts (compareRoute sec cfg w req).trace = [(sec, visitArgs u staff)] ↔
      (compareRoute sec cfg w req).response.matched = some true) ∧
    ((compareRoute sec cfg w req).response.matched ≠ some true →
      visitInserts (compareRoute sec cfg w req).trace = [] ∧
      (compareRoute sec cfg w req).db = w.db) ∧
    ((compareRoute sec cfg w req).response.matched = some true →
      (w.insertError = none →
        (compareRoute sec cfg w req).db.visits sec = w.db.visits sec ++
          [{ id := w.nextVisitId, user_id := u.id, student_id := u.student_id,
             student_name := u.fullname, attr := u.attr, created_at := w.dbNow,
             staff_id := staffIdOrNull staff }]) ∧
      (w.insertError ≠ none → (compareRoute sec cfg w req).db = w.db)) ∧
    (∀ cmp, u.photo_data ≠ none → observe cfg (w.net 0) = .returned cmp →
      (cmp.get "error_message").truthy = true →
      (compareRoute sec cfg w req).response.status = 500 ∧
      (compareRoute sec cfg w req).response.ok = false ∧
      visitInserts (compareRoute sec cfg w req).trace = [] ∧
      (compareRoute sec cfg w req).db = w.db) := by
  obtain ⟨t1, t2, t3, t4, _, t6⟩ := compareRoute_target sec cfg w req staff probe u hg hsel hfind
  refine ⟨?_, t1, t2, ?_, ?_, ?_, ?_⟩
  · rw [t1]; split <;> simp
  · rw [t3]
    constructor
    · intro h
      by_contra hne
      rw [if_neg hne] at h
      exact absurd h (by simp)
    · intro h; rw [if_pos h]
  · intro h
    rw [t3, t4, if_neg h, if_neg h]
    exact ⟨rfl, rfl⟩
  · intro h
    rw [t4, if_pos h]
    constructor
    · intro hins
      simp only [insertVisit, hins, visitArgs]
      cases sec <;> rfl
    · intro hins
      cases he : w.insertError with
      | none => exact absurd he hins
      | some e => simp [insertVisit, he]
  · intro cmp hph hobs herr
    obtain ⟨e1, e2, e3, _⟩ := t6 cmp hph hobs herr
    have hnm : (compareRoute sec cfg w req).response.matched ≠ some true := by
      rw [e3]; simp
    rw [t3, t4, if_neg hnm, if_neg hnm]
    exact ⟨e1, e2, rfl, rfl⟩

/-- Witness of C14 (amended): the compare that targets the second of three
enrolled users asks the service once, for that user; with an error response
it answers `ok: false` without insert; with a target that has no photo it asks
nothing. -/
theorem compare_targets_one_subject_witness :
    compareCalls (compareRoute .mess sampleCfg (worldCompare 81) sampleCompareReq).trace =
      [callOf [255, 216, 255] (sampleUser 2)] ∧
    ((compareRoute .mess sampleCfg worldCompareError sampleCompareReq).response.ok = false ∧
      visitInserts (compareRoute .mess sampleCfg worldCompareError sampleCompareReq).trace =
        []) ∧
    compareCalls (compareRoute .mess sampleCfg worldTargetNoPhoto sampleCompareReq).trace =
      [] :=
  have h1 := compare_targets_one_subject .mess sampleCfg (worldCompare 81) sampleCompareReq
    sampleStaff [255, 216, 255] (sampleUser 2) ⟨rfl, rfl, rfl⟩ rfl
    ⟨"2", 2, by decide, by decide, by decide⟩
  have h2 := compare_targets_one_subject .mess sampleCfg worldCompareError sampleCompareReq
    sampleStaff [255, 216, 255] (sampleUser 2) ⟨rfl, rfl, rfl⟩ rfl
    ⟨"2", 2, by decide, by decide, by decide⟩
  have h3 := compare_targets_one_subject .mess sampleCfg worldTargetNoPhoto sampleCompareReq
    sampleStaff [255, 216, 255] { sampleUser 2 with photo_data := none } ⟨rfl, rfl, rfl⟩ rfl
    ⟨"2", 2, by decide, by decide, by decide⟩
  have h2' := h2.2.2.2.2.2.2 errorBody (by decide) (by decide) (by decide)
  ⟨h1.2.1, ⟨h2'.2.1, h2'.2.2.1⟩, h3.2.1⟩

/-- C15.  Debounce decision.  Subject ids are ids the database gave a user
row, positive numbers, and `now` is a value of `Date.now()`, milliseconds
since 1970 and so at least 10000.  On a matched answer for the student `st`
at the time `now`, the script suppresses the match (visit list, counters and
debounce map unchanged, status "Matched recently") when a time `t` with
`now - t < 10000` is recorded for `st.id`; otherwise it displays the hit (one
more visit item, the total incremented, status "Matched") and records `now`
for `st.id`.  In particular, after a displayed match at `now`, a further match
of that id at `later` is suppressed when `later - now < 10000` and displayed
otherwise. -/
theorem debounce_decision (page : Page) (c : Client) (r : ScanReply) (st : Student)
    (now : Nat) (hok : r.ok = true) (hm : r.matched = true)
    (hst : r.student = some st) (hid : st.id ≠ 0) (hnow : 10000 ≤ now) :
    ((∃ t : Nat, c.lastMatched.lookup st.id = some t ∧ (now : Int) - (t : Int) < 10000) →
      (stepAfterProbe page c (.reply r) now).visitList = c.visitList ∧
      (stepAfterProbe page c (.reply r) now).totalVisits = c.totalVisits ∧
      (stepAfterProbe page c (.reply r) now).attrVisits = c.attrVisits ∧
      (stepAfterProbe page c (.reply r) now).otherVisits = c.otherVisits ∧
      (stepAfterProbe page c (.reply r) now).lastMatched = c.lastMatched ∧
      (stepAfterProbe page c (.reply r) now).status = .matchedRecently st.name) ∧
    (¬ (∃ t : Nat, c.lastMatched.lookup st.id = some t ∧
          (now : Int) - (t : Int) < 10000) →
      (stepAfterProbe page c (.reply r) now).visitList.length = c.visitList.length + 1 ∧
      (stepAfterProbe page c (.reply r) now).totalVisits = c.totalVisits + 1 ∧
      (stepAfterProbe page c (.reply r) now).status = .matched st.name r.confidence ∧
      (stepAfterProbe page c (.reply r) now).lastMatched.lookup st.id = some now ∧
      ∀ (later : Nat) (r2 : ScanReply), r2.ok = true → r2.matched = true →
        r2.student = some st →
        ((later : Int) - (now : Int) < 10000 →
          (stepAfterProbe page (stepAfterProbe page c (.reply r) now)
            (.reply r2) later).visitList =
            (stepAfterProbe page c (.reply r) now).visitList) ∧
        (¬ ((later : Int) - (now : Int) < 10000) →
          (stepAfterProbe page (stepAfterProbe page c (.reply r) now)
            (.reply r2) later).visitList.length =
            (stepAfterProbe page c (.reply r) now).visitList.length + 1)) := by
  obtain ⟨hsup, hdis⟩ := stepAfterProbe_debounce page c r st now hok hm hst
  constructor
  · rintro ⟨t, ht, hlt⟩
    exact hsup ⟨hid, by rw [ht]; exact hlt⟩
  · intro hnot
    have hcond : ¬ (st.id ≠ 0 ∧
        (now : Int) - (((c.lastMatched.lookup st.id).getD 0 : Nat) : Int) < 10000) := by
      rintro ⟨_, hlt⟩
      cases hl : c.lastMatched.lookup st.id with
      | none =>
        rw [hl] at hlt
        simp only [Option.getD_none, Nat.cast_zero, sub_zero] at hlt
        omega
      | some t =>
        rw [hl] at hlt
        exact hnot ⟨t, hl, hlt⟩
    obtain ⟨d1, d2, d3, d4, _, d6⟩ := hdis hcond
    exact ⟨d1, d2, d3, d4 hid, d6 hid⟩

/-- Witness of C15: user 5 is displayed at a first match, suppressed four
seconds later and displayed again ten seconds after the first. -/
theorem debounce_decision_witness :
    (studentOf (sampleUser 5)).id ≠ 0 ∧ 10000 ≤ 1700000000000 ∧
    (stepAfterProbe .gym samplePage (.reply (matchedReply 5)) 1700000000000).visitList.length =
      1 ∧
    (stepAfterProbe .gym samplePage (.reply (matchedReply 5))
      1700000000000).lastMatched.lookup 5 = some 1700000000000 ∧
    (stepAfterProbe .gym
        (stepAfterProbe .gym samplePage (.reply (matchedReply 5)) 1700000000000)
        (.reply (matchedReply 5)) 1700000004000).visitList =
      (stepAfterProbe .gym samplePage (.reply (matchedReply 5)) 1700000000000).visitList ∧
    (stepAfterProbe .gym
        (stepAfterProbe .gym samplePage (.reply (matchedReply 5)) 1700000000000)
        (.reply (matchedReply 5)) 1700000010000).visitList.length =
      (stepAfterProbe .gym samplePage (.reply (matchedReply 5)) 1700000000000).visitList.length
        + 1 :=
  have h := (debounce_decision .gym samplePage (matchedReply 5) (studentOf (sampleUser 5))
    1700000000000 rfl rfl rfl (by decide) (by decide)).2 (by decide)
  ⟨by decide, by decide, h.1, h.2.2.2.1,
    (h.2.2.2.2 1700000004000 (matchedReply 5) rfl rfl rfl).1 (by decide),
    (h.2.2.2.2 1700000010000 (matchedReply 5) rfl rfl rfl).2 (by decide)⟩

/-- C16 (what the code does).  The first probe is in flight when the stop
button is clicked: the page is stopped, with no timer pending.  When the
answer then arrives with `matched: true`, the script adds the visit to the
list, increments the total, records the time in the debounce map, writes the
status "Matched: ..." (which shows the overlay) and sets a timer of 3000 ms;
an answer without a match writes "No match (best: ...)" and sets a timer of
1200 ms. -/
theorem late_response_is_processed_after_stop :
    (stoppedWhileProbing.scanning = false ∧ stoppedWhileProbing.status = .stopped ∧
      stoppedWhileProbing.probesInFlight = 1 ∧ stoppedWhileProbing.timers = [] ∧
      stoppedWhileProbing.visitList = [] ∧ stoppedWhileProbing.totalVisits = 0 ∧
      stoppedWhileProbing.lastMatched = []) ∧
    ((Client.step .gym stoppedWhileProbing
        (.probeResponse (.reply (matchedReply 5)) 1700000000000)).visitList.length = 1 ∧
      (Client.step .gym stoppedWhileProbing
        (.probeResponse (.reply (matchedReply 5)) 1700000000000)).totalVisits = 1 ∧
      (Client.step .gym stoppedWhileProbing
        (.probeResponse (.reply (matchedReply 5)) 1700000000000)).lastMatched =
        [(5, 1700000000000)] ∧
      (Client.step .gym stoppedWhileProbing
        (.probeResponse (.reply (matchedReply 5)) 1700000000000)).status =
        .matched "Student" (.num (.fin 81)) ∧
      (Client.step .gym stoppedWhileProbing
        (.probeResponse (.reply (matchedReply 5)) 1700000000000)).overlayShown = true ∧
      (Client.step .gym stoppedWhileProbing
        (.probeResponse (.reply (matchedReply 5)) 1700000000000)).timers =
        [{ handle := 2, kind := .capture, delay := 3000 }]) ∧
    ((Client.step .gym stoppedWhileProbing
        (.probeResponse (.reply noMatchReply) 1700000000000)).status =
        .noMatchBest (.num (.fin (-1))) ∧
      (Client.step .gym stoppedWhileProbing
        (.probeResponse (.reply noMatchReply) 1700000000000)).timers =
        [{ handle := 2, kind := .capture, delay := 1200 }]) := by
  decide

/-- C17. From every state, `stopScanning()` ends with `scanning` false, no
timer handle kept (the timer of the handle it held is no longer pending),
`stream` null, `cameraActive` false, the preview detached and the status
"Stopped"; the tracks of the stream it held, if any, are stopped, and of no
other.  A second call in a row changes nothing and stops no track. -/
theorem stop_postcondition_and_idempotence (c : Client) :
    (stopScanning c).scanning = false ∧
    (stopScanning c).scanLoopTimer = none ∧
    (stopScanning c).stream = none ∧
    (stopScanning c).cameraActive = false ∧
    (stopScanning c).videoSrc = none ∧
    (stopScanning c).status = .stopped ∧
    (∀ h, c.scanLoopTimer = some h →
      ∀ t, t ∈ (stopScanning c).timers → t.handle ≠ h) ∧
    (stopScanning c).released =
      c.released ++ (match c.stream with
        | some s => [s]
        | none => []) ∧
    stopScanning (stopScanning c) = stopScanning c ∧
    (stopScanning (stopScanning c)).released = (stopScanning c).released := by
  have hidem : stopScanning (stopScanning c) = stopScanning c := by
    cases ht : c.scanLoopTimer <;> cases hs : c.stream <;>
      simp [stopScanning, setStatus, ht, hs]
  refine ⟨?_, ?_, ?_, ?_, ?_, ?_, ?_, ?_, hidem, by rw [hidem]⟩
  · cases ht : c.scanLoopTimer <;> cases hs : c.stream <;>
      simp [stopScanning, setStatus, ht, hs]
  · cases ht : c.scanLoopTimer <;> cases hs : c.stream <;>
      simp [stopScanning, setStatus, ht, hs]
  · cases ht : c.scanLoopTimer <;> cases hs : c.stream <;>
      simp [stopScanning, setStatus, ht, hs]
  · cases ht : c.scanLoopTimer <;> cases hs : c.stream <;>
      simp [stopScanning, setStatus, ht, hs]
  · cases ht : c.scanLoopTimer <;> cases hs : c.stream <;>
      simp [stopScanning, setStatus, ht, hs]
  · cases ht : c.scanLoopTimer <;> cases hs : c.stream <;>
      simp [stopScanning, setStatus, ht, hs]
  · intro h ht t hmem
    cases hs : c.stream <;>
      simp [stopScanning, setStatus, ht, hs] at hmem <;>
      exact hmem.2
  · cases ht : c.scanLoopTimer <;> cases hs : c.stream <;>
      simp [stopScanning, setStatus, ht, hs]

/-- Witness of C17: stopping the page whose match of user 5 has set the next
timer cancels that timer and stops the tracks of stream 1, once. -/
theorem stop_postcondition_and_idempotence_witness :
    confirmed5.scanLoopTimer = some 2 ∧
    confirmed5.timers = [{ handle := 2, kind := .capture, delay := 3000 }] ∧
    (stopScanning confirmed5).timers = [] ∧
    (stopScanning confirmed5).released = [1] ∧
    (stopScanning (stopScanning confirmed5)).released = [1] ∧
    stopScanning (stopScanning confirmed5) = stopScanning confirmed5 :=
  have h := stop_postcondition_and_idempotence confirmed5
  ⟨by decide, by decide, by decide, h.2.2.2.2.2.2.2.1, by decide, h.2.2.2.2.2.2.2.2.1⟩

/-- C18 (as stated) fails: user 5 is displayed, the page is stopped and
started again, and the debounce map still holds the time recorded for user 5;
the next match of user 5, two seconds after the first, is suppressed. -/
theorem debounce_map_survives_stop_counterexample :
    confirmed5.lastMatched = [(5, 1700000000000)] ∧
    confirmed5.visitList.length = 1 ∧
    (stopScanning confirmed5).lastMatched = [(5, 1700000000000)] ∧
    (Client.run .gym confirmed5 restartEvents).scanning = true ∧
    (Client.run .gym confirmed5 restartEvents).probesInFlight = 1 ∧
    (Client.step .gym (Client.run .gym confirmed5 restartEvents)
      (.probeResponse (.reply (matchedReply 5)) 1700000002000)).status =
      .matchedRecently "Student" ∧
    (Client.step .gym (Client.run .gym confirmed5 restartEvents)
      (.probeResponse (.reply (matchedReply 5)) 1700000002000)).visitList.length = 1 := by
  decide

/-- C18 (amended).  The debounce map is not cleared on stop: `stopScanning()`
leaves it as it is, and so does every event other than the end of a probe
request (clicks, camera and preview results, timers, frames, blobs).  So a
user with a truthy id confirmed at the time `t` is suppressed on a match at
any `now` with `now - t < 10000`, also after the page was stopped and started
again in between. -/
theorem stop_keeps_debounce_map (page : Page) (c : Client) :
    (stopScanning c).lastMatched = c.lastMatched ∧
    (∀ es : List ClientEvent, (∀ e, e ∈ es → e.notResponse = true) →
      (Client.run page c es).lastMatched = c.lastMatched) ∧
    (∀ (es : List ClientEvent) (r : ScanReply) (st : Student) (t now : Nat),
      (∀ e, e ∈ es → e.notResponse = true) →
      c.lastMatched.lookup st.id = some t → st.id ≠ 0 →
      (now : Int) - (t : Int) < 10000 →
      r.ok = true → r.matched = true → r.student = some st →
      (stepAfterProbe page (Client.run page (stopScanning c) es) (.reply r) now).visitList =
        (Client.run page (stopScanning c) es).visitList ∧
      (stepAfterProbe page (Client.run page (stopScanning c) es) (.reply r) now).status =
        .matchedRecently st.name) := by
  have hstop : (stopScanning c).lastMatched = c.lastMatched := by
    cases ht : c.scanLoopTimer <;> cases hs : c.stream <;>
      simp [stopScanning, setStatus, ht, hs]
  refine ⟨hstop, fun es h => run_lastMatched page es c h, ?_⟩
  intro es r st t now hes hlook hid hlt hok hm hst
  have hmap : (Client.run page (stopScanning c) es).lastMatched = c.lastMatched := by
    rw [run_lastMatched page es (stopScanning c) hes, hstop]
  have hs : suppressed (Client.run page (stopScanning c) es) r now = true := by
    simp [suppressed, hst, hid, hmap, hlook, hlt]
  obtain ⟨a1, _, _, _, _, a6, _⟩ :=
    (stepAfterProbe_matched page (Client.run page (stopScanning c) es) r st now hok hm hst).1 hs
  exact ⟨a1, a6⟩

/-- Witness of C18 (amended): user 5, confirmed before the stop, is
suppressed two seconds later on the page started again. -/
theorem stop_keeps_debounce_map_witness :
    (stepAfterProbe .gym
      (Client.run .gym (stopScanning confirmed5)
        [.clickStart, .cameraGranted 2, .playOk, .timerFires 3, .frame 4 640,
         .blobReady (some [255, 216, 255])])
      (.reply (matchedReply 5)) 1700000002000).visitList =
      (Client.run .gym (stopScanning confirmed5)
        [.clickStart, .cameraGranted 2, .playOk, .timerFires 3, .frame 4 640,
         .blobReady (some [255, 216, 255])]).visitList ∧
    (stepAfterProbe .gym
      (Client.run .gym (stopScanning confirmed5)
        [.clickStart, .cameraGranted 2, .playOk, .timerFires 3, .frame 4 640,
         .blobReady (some [255, 216, 255])])
      (.reply (matchedReply 5)) 1700000002000).status = .matchedRecently "Student" :=
  (stop_keeps_debounce_map .gym confirmed5).2.2
    [.clickStart, .cameraGranted 2, .playOk, .timerFires 3, .frame 4 640,
     .blobReady (some [255, 216, 255])]
    (matchedReply 5) (studentOf (sampleUser 5)) 1700000000000 1700000002000
    (by decide) (by decide) (by decide) (by decide) rfl rfl rfl

/-- C19 (what the code does).  The page is stopped while its first probe is in
flight and started again; the camera starts and the warm-up timer is set.  The
answer to the first probe then arrives: the old step sets its next timer, so
that two timers that each start a capture step are pending.  Both fire while
`scanning` is true, both steps capture a frame and send it: two probes are in
flight, from two capture loops. -/
theorem two_capture_loops_after_stop_and_start :
    (stoppedWhileProbing.scanning = false ∧ stoppedWhileProbing.probesInFlight = 1) ∧
    ((Client.run .gym stoppedWhileProbing startThenLateAnswer).scanning = true ∧
      (Client.run .gym stoppedWhileProbing startThenLateAnswer).timers =
        [{ handle := 2, kind := .warmup, delay := 600 },
         { handle := 3, kind := .capture, delay := 1200 }]) ∧
    (Client.run .gym (Client.run .gym stoppedWhileProbing startThenLateAnswer)
      [.timerFires 2, .timerFires 3]).frames = 2 ∧
    ((Client.run .gym (Client.run .gym stoppedWhileProbing startThenLateAnswer)
        bothLoopsCapture).probesInFlight = 2 ∧
      (Client.run .gym (Client.run .gym stoppedWhileProbing startThenLateAnswer)
        bothLoopsCapture).sent.length = 3) := by
  decide

/-- C20 (as stated) fails for a suppressed match: four seconds after user 5
was displayed, the next probe is answered with `matched: true` for user 5
again; the match is suppressed and the next step is set after 1200 ms, not
3000 ms. -/
theorem suppressed_match_uses_capture_interval_counterexample :
    (Client.run .gym confirmed5 nextProbeEvents).scanning = true ∧
    (Client.run .gym confirmed5 nextProbeEvents).timers = [] ∧
    (matchedReply 5).matched = true ∧
    (Client.step .gym (Client.run .gym confirmed5 nextProbeEvents)
      (.probeResponse (.reply (matchedReply 5)) 1700000004000)).timers =
      [{ handle := 3, kind := .capture, delay := 1200 }] := by
  decide

/-- C20 (amended).  A capture step taken while `scanning` sets exactly one
timer for the next step, on whichever path it ends.  When no frame is ready
(no stream, `readyState < 2`, or no frame width) it sets the timer at once,
with 1200 ms; otherwise it awaits the encoded frame and sets no timer yet.
Resumed without a blob it sets the timer with 1200 ms; resumed with one it
sends the probe and sets no timer yet.  Resumed with the result of the probe
it sets the timer with 3000 ms when the result is a match that is displayed
(truthy `ok` and `matched`, not suppressed by the debounce test), and with
1200 ms for every other result: request failed, body not JSON, `ok` falsy, no
match, or a match suppressed by the debounce test. -/
theorem next_capture_is_scheduled_once (page : Page) (c : Client)
    (hscan : c.scanning = true) :
    (∀ readyState videoWidth : Nat,
      (c.stream = none ∨ readyState < 2 ∨ videoWidth = 0 →
        (continuousScanStep c readyState videoWidth).timers =
          c.timers ++ [{ handle := c.nextTimer, kind := .capture, delay := 1200 }] ∧
        (continuousScanStep c readyState videoWidth).blobPending = c.blobPending ∧
        (continuousScanStep c readyState videoWidth).probesInFlight = c.probesInFlight) ∧
      (¬ (c.stream = none ∨ readyState < 2 ∨ videoWidth = 0) →
        (continuousScanStep c readyState videoWidth).timers = c.timers ∧
        (continuousScanStep c readyState videoWidth).blobPending = c.blobPending + 1)) ∧
    ((stepAfterBlob c none).timers =
        c.timers ++ [{ handle := c.nextTimer, kind := .capture, delay := 1200 }] ∧
      (stepAfterBlob c none).probesInFlight = c.probesInFlight ∧
      ∀ b, (stepAfterBlob c (some b)).timers = c.timers ∧
        (stepAfterBlob c (some b)).probesInFlight = c.probesInFlight + 1) ∧
    (∀ (o : FetchOutcome) (now : Nat),
      (stepAfterProbe page c o now).timers =
        c.timers ++ [{ handle := c.nextTimer, kind := .capture,
                       delay := if displayedMatch c o now = true then 3000 else 1200 }] ∧
      (stepAfterProbe page c o now).blobPending = c.blobPending ∧
      (stepAfterProbe page c o now).probesInFlight = c.probesInFlight) := by
  refine ⟨?_, ?_, ?_⟩
  · intro rs vw
    constructor
    · intro h
      rcases h with h | h | h
      · simp [continuousScanStep, hscan, h, scheduleStep, CAPTURE_INTERVAL_MS]
      · simp only [continuousScanStep, hscan, scheduleStep, CAPTURE_INTERVAL_MS]
        simp [h]
      · subst h
        simp only [continuousScanStep, hscan, Bool.not_true, Bool.false_eq_true, if_false,
          scheduleStep, CAPTURE_INTERVAL_MS]
        split <;> simp
    · intro h
      simp only [not_or] at h
      obtain ⟨h1, h2, h3⟩ := h
      have h1' : c.stream.isNone = false := by
        cases hs : c.stream with
        | none => exact absurd hs h1
        | some s => rfl
      simp [continuousScanStep, hscan, h1', h2, h3]
  · simp [stepAfterBlob, scheduleStep, setStatus, CAPTURE_INTERVAL_MS]
  · intro o now
    obtain ⟨t1, _, _, t4, t5⟩ := stepAfterProbe_timers page c o now
    exact ⟨t1, t4, t5⟩

/-- Witness of C20 (amended): on the scanning page a displayed match sets the
next step after 3000 ms, a failed request after 1200 ms. -/
theorem next_capture_is_scheduled_once_witness :
    (stepAfterProbe .gym probing (.reply (matchedReply 5)) 1700000000000).timers =
      [{ handle := 2, kind := .capture, delay := 3000 }] ∧
    (stepAfterProbe .gym probing .failed 1700000000000).timers =
      [{ handle := 2, kind := .capture, delay := 1200 }] ∧
    (continuousScanStep probing 1 0).timers =
      [{ handle := 2, kind := .capture, delay := 1200 }] :=
  have h := next_capture_is_scheduled_once .gym probing (by decide)
  ⟨(h.2.2 (.reply (matchedReply 5)) 1700000000000).1, (h.2.2 .failed 1700000000000).1,
    ((h.1 1 0).1 (Or.inr (Or.inl (by decide)))).1⟩

/-- C21 (what the code does).  When the camera is denied, `startScanning` ends
with `scanning` and `cameraActive` false, no stream, no timer, an alert and the
status "Camera error".  When the camera is granted and the preview cannot be
played, it ends with `scanning` and `cameraActive` false, no timer and an
alert, but the stream obtained stays in `stream` and in the preview and its
tracks are not stopped; `stopScanning` would release it. -/
theorem failed_preview_keeps_camera_stream :
    (cameraRefused.scanning = false ∧ cameraRefused.cameraActive = false ∧
      cameraRefused.stream = none ∧ cameraRefused.timers = [] ∧
      cameraRefused.frames = 0 ∧ cameraRefused.alerts = 1 ∧
      cameraRefused.status = .cameraError) ∧
    (previewFails.scanning = false ∧ previewFails.cameraActive = false ∧
      previewFails.timers = [] ∧ previewFails.frames = 0 ∧ previewFails.alerts = 1 ∧
      previewFails.status = .cameraError) ∧
    (previewFails.stream = some 1 ∧ previewFails.videoSrc = some 1 ∧
      previewFails.released = []) ∧
    ((stopScanning previewFails).stream = none ∧
      (stopScanning previewFails).released = [1]) := by
  decide

/-- C24 (what the code does).  The call for the first of two users throws: the
error is logged and the call for the second user follows with no delay in
between.  When the first call is answered with an error response instead, the
delay of 120 ms is taken before the second call. -/
theorem thrown_call_skips_rate_limit_delay :
    (scanRoute .mess sampleCfg worldThrowThen81 sampleReq).trace =
      [.selectGallery,
       .compareCall 1 [255, 216, 255] (some [1]), .httpPost [255, 216, 255] (some [1]),
       .errorOracle 1,
       .compareCall 2 [255, 216, 255] (some [2]), .httpPost [255, 216, 255] (some [2]),
       .insertVisit .mess (visitArgs (sampleUser 2) sampleStaff)] ∧
    (scanRoute .mess sampleCfg worldErrorThen81 sampleReq).trace =
      [.selectGallery,
       .compareCall 1 [255, 216, 255] (some [1]), .httpPost [255, 216, 255] (some [1]),
       .warnOracle 1, .delay 120,
       .compareCall 2 [255, 216, 255] (some [2]), .httpPost [255, 216, 255] (some [2]),
       .insertVisit .mess (visitArgs (sampleUser 2) sampleStaff)] := by
  decide

/-- C30: for every string `s`, `escapeHtml s` holds none of the characters
`<`, `>`, double quote and single quote; every place of the output where an
`&` stands is the start of one of the five entities; the output is the
pieces of the characters of `s` in order, where a character other than the
five is its own piece and one of the five is replaced by its entity; and the
gym and the mess copy of the function return the same string. -/
theorem escapeHtml_neutralises_markup (s : String) :
    (∀ c ∈ (Gym.escapeHtml s).data,
        c ≠ '<' ∧ c ≠ '>' ∧ c ≠ dquote ∧ c ≠ squote) ∧
    (∀ t : List Char, t <:+ (Gym.escapeHtml s).data → t.head? = some '&' →
        ∃ e, e ∈ entities ∧ e <+: t) ∧
    (Gym.escapeHtml s).data = s.data.flatMap escapePiece ∧
    (∀ c : Char, isMarkupChar c = false → escapePiece c = [c]) ∧
    (∀ c : Char, isMarkupChar c = true → escapePiece c ∈ entities) ∧
    Gym.escapeHtml s = Mess.escapeHtml s := by
  refine ⟨?_, ?_, gym_escapeHtml_data s, ?_, ?_, rfl⟩
  · intro c hc
    rw [gym_escapeHtml_data, List.mem_flatMap] at hc
    obtain ⟨d, _, hd⟩ := hc
    exact escapePiece_chars d c hd
  · rw [gym_escapeHtml_data]
    exact flatMap_escapePiece_amp s.data
  · intro c hc
    simp [escapePiece, hc]
  · intro c hc
    simp only [escapePiece, hc, if_true]
    simp only [isMarkupChar, Bool.or_eq_true, beq_iff_eq] at hc
    rcases hc with (((h | h) | h) | h) | h <;> subst h <;> decide

/-- C27: a student with 100 in the wallet who submits the amount `-50` to the
gym route is answered `ok: true` and the stored balance becomes 150, above
the old one; the sports route turns the same request down as an invalid
amount and stores nothing. -/
theorem gym_subscribe_credits_wallet_on_negative_amount :
    (gymSubscribe bank100 negativeAmount).reply =
      .json true "Subscription successful" ∧
    (gymSubscribe bank100 negativeAmount).accounts =
      [{ id := 1, wallet := .num (.fin 150), gym_active := true,
         indoor_sports_active := false }] ∧
    walletOf { id := 1, wallet := .num (.fin 100), gym_active := false,
               indoor_sports_active := false } = .fin 100 ∧
    JSNum.le (.fin 150) (.fin 100) = false ∧
    (sportsSubscribe bank100 negativeAmount).reply =
      .json false "Invalid amount" ∧
    (sportsSubscribe bank100 negativeAmount).accounts = bank100.accounts := by
  decide!

/-- C29, counterexample: (a) on a server in the zone of New York, for a book
due on 8 March 2025, stored as that day's local midnight, and a request on
10 March at 12:00, after the change to daylight saving of 9 March, the
student page counts 2 days and adds a fine of 2 while the staff page counts
1 day and shows a fine of 1; (b) on a server in UTC, for a book whose stored
due instant keeps a time of day, day 10 at 18:00, and a request on day 11 at
12:00, the student page counts 0 days and adds no fine while the staff page
counts 1 day and shows a fine of 1. -/
theorem library_fine_pages_differ_counterexample :
    (atLocalMidnight newYorkZone dueMarch8 ∧
      studentDiffDays nowMarch10Noon dueMarch8 = 2 ∧
      studentFine nowMarch10Noon dueMarch8 = 2 ∧
      staffDiffDays newYorkZone nowMarch10Noon dueMarch8 = 1 ∧
      staffFine newYorkZone nowMarch10Noon dueMarch8 = 1) ∧
    (¬ atLocalMidnight utcZone dueDay10Evening ∧
      studentDiffDays nowDay11Noon dueDay10Evening = 0 ∧
      studentFine nowDay11Noon dueDay10Evening = 0 ∧
      staffDiffDays utcZone nowDay11Noon dueDay10Evening = 1 ∧
      staffFine utcZone nowDay11Noon dueDay10Evening = 1) := by
  decide

/-- C29 (amended).  Each page charges the tariff of its own day count (0 when
not overdue, `d` for 1 to 7 days, `7 + 5 * (d - 7)` after that); the student
page counts whole periods of 24 hours since the stored instant, the staff
page the periods of 24 hours between the local midnights of the two days.
For a book whose stored due instant carries no time of day, on a server whose
local time has the same offset from UTC at that instant, at the request and
at the midnights of their days, the two counts and the two fines are equal:
the count is the number of calendar days from the due day to the day of the
request. -/
theorem library_fine_consistency (z : Zone) (c now due_on : Int) :
    studentFine now due_on = tariff (studentDiffDays now due_on) ∧
    staffFine z now due_on = tariff (staffDiffDays z now due_on) ∧
    (atLocalMidnight z due_on → sameOffset z c now due_on →
      studentDiffDays now due_on = calendarDay z now - calendarDay z due_on ∧
      staffDiffDays z now due_on = calendarDay z now - calendarDay z due_on ∧
      studentFine now due_on = staffFine z now due_on) := by
  have hs : studentFine now due_on = tariff (studentDiffDays now due_on) := by
    simp only [studentFine, tariff]
    split_ifs <;> omega
  have ht : staffFine z now due_on = tariff (staffDiffDays z now due_on) := by
    simp only [staffFine, tariff]
    split_ifs <;> omega
  refine ⟨hs, ht, ?_⟩
  intro hm ⟨h1, h2, h3, h4⟩
  have hdue : due_on = calendarDay z due_on * MS_PER_DAY - c := by
    simp only [atLocalMidnight, calendarDay, localTime, h2, MS_PER_DAY] at hm ⊢
    norm_num at hm ⊢
    omega
  have hd1 : dateOfDay z (calendarDay z due_on) = due_on := by
    rw [dateOfDay, utcOfLocal, h4]
    exact hdue.symm
  have hd2 : setHoursZero z due_on = due_on := by
    have : localTime z due_on / MS_PER_DAY * MS_PER_DAY =
        calendarDay z due_on * MS_PER_DAY := rfl
    rw [setHoursZero, this, utcOfLocal, h4]
    exact hdue.symm
  have htoday : setHoursZero z now = calendarDay z now * MS_PER_DAY - c := by
    have : localTime z now / MS_PER_DAY * MS_PER_DAY =
        calendarDay z now * MS_PER_DAY := rfl
    rw [setHoursZero, this, utcOfLocal, h3]
  have e1 : studentDiffDays now due_on = calendarDay z now - calendarDay z due_on := by
    have hn : calendarDay z now = (now + c) / MS_PER_DAY := by
      simp only [calendarDay, localTime, h1]
    generalize calendarDay z due_on = dd at hdue hn ⊢
    rw [hn, studentDiffDays, hdue]
    simp only [MS_PER_DAY]
    norm_num
    omega
  have e2 : staffDiffDays z now due_on = calendarDay z now - calendarDay z due_on := by
    simp only [staffDiffDays]
    rw [hd1, hd2, htoday]
    generalize calendarDay z due_on = dd at hdue ⊢
    generalize calendarDay z now = dn
    rw [hdue]
    simp only [MS_PER_DAY]
    norm_num
    omega
  exact ⟨e1, e2, by rw [hs, ht, e1, e2]⟩

/-- Witness of C29 (amended): on the New York server, for a book due on
3 March 2025 (day 20150), stored as that day's local midnight, and a request
on 8 March at 06:00 local time, before the change of offset, both pages count
5 days and charge 5. -/
theorem library_fine_consistency_witness :
    atLocalMidnight newYorkZone (20150 * 86400000 + 5 * 3600000) ∧
    sameOffset newYorkZone (-(5 * 3600000)) (20155 * 86400000 + 11 * 3600000)
      (20150 * 86400000 + 5 * 3600000) ∧
    studentFine (20155 * 86400000 + 11 * 3600000) (20150 * 86400000 + 5 * 3600000) = 5 ∧
    staffFine newYorkZone (20155 * 86400000 + 11 * 3600000)
      (20150 * 86400000 + 5 * 3600000) = 5 ∧
    studentFine (20155 * 86400000 + 11 * 3600000) (20150 * 86400000 + 5 * 3600000) =
      staffFine newYorkZone (20155 * 86400000 + 11 * 3600000)
        (20150 * 86400000 + 5 * 3600000) :=
  ⟨by decide, by decide, by decide, by decide,
   ((library_fine_consistency newYorkZone (-(5 * 3600000))
      (20155 * 86400000 + 11 * 3600000) (20150 * 86400000 + 5 * 3600000)).2.2
      (by decide) (by decide)).2.2⟩

/-- C23, counterexample: with `FACEPP_THRESHOLD=high`, a text that is not a
number, the threshold of a scan and of a compare is NaN and not 70: a
candidate answered with confidence 81 is not matched and the response echoes
NaN; with the variable set to the empty text the threshold is 0. -/
theorem threshold_not_numeric_counterexample :
    thresholdOf (cfgThreshold "high") = .nan ∧
    (scanRoute .mess (cfgThreshold "high") world81Only sampleReq).response.threshold =
      some .nan ∧
    (scanRoute .mess (cfgThreshold "high") world81Only sampleReq).response.matched =
      some false ∧
    (scanRoute .mess sampleCfg world81Only sampleReq).response.matched = some true ∧
    (compareRoute .mess (cfgThreshold "high") (worldCompare 81)
      sampleCompareReq).response.threshold = some .nan ∧
    (compareRoute .mess (cfgThreshold "high") (worldCompare 81)
      sampleCompareReq).response.matched = some false ∧
    thresholdOf (cfgThreshold "") = .fin 0 := by
  decide!

/-- C23, amended: the threshold echoed by every scan that reaches its loop and
by every compare that reaches its decision is `Number(FACEPP_THRESHOLD ?? 70)`,
and it is the number the decision compares with: 70 when the variable is not
set, and otherwise the number its text converts to. -/
theorem threshold_configuration (sec : SectionId) (cfg : Config) (w : World)
    (req : Request) (staff : Staff) (probe : Bytes)
    (hg : passesGuards sec req staff probe) (hsel : w.selectError = none) :
    (gallery w.db ≠ [] →
      (scanRoute sec cfg w req).response.threshold = some (thresholdOf cfg) ∧
      ((scanRoute sec cfg w req).response.matched = some true →
        (scanRoute sec cfg w req).response.confidence =
          some (routeLoop cfg w probe).matchedConfidence ∧
        (routeLoop cfg w probe).matchedConfidence.ge (thresholdOf cfg) = true)) ∧
    (∀ userRow cmp, reachesDecision sec cfg w req staff probe userRow cmp →
      (compareRoute sec cfg w req).response.threshold = some (thresholdOf cfg) ∧
      (compareRoute sec cfg w req).response.matched =
        some ((compareConfidence cmp).ge (thresholdOf cfg))) ∧
    (cfg.FACEPP_THRESHOLD = none → thresholdOf cfg = .fin 70) ∧
    (∀ s, cfg.FACEPP_THRESHOLD = some s → thresholdOf cfg = stringToNumber s) := by
  refine ⟨?_, ?_, ?_, ?_⟩
  · intro hne
    cases hm : (routeLoop cfg w probe).matchedUser with
    | none =>
      have h := scanRoute_nomatch sec cfg w req staff probe hg hsel hne hm
      rw [h.1]
      exact ⟨rfl, fun hc => by simp at hc⟩
    | some mu =>
      have h := scanRoute_match sec cfg w req staff probe mu hg hsel hne hm
      refine ⟨h.2.2.2.2.1, fun _ => ⟨h.2.2.2.1, ?_⟩⟩
      exact (scanLoop_matched_ge cfg (thresholdOf cfg) probe w.net (gallery w.db) 0
        (.value .null) mu hm).1
  · intro userRow cmp hd
    have h := compareRoute_decision sec cfg w req staff probe userRow cmp hd
    exact ⟨h.2.2.2.2.1, h.2.2.1⟩
  · intro h
    simp [thresholdOf, h]
  · intro s h
    simp [thresholdOf, h]

/-- Witness of C23 (amended): with `FACEPP_THRESHOLD=85` the scan answered
with confidence 81 echoes the threshold 85 and reports no match. -/
theorem threshold_configuration_witness :
    passesGuards .mess sampleReq sampleStaff [255, 216, 255] ∧
    world81Only.selectError = none ∧
    thresholdOf (cfgThreshold "85") = .fin 85 ∧
    (scanRoute .mess (cfgThreshold "85") world81Only sampleReq).response.threshold =
      some (thresholdOf (cfgThreshold "85")) ∧
    (scanRoute .mess (cfgThreshold "85") world81Only sampleReq).response.matched =
      some false :=
  ⟨⟨rfl, rfl, rfl⟩, rfl, by decide!,
   ((threshold_configuration .mess (cfgThreshold "85") world81Only sampleReq
      sampleStaff [255, 216, 255] ⟨rfl, rfl, rfl⟩ rfl).1 (by decide)).1,
   by decide!⟩

/-- C26, counterexample: for a gallery of the single user 2 and a compare
request that targets user 2, (a) on the response
`{ confidence: 85, error_message: ... }` at threshold 70 the scan reports
`matched: true` while the compare answers status 500 without a decision,
(b) on a response without `confidence` at threshold -5 the scan reports
`matched: false` while the compare reports `matched: true` with confidence
-1, and (c) on the response `{ confidence: null }` at threshold 0 the scan
reports `matched: true` with confidence 0 while the compare reports
`matched: false` with confidence -1. -/
theorem scan_compare_disagree_counterexample :
    gallery worldConfidenceAndError.db = [sampleUser 2] ∧
    ((scanRoute .mess sampleCfg worldConfidenceAndError sampleReq).response.matched =
        some true ∧
      (compareRoute .mess sampleCfg worldConfidenceAndError
        sampleCompareReq).response.matched = none ∧
      (compareRoute .mess sampleCfg worldConfidenceAndError
        sampleCompareReq).response.status = 500) ∧
    ((scanRoute .mess (cfgThreshold "-5") worldNoConfidence sampleReq).response.matched =
        some false ∧
      (compareRoute .mess (cfgThreshold "-5") worldNoConfidence
        sampleCompareReq).response.matched = some true ∧
      (compareRoute .mess (cfgThreshold "-5") worldNoConfidence
        sampleCompareReq).response.confidence = some (.fin (-1))) ∧
    ((scanRoute .mess (cfgThreshold "0") worldNullConfidence sampleReq).response.matched =
        some true ∧
      (scanRoute .mess (cfgThreshold "0") worldNullConfidence
        sampleReq).response.confidence = some (.fin 0) ∧
      (compareRoute .mess (cfgThreshold "0") worldNullConfidence
        sampleCompareReq).response.matched = some false ∧
      (compareRoute .mess (cfgThreshold "0") worldNullConfidence
        sampleCompareReq).response.confidence = some (.fin (-1))) := by
  decide!

/-- C26 (amended).  For a gallery holding exactly the subject `u`, a scan and
a compare that targets `u` with the same probe and the same adapter result
agree on `matched: true` at every threshold, and report the same confidence
and the same student when the scan matches, for every adapter result except a
body with (a) a truthy `error_message` and a `confidence` that reaches the
threshold, (b) no `error_message` and no `confidence` when `-1` reaches the
threshold, (c) no `error_message` and the `confidence` `null` when `0`
reaches the threshold; on each of these the two routes differ in `matched` or
in the confidence of the match. -/
theorem scan_compare_agree_on_single_candidate (sec : SectionId) (cfg : Config)
    (w : World) (req creq : Request) (staff : Staff) (probe : Bytes) (u : UserRow)
    (hg : passesGuards sec req staff probe)
    (hcg : passesGuards sec creq staff probe)
    (hsel : w.selectError = none)
    (hgal : gallery w.db = [u])
    (hfind : findsTarget w creq u) :
    (agreeable (thresholdOf cfg) (observe cfg (w.net 0)) = true →
      ((scanRoute sec cfg w req).response.matched = some true ↔
        (compareRoute sec cfg w creq).response.matched = some true) ∧
      ((scanRoute sec cfg w req).response.matched = some true →
        (scanRoute sec cfg w req).response.confidence =
          (compareRoute sec cfg w creq).response.confidence ∧
        (scanRoute sec cfg w req).response.student =
          (compareRoute sec cfg w creq).response.student)) ∧
    (agreeable (thresholdOf cfg) (observe cfg (w.net 0)) = false →
      ¬ (((scanRoute sec cfg w req).response.matched = some true ↔
          (compareRoute sec cfg w creq).response.matched = some true) ∧
        ((scanRoute sec cfg w req).response.matched = some true →
          (scanRoute sec cfg w req).response.confidence =
            (compareRoute sec cfg w creq).response.confidence))) := by
  have hphoto : u.photo_data ≠ none := by
    have hu : u ∈ gallery w.db := by rw [hgal]; simp
    simp only [gallery, List.mem_filter] at hu
    intro h
    rw [h] at hu
    simp at hu
  obtain ⟨sYes, sNo⟩ := scanRoute_single sec cfg w req staff probe u hg hsel hgal
  obtain ⟨cDec, cNone⟩ :=
    compareRoute_single sec cfg w creq staff probe u hcg hsel hfind hphoto
  cases ho : observe cfg (w.net 0) with
  | threw e =>
    rw [ho] at sYes sNo cDec cNone
    have s := sNo (by simp [accepts, usableConfidence])
    have c := cNone (by intro cmp h; cases h)
    rw [s, c]
    simp [agreeable]
  | returned cmp =>
    rw [ho] at sYes sNo cDec cNone
    cases htr : cmp.truthy with
    | false =>
      have s := sNo (by simp [accepts, usableConfidence, htr])
      have c := cNone (by
        intro cmp' h
        injection h with h
        subst h
        exact Or.inl htr)
      rw [s, c]
      simp [agreeable, htr]
    | true =>
      cases hem : (cmp.get "error_message").truthy with
      | true =>
        have c := cNone (by
          intro cmp' h
          injection h with h
          subst h
          exact Or.inr hem)
        rw [c]
        cases ha : (cmp.get "confidence" != JSVal.undefined &&
            (cmp.get "confidence").toNumber.ge (thresholdOf cfg)) with
        | false =>
          have s := sNo (by
            simp only [Bool.and_eq_false_iff, bne_eq_false_iff_eq] at ha
            rcases ha with h | h
            · simp [accepts, usableConfidence, h]
            · by_cases hu : cmp.get "confidence" = JSVal.undefined
              · simp [accepts, usableConfidence, hu]
              · simp [accepts, usableConfidence, htr, hu, h])
          rw [s]
          simp [agreeable, htr, hem, ha]
        | true =>
          simp only [Bool.and_eq_true, bne_iff_ne, ne_eq] at ha
          obtain ⟨s1, _, _⟩ := sYes (cmp.get "confidence").toNumber
            (by simp [usableConfidence, htr, ha.1]) ha.2
          rw [s1]
          simp [agreeable, htr, hem, ha.1, ha.2]
      | false =>
        obtain ⟨c1, c2, c3⟩ := cDec cmp rfl htr hem
        rw [c1, c2, c3]
        by_cases hu : cmp.get "confidence" = JSVal.undefined
        · have hcc : compareConfidence cmp = .fin (-1) := by
            simp [compareConfidence, hu, JSVal.orElse, JSVal.toNumber]
          have s := sNo (by simp [accepts, usableConfidence, hu])
          rw [s, hcc]
          cases hge : JSNum.ge (.fin (-1)) (thresholdOf cfg) <;>
            simp [agreeable, htr, hem, hu, hge]
        · by_cases hn : cmp.get "confidence" = JSVal.null
          · have hcc : compareConfidence cmp = .fin (-1) := by
              simp [compareConfidence, hn, JSVal.orElse, JSVal.toNumber]
            have hus : usableConfidence (.returned cmp) = some (.fin 0) := by
              simp [usableConfidence, htr, hn, JSVal.toNumber]
            rw [hcc]
            cases hz : JSNum.ge (.fin 0) (thresholdOf cfg) with
            | false =>
              have hm1 : JSNum.ge (.fin (-1)) (thresholdOf cfg) = false := by
                cases h : JSNum.ge (.fin (-1)) (thresholdOf cfg) with
                | false => rfl
                | true => rw [ge_minus_one_ge_zero _ h] at hz; simp at hz
              have s := sNo (by simp [accepts, hus, hz])
              rw [s, hm1]
              simp [agreeable, htr, hem, hn, hz]
            | true =>
              obtain ⟨s1, s2, _⟩ := sYes _ hus hz
              rw [s1, s2]
              cases hm1 : JSNum.ge (.fin (-1)) (thresholdOf cfg) <;>
                simp [agreeable, htr, hem, hn, hz]
          · have hcc : compareConfidence cmp = (cmp.get "confidence").toNumber := by
              unfold compareConfidence JSVal.orElse
              split
              · rename_i h; exact absurd h hu
              · rename_i h; exact absurd h hn
              · rfl
            have hus : usableConfidence (.returned cmp) =
                some (cmp.get "confidence").toNumber := by
              simp [usableConfidence, htr, hu]
            rw [hcc]
            cases hge : (cmp.get "confidence").toNumber.ge (thresholdOf cfg) with
            | false =>
              have s := sNo (by simp [accepts, hus, hge])
              rw [s]
              simp [agreeable, htr, hem, hu, hn]
            | true =>
              obtain ⟨s1, s2, s3⟩ := sYes _ hus hge
              rw [s1, s2, s3]
              simp [agreeable, htr, hem, hu, hn]

/-- Witness of C26 (amended): on the gallery of the single user 2 answered
with confidence 81, the scan and the compare that targets user 2 both report
`matched: true` with confidence 81. -/
theorem scan_compare_agree_on_single_candidate_witness :
    passesGuards .mess sampleReq sampleStaff [255, 216, 255] ∧
    passesGuards .mess sampleCompareReq sampleStaff [255, 216, 255] ∧
    gallery world81Only.db = [sampleUser 2] ∧
    findsTarget world81Only sampleCompareReq (sampleUser 2) ∧
    agreeable (thresholdOf sampleCfg) (observe sampleCfg (world81Only.net 0)) = true ∧
    (scanRoute .mess sampleCfg world81Only sampleReq).response.matched = some true ∧
    (compareRoute .mess sampleCfg world81Only sampleCompareReq).response.matched =
      some true ∧
    (scanRoute .mess sampleCfg world81Only sampleReq).response.confidence =
      some (.fin 81) ∧
    (compareRoute .mess sampleCfg world81Only sampleCompareReq).response.student =
      some { id := 2, name := "Student", student_id := "2sd23is012",
             attr := some true, photo_url := "/user/photo/2" } ∧
    (scanRoute .mess sampleCfg world81Only sampleReq).response.confidence =
      (compareRoute .mess sampleCfg world81Only sampleCompareReq).response.confidence :=
  ⟨⟨rfl, rfl, rfl⟩, ⟨rfl, rfl, rfl⟩, by decide, ⟨"2", 2, by decide, by decide, by decide⟩,
   by decide, by decide, by decide, by decide, by decide,
   (((scan_compare_agree_on_single_candidate .mess sampleCfg world81Only sampleReq
      sampleCompareReq sampleStaff [255, 216, 255] (sampleUser 2) ⟨rfl, rfl, rfl⟩
      ⟨rfl, rfl, rfl⟩ rfl (by decide) ⟨"2", 2, by decide, by decide, by decide⟩).1
      (by decide)).2 (by decide)).1⟩

/-- C25: without any session, the identify route of each of the three
sections answers `ok: true`, discloses the student and writes a visit row, and
the gym and the sports staff page render the stored visits; the mess page
redirects the same request to the login page and the scan route turns it down
with status 403 and writes nothing. -/
theorem identify_and_pages_skip_section_check :
    ¬ authorized .gym reqNoSession ∧
    identifyNoSession.staff = none ∧
    (∀ sec : SectionId,
      (identifyRoute sec world81Only identifyNoSession []).response.ok = true ∧
      (identifyRoute sec world81Only identifyNoSession []).response.student =
        some (studentOf (sampleUser 2)) ∧
      (identifyRoute sec world81Only identifyNoSession []).db.visits sec =
        [{ id := 1, user_id := 2, student_id := "2sd23is012",
           student_name := "Student", attr := some true, created_at := 1000,
           staff_id := none }]) ∧
    staffPage .gym reqNoSession (.ok [storedVisit]) =
      .render "staffGym" [pageVisitOf storedVisit] none ∧
    staffPage .sports reqNoSession (.ok [storedVisit]) =
      .render "staffSports" [pageVisitOf storedVisit] none ∧
    staffPage .mess reqNoSession (.ok [storedVisit]) = .redirect "/adminLogin" ∧
    (scanRoute .gym sampleCfg world81Only reqNoSession).response.status = 403 ∧
    (scanRoute .gym sampleCfg world81Only reqNoSession).db = world81Only.db := by
  refine ⟨?_, rfl, ?_, by decide, by decide, by decide, by decide, by decide⟩
  · intro h
    obtain ⟨staff, h1, _⟩ := h
    exact Option.noConfusion h1
  · intro sec
    cases sec <;> decide

/-- C28: the scan that matches user 2, whose student id is `2sd23is012`,
returns the photo path `/user/photo/2`, which the photo route answers with the
stored image; the staff page derives `/user/photo/2sd23is012` from the ledger
row of the same visit, a path the photo route answers with status 500. -/
theorem staff_page_photo_path_uses_student_id :
    (scanRoute .mess sampleCfg world81Only sampleReq).response.recentVisit.map
      (fun v => v.photo_path) = some "/user/photo/2" ∧
    (scanRoute .mess sampleCfg world81Only sampleReq).db.visits .mess =
      [{ id := 1, user_id := 2, student_id := "2sd23is012",
         student_name := "Student", attr := some true, created_at := 1000,
         staff_id := some 7 }] ∧
    isNewestFirst ((scanRoute .mess sampleCfg world81Only sampleReq).db.visits .mess)
      500 ((scanRoute .mess sampleCfg world81Only sampleReq).db.visits .mess) ∧
    staffPage .mess sampleReq
        (.ok ((scanRoute .mess sampleCfg world81Only sampleReq).db.visits .mess)) =
      .render "staffMess"
        [{ id := 1, student_id := "2sd23is012", student_name := "Student",
           attr := some true, photo_path := some "/user/photo/2sd23is012",
           created_at := 1000 }] none ∧
    loadPhoto world81Only "/user/photo/2" = .jpeg [2] ∧
    loadPhoto world81Only "/user/photo/2sd23is012" = .status 500 := by
  refine ⟨by decide, by decide, ⟨_, List.Perm.refl _, ?_, ?_⟩, by decide, by decide,
    by decide⟩
  · have h : (scanRoute .mess sampleCfg world81Only sampleReq).db.visits .mess =
        [{ id := 1, user_id := 2, student_id := "2sd23is012",
           student_name := "Student", attr := some true, created_at := 1000,
           staff_id := some 7 }] := by decide
    rw [h]
    simp
  · have h : (scanRoute .mess sampleCfg world81Only sampleReq).db.visits .mess =
        [{ id := 1, user_id := 2, student_id := "2sd23is012",
           student_name := "Student", attr := some true, created_at := 1000,
           staff_id := some 7 }] := by decide
    rw [h]
    rfl

/-- C22, counterexample: the mess ledger holds a visit stamped 2000 when a
scan matches and stores visit 6 at database time 1000.  The newest-first read
made next returns the older entry with id 5 first and visit 6 second; the
other order is not sorted by `created_at` descending. -/
theorem scan_visit_not_first_on_page_counterexample :
    (scanRoute .mess sampleCfg worldLaterVisit sampleReq).response.matched = some true ∧
    (scanRoute .mess sampleCfg worldLaterVisit sampleReq).response.inserted_visit_id =
      some (some 6) ∧
    (scanRoute .mess sampleCfg worldLaterVisit sampleReq).db.visits .mess =
      [laterVisit, scannedVisit] ∧
    isNewestFirst [laterVisit, scannedVisit] 500 [laterVisit, scannedVisit] ∧
    ¬ List.Pairwise (fun a b : VisitRow => b.created_at ≤ a.created_at)
      [scannedVisit, laterVisit] ∧
    staffPage .mess sampleReq (.ok [laterVisit, scannedVisit]) =
      .render "staffMess" [pageVisitOf laterVisit, pageVisitOf scannedVisit] none ∧
    (pageVisitOf laterVisit).id = 5 := by
  refine ⟨by decide, by decide, by decide, ⟨_, List.Perm.refl _, by decide, rfl⟩,
    by decide, by decide, rfl⟩

/-- C22, amended: when a scan reports `matched: true` with the stored visit
`vid`, and every visit the section's ledger held before is stamped earlier
than the database clock of the insert, every newest-first read of the ledger
made next is rendered by the staff page with that visit as its first element:
its id is `vid`, the id of the `recentVisit` of the scan response, and its
student id is the student id of that `recentVisit`. -/
theorem scan_visit_is_first_on_page (sec : SectionId) (cfg : Config) (w : World)
    (req : Request) (vid : Nat) (rows : List VisitRow)
    (hm : (scanRoute sec cfg w req).response.matched = some true)
    (hid : (scanRoute sec cfg w req).response.inserted_visit_id = some (some vid))
    (hold : ∀ r ∈ w.db.visits sec, r.created_at < w.dbNow)
    (hrows : isNewestFirst ((scanRoute sec cfg w req).db.visits sec) 500 rows) :
    ∃ v rest rv,
      staffPage sec req (.ok rows) = .render (viewOf sec) (v :: rest) none ∧
      (scanRoute sec cfg w req).response.recentVisit = some rv ∧
      v.id = vid ∧ rv.id = some vid ∧ v.student_id = rv.student_id := by
  rcases scanRoute_guarded sec cfg w req with ⟨staff, probe, hg, hsel, hne⟩ | hno
  · cases hmu : (routeLoop cfg w probe).matchedUser with
    | none =>
      have h := (scanRoute_nomatch sec cfg w req staff probe hg hsel hne hmu).1
      rw [h] at hm
      simp at hm
    | some mu =>
      obtain ⟨_, _, _, _, _, _, m7, _, _, m10, _⟩ :=
        scanRoute_match sec cfg w req staff probe mu hg hsel hne hmu
      obtain ⟨rv, hrv, hsid, _, _, _, hrid⟩ :=
        scanRoute_recentVisit sec cfg w req staff probe mu hg hsel hne hmu
      cases hie : w.insertError with
      | some e =>
        rw [m7, hie] at hid
        simp at hid
      | none =>
        rw [m7, hie] at hid
        simp only [Option.some.injEq] at hid
        have hdb : (scanRoute sec cfg w req).db.visits sec = w.db.visits sec ++
            [{ id := w.nextVisitId, user_id := mu.id, student_id := mu.student_id,
               student_name := mu.fullname, attr := mu.attr, created_at := w.dbNow,
               staff_id := staffIdOrNull staff }] := by
          rw [m10]
          simp only [insertVisit, hie, visitArgs]
          exact visits_addVisit _ _ _
        rw [hdb] at hrows
        obtain ⟨rest, hrest⟩ := isNewestFirst_head _ _ 500 rows (by decide) hold hrows
        refine ⟨pageVisitOf
          { id := w.nextVisitId, user_id := mu.id, student_id := mu.student_id,
            student_name := mu.fullname, attr := mu.attr, created_at := w.dbNow,
            staff_id := staffIdOrNull staff },
          rest.map pageVisitOf, rv, ?_, hrv, hid,
          by rw [(hrid hie).1, hid], by rw [hsid]; rfl⟩
        obtain ⟨h1, h2, _⟩ := hg
        rw [hrest]
        cases sec
        · simp only [staffPage, h1]
          rw [if_neg (by simpa [SectionId.name] using h2)]
          rfl
        · rfl
        · rfl
  · exact absurd hm hno.1

/-- Witness of C22 (amended): the mess ledger holds visit 5, stamped 900, when
the scan answered with confidence 81 stores visit 6 at database time 1000; the
page read made next shows visit 6 first and visit 5 second. -/
theorem scan_visit_is_first_on_page_witness :
    worldEarlierVisit.db.visits .mess = [storedVisit] ∧
    (∀ r ∈ worldEarlierVisit.db.visits .mess, r.created_at < worldEarlierVisit.dbNow) ∧
    (scanRoute .mess sampleCfg worldEarlierVisit sampleReq).response.inserted_visit_id =
      some (some 6) ∧
    (scanRoute .mess sampleCfg worldEarlierVisit sampleReq).db.visits .mess =
      [storedVisit, scannedVisit] ∧
    staffPage .mess sampleReq (.ok [scannedVisit, storedVisit]) =
      .render "staffMess" [pageVisitOf scannedVisit, pageVisitOf storedVisit] none ∧
    ∃ v rest rv,
      staffPage .mess sampleReq (.ok [scannedVisit, storedVisit]) =
        .render (viewOf .mess) (v :: rest) none ∧
      (scanRoute .mess sampleCfg worldEarlierVisit sampleReq).response.recentVisit =
        some rv ∧
      v.id = 6 ∧ rv.id = some 6 ∧ v.student_id = rv.student_id :=
  ⟨by decide, by decide, by decide, by decide, by decide,
   scan_visit_is_first_on_page .mess sampleCfg worldEarlierVisit sampleReq 6
     [scannedVisit, storedVisit]
     (by decide) (by decide) (by decide)
     ⟨[scannedVisit, storedVisit], List.Perm.swap _ _ _, by decide, by decide⟩⟩

end SmartCampus
